import Mathlib

/-! # OpenOMF computer opponent: the AI controller

A shallow embedding of `src/controller/ai_controller.c` and theorems about it.

Conventions of the embedding.

* C `int` fields are Lean `Int`; no run of the controller is long enough for a
  counter to leave the 32-bit range, and signed overflow has no defined
  behaviour in C, so no wrap-around is modelled for them.  The pilot's
  `int16_t` preferences are wrapped explicitly where the source adds to them.
* Every call of `rand_int` consumes one raw draw of an explicit generator
  state `Rng`; the short-circuit operators `&&` and `||` of the source decide
  which draws are consumed, and are rendered by `r_and` and `r_or`.
* What the controller reads from the fighter engine (`ctrl->har`, the enemy
  object, the game state) is gathered in `fighter_view`; it is an input of
  every call.
* `controller_cmd` appends one action to the list of emitted actions.
* Horizontal positions are integers (the source converts them to `int` before
  every use that is modelled here).
-/

namespace OpenOMF

/-! ## Constants of the source -/

abbrev MAX_TIMES_THROWN : Int := 3
abbrev MAX_TIMES_SHOT : Int := 4
abbrev BASE_ACT_THRESH : Int := 90
abbrev BASE_ACT_TIMER : Int := 28
abbrev BASE_MOVE_THRESH : Int := 16
abbrev BASE_FWD_THRESH : Int := 50
abbrev BASE_FWD_JUMP_THRESH : Int := 76
abbrev BASE_BACK_JUMP_THRESH : Int := 82
abbrev BASE_STILL_JUMP_THRESH : Int := 95
abbrev TACTIC_MOVE_TIMER_MAX : Int := 5
abbrev TACTIC_ATTACK_TIMER_MAX : Int := 2

abbrev TACTIC_ESCAPE : Int := 1
abbrev TACTIC_TURTLE : Int := 2
abbrev TACTIC_GRAB : Int := 3
abbrev TACTIC_SPAM : Int := 4
abbrev TACTIC_SHOOT : Int := 5
abbrev TACTIC_TRIP : Int := 6
abbrev TACTIC_QUICK : Int := 7
abbrev TACTIC_CLOSE : Int := 8
abbrev TACTIC_FLY : Int := 9
abbrev TACTIC_PUSH : Int := 10
abbrev TACTIC_COUNTER : Int := 11

abbrev MOVE_CLOSE : Int := 1
abbrev MOVE_AVOID : Int := 2
abbrev MOVE_JUMP : Int := 3
abbrev MOVE_BLOCK : Int := 4

abbrev ATTACK_ID : Int := 1
abbrev ATTACK_TRIP : Int := 2
abbrev ATTACK_GRAB : Int := 3
abbrev ATTACK_LIGHT : Int := 4
abbrev ATTACK_HEAVY : Int := 5
abbrev ATTACK_JUMP : Int := 6
abbrev ATTACK_RANGED : Int := 7
abbrev ATTACK_CHARGE : Int := 8
abbrev ATTACK_PUSH : Int := 9
abbrev ATTACK_RANDOM : Int := 10

abbrev RANGE_CRAMPED : Int := 0
abbrev RANGE_CLOSE : Int := 1
abbrev RANGE_MID : Int := 2
abbrev RANGE_FAR : Int := 3

/-! ## Constants declared outside the available sources -/

/-- Modelled from the spec: the HAR identifiers `HAR_*` are declared in a header
that is not among the sources; the glossary numbers them 0..10 in the order
Jaguar, Shadow, Katana, Flail, Thorn, Pyros, Electra, Shredder, Chronos,
Gargoyle, Nova. -/
abbrev HAR_JAGUAR : Int := 0
abbrev HAR_SHADOW : Int := 1
abbrev HAR_KATANA : Int := 2
abbrev HAR_FLAIL : Int := 3
abbrev HAR_THORN : Int := 4
abbrev HAR_PYROS : Int := 5
abbrev HAR_ELECTRA : Int := 6
abbrev HAR_SHREDDER : Int := 7
abbrev HAR_CHRONOS : Int := 8
abbrev HAR_GARGOYLE : Int := 9
abbrev HAR_NOVA : Int := 10

/-- Modelled from the spec: the move categories `CAT_*` are declared in a header
that is not among the sources.  The data model calls `chain_hit_on` a
"move-category sentinel or 0", so the named categories are taken to be
pairwise distinct positive integers; nothing below depends on the particular
numbers.  A move may carry any integer as its category, the named ones or
another one (0 included). -/
abbrev CAT_THROW : Int := 1
abbrev CAT_CLOSE : Int := 2
abbrev CAT_LOW : Int := 4
abbrev CAT_MEDIUM : Int := 5
abbrev CAT_HIGH : Int := 6
abbrev CAT_JUMPING : Int := 7
abbrev CAT_PROJECTILE : Int := 8
abbrev CAT_BASIC : Int := 9
abbrev CAT_SCRAP : Int := 12
abbrev CAT_DESTRUCTION : Int := 13

/-- Modelled from the spec: the action bits `ACT_*` are declared in a header that
is not among the sources; an action is a bitmask over Up, Down, Left, Right,
Punch, Kick and Stop, so each named action is given one bit of its own. -/
abbrev ACT_STOP : Nat := 1
abbrev ACT_KICK : Nat := 2
abbrev ACT_PUNCH : Nat := 4
abbrev ACT_UP : Nat := 8
abbrev ACT_DOWN : Nat := 16
abbrev ACT_LEFT : Nat := 32
abbrev ACT_RIGHT : Nat := 64

/-- Modelled from the spec: the fighter states `STATE_*` are declared in a header
that is not among the sources.  The eight states the controller names are
constructors of their own; `STATE_OTHER` stands for every state it does not
name (recoiling, stunned, fallen and so on). -/
inductive har_state where
  | STATE_STANDING
  | STATE_WALKTO
  | STATE_WALKFROM
  | STATE_CROUCHBLOCK
  | STATE_CROUCHING
  | STATE_JUMPING
  | STATE_VICTORY
  | STATE_SCRAP
  | STATE_OTHER
  deriving DecidableEq, Repr

/-- Modelled from the spec: the event kinds `HAR_EVENT_*` are declared in a
header that is not among the sources.  The nine kinds the controller handles
are constructors of their own; `HAR_EVENT_OTHER` stands for every kind that
falls through its switches. -/
inductive har_event_type where
  | HAR_EVENT_BLOCK
  | HAR_EVENT_LAND
  | HAR_EVENT_HIT_WALL
  | HAR_EVENT_TAKE_HIT
  | HAR_EVENT_ATTACK
  | HAR_EVENT_ENEMY_BLOCK
  | HAR_EVENT_LAND_HIT
  | HAR_EVENT_ENEMY_STUN
  | HAR_EVENT_RECOVER
  | HAR_EVENT_OTHER
  deriving DecidableEq, Repr

/-- Facing of an object, `OBJECT_FACE_LEFT` or `OBJECT_FACE_RIGHT`. -/
inductive facing where
  | OBJECT_FACE_LEFT
  | OBJECT_FACE_RIGHT
  deriving DecidableEq, Repr

open har_state har_event_type facing

/-! ## Data model -/

/-- One entry of the learning table, `move_stat` of the source. -/
structure move_stat where
  max_hit_dist : Int
  min_hit_dist : Int
  value : Int
  attempts : Int
  consecutive : Int
  last_dist : Int
  deriving DecidableEq, Repr

/-- The queued tactic, `tactic_state` of the source.  `attack_on` holds an event
kind or 0; 0 is `none`. -/
structure tactic_state where
  tactic_type : Int
  last_tactic : Int
  move_type : Int
  move_timer : Int
  attack_type : Int
  attack_id : Int
  attack_timer : Int
  attack_on : Option har_event_type
  chain_hit_on : Int
  chain_hit_tactic : Int
  deriving DecidableEq, Repr

/-- A move of the catalog: the fields of `af_move` the controller reads.  The
learning table has 70 entries and the source indexes it with `move->id`, so an
identifier is a `Fin 70`.  `damage` is held as an integer: the declaration of
`af_move` is not among the sources, the source casts the field with `(int)` at
every arithmetic use, and a fractional part is not modelled. -/
structure af_move where
  id : Fin 70
  category : Int
  damage : Int
  move_string : List Char
  deriving DecidableEq, Repr

/-- The fields of `sd_pilot` the controller reads or writes: the attitude flags
(`uint8_t`) and the preferences (`int16_t`). -/
structure sd_pilot where
  att_normal : Nat
  att_hyper : Nat
  att_jump : Nat
  att_def : Nat
  att_sniper : Nat
  ap_throw : Int
  ap_special : Int
  ap_jump : Int
  ap_high : Int
  ap_low : Int
  ap_middle : Int
  pref_jump : Int
  pref_fwd : Int
  pref_back : Int
  deriving DecidableEq, Repr

/-- What `ai_block_projectile` reads of a projectile object. -/
structure projectile where
  owned_by_self : Bool
  cur_sprite : Option Int
  pos_x : Int
  size_x : Int
  direction : facing
  deriving DecidableEq, Repr

/-- The controller state, `ai` of the source; the pilot it points to is held by
value. -/
structure ai where
  har_event_hooked : Int
  difficulty : Int
  act_timer : Int
  cur_act : Nat
  input_lag : Int
  input_lag_timer : Int
  selected_move : Option af_move
  last_move_id : Int
  move_str_pos : Int
  move_stats : Fin 70 → move_stat
  blocked : Int
  thrown : Int
  shot : Int
  tactic : tactic_state
  pilot : sd_pilot
  active_projectiles : List projectile

/-- What the controller reads from the fighter engine in one call: its own HAR
(`h`, `o`), the enemy object, the move catalog `af_get_move(h->af_data, i)`,
and the game state. -/
structure fighter_view where
  state : har_state
  close : Bool
  is_wallhugging : Bool
  id : Int
  direction : facing
  pos_x : Int
  vel_x : Int
  crouching : Bool
  enemy_pos_x : Int
  enemy_executing_move : Bool
  enemy_crouching : Bool
  af_get_move : Nat → Option af_move
  paused : Bool
  in_arena : Bool
  arena_fighting : Bool
  projectiles : List projectile

/-- A combat event: its kind and the move it refers to. -/
structure har_event where
  type : har_event_type
  move : af_move

/-! ## Randomness -/

/-- The state of the process-wide generator: an unending sequence of raw draws
and the index of the next one. -/
structure Rng where
  draws : Nat → Nat
  pos : Nat

/-- A computation that may consume draws. -/
abbrev Rand (α : Type) := Rng → α × Rng

/-- Modelled from the spec: `rand_int` is defined outside the available sources;
`rand_int(n)` is a uniform draw in `[0, n)`, here the next raw draw reduced
modulo `n`. -/
def rand_int (n : Nat) : Rand Nat :=
  fun r => (r.draws r.pos % n, { r with pos := r.pos + 1 })

def r_pure (b : Bool) : Rand Bool :=
  fun r => (b, r)

/-- Short-circuit conjunction: the right operand runs only if the left is true. -/
def r_and (x y : Rand Bool) : Rand Bool :=
  fun r => if (x r).1 then y (x r).2 else (false, (x r).2)

/-- Short-circuit disjunction: the right operand runs only if the left is false. -/
def r_or (x y : Rand Bool) : Rand Bool :=
  fun r => if (x r).1 then (true, (x r).2) else y (x r).2

def r_not (x : Rand Bool) : Rand Bool :=
  fun r => (!(x r).1, (x r).2)

/-! ## Randomness and skill gates -/

def roll_chance (roll_x : Int) : Rand Bool :=
  fun r => if roll_x ≤ 1 then (true, r)
    else (decide ((rand_int roll_x.toNat r).1 = 1), (rand_int roll_x.toNat r).2)

def roll_pref (pref_val : Int) : Rand Bool :=
  fun r =>
    let rand_roll : Int := (rand_int 800 r).1
    let pref_thresh := pref_val + 400
    (decide (rand_roll ≤ pref_thresh), (rand_int 800 r).2)

def smart_usually (a : ai) : Rand Bool :=
  fun r =>
    if a.difficulty = 6 then r_not (roll_chance 12) r
    else if a.difficulty ≥ 3 then roll_chance (7 - a.difficulty) r
    else (false, r)

def dumb_usually (a : ai) : Rand Bool :=
  fun r =>
    if a.difficulty = 1 then r_not (roll_chance 12) r
    else if a.difficulty ≤ 2 then roll_chance (a.difficulty + 1) r
    else (false, r)

def smart_sometimes (a : ai) : Rand Bool :=
  fun r =>
    if a.difficulty ≥ 2 then roll_chance (10 - a.difficulty) r
    else (false, r)

def dumb_sometimes (a : ai) : Rand Bool :=
  fun r =>
    if a.difficulty ≤ 2 then roll_chance (a.difficulty + 2) r
    else (false, r)

def diff_scale (a : ai) : Rand Bool :=
  fun r =>
    let roll : Int := (rand_int 36 r).1
    (decide (roll ≤ a.difficulty * a.difficulty), (rand_int 36 r).2)

/-! ## Range, move and HAR predicates -/

/-- The range classification.  The source declares the function as returning
`bool`, so the class computed by the switch is converted to 0 or 1 on return. -/
def get_enemy_range (v : fighter_view) : Int :=
  let range_units := Int.tdiv |v.enemy_pos_x - v.pos_x| 50
  let cls :=
    if range_units = 0 ∨ range_units = 1 then RANGE_CRAMPED
    else if range_units = 2 then RANGE_CLOSE
    else if range_units = 3 ∨ range_units = 4 then RANGE_MID
    else RANGE_FAR
  if cls ≠ 0 then 1 else 0

/-- Equality of a move string with a literal (`str_equal_c`). -/
def str_equal_c (s c : List Char) : Bool :=
  decide (s = c)

def is_special_move (move : af_move) : Bool :=
  if !str_equal_c move.move_string ['K'] ||
     !str_equal_c move.move_string ['K', '1'] ||
     !str_equal_c move.move_string ['K', '2'] ||
     !str_equal_c move.move_string ['K', '3'] ||
     !str_equal_c move.move_string ['K', '4'] ||
     !str_equal_c move.move_string ['K', '6'] ||
     !str_equal_c move.move_string ['P'] ||
     !str_equal_c move.move_string ['P', '1'] ||
     !str_equal_c move.move_string ['P', '2'] ||
     !str_equal_c move.move_string ['P', '3'] ||
     !str_equal_c move.move_string ['P', '4'] ||
     !str_equal_c move.move_string ['P', '6']
  then false
  else true

def har_has_projectiles (har_id : Int) : Bool :=
  decide (har_id = HAR_JAGUAR ∨ har_id = HAR_SHADOW ∨ har_id = HAR_ELECTRA ∨
    har_id = HAR_SHREDDER ∨ har_id = HAR_CHRONOS ∨ har_id = HAR_NOVA)

def har_has_charge (har_id : Int) : Bool :=
  decide (har_id = HAR_JAGUAR ∨ har_id = HAR_SHADOW ∨ har_id = HAR_KATANA ∨
    har_id = HAR_FLAIL ∨ har_id = HAR_THORN ∨ har_id = HAR_PYROS ∨
    har_id = HAR_ELECTRA ∨ har_id = HAR_SHREDDER ∨ har_id = HAR_CHRONOS ∨
    har_id = HAR_GARGOYLE)

def har_has_push (har_id : Int) : Bool :=
  decide (har_id = HAR_JAGUAR ∨ har_id = HAR_KATANA ∨ har_id = HAR_FLAIL ∨
    har_id = HAR_THORN ∨ har_id = HAR_PYROS ∨ har_id = HAR_ELECTRA ∨
    har_id = HAR_NOVA)

/-! ## Tactic selector -/

def likes_tactic (v : fighter_view) (a : ai) (tactic_type : Int) : Rand Bool :=
  fun r =>
    let pilot := a.pilot
    let gate := r_or
      (r_and (r_pure (decide (a.tactic.last_tactic = tactic_type))) (roll_chance 2))
      (r_pure (decide (v.state = STATE_JUMPING))) r
    if gate.1 then (false, gate.2)
    else
      let r := gate.2
      let enemy_close := v.close
      let enemy_range := get_enemy_range v
      let wall_close := v.is_wallhugging
      if tactic_type = TACTIC_SHOOT then
        r_and (r_pure (har_has_projectiles v.id))
          (r_and
            (r_or (roll_pref a.pilot.ap_special)
              (r_or (r_and (r_pure (decide (pilot.att_def ≠ 0))) (roll_chance 6))
                (r_or (r_and (r_pure (decide (pilot.att_sniper ≠ 0))) (roll_chance 3))
                  (r_and (r_pure wall_close) (roll_chance 3)))))
            (r_or (r_pure (decide (v.id ≠ HAR_SHREDDER) && !enemy_close))
              (r_and (r_pure (decide (v.id = HAR_SHREDDER)))
                (r_or (r_and (r_pure (decide (enemy_range ≤ RANGE_MID))) (smart_usually a))
                  (dumb_sometimes a))))) r
      else if tactic_type = TACTIC_CLOSE then
        r_and (r_pure (!enemy_close))
          (r_or (r_and (r_pure (har_has_charge v.id)) (smart_usually a))
            (r_or (r_and (r_pure (decide (pilot.att_hyper ≠ 0))) (roll_chance 4))
              (roll_chance 6))) r
      else if tactic_type = TACTIC_QUICK then
        r_or
          (r_and (r_pure (decide (pilot.att_hyper ≠ 0) || decide (pilot.att_sniper ≠ 0)))
            (roll_chance 5))
          (roll_chance 10) r
      else if tactic_type = TACTIC_GRAB then
        r_and (r_or (r_pure (decide (a.thrown ≤ MAX_TIMES_THROWN))) (roll_chance 2))
          (r_or (r_and (r_pure (decide (pilot.att_hyper ≠ 0))) (roll_chance 3))
            (r_or
              (r_and (r_pure (decide (v.id = HAR_FLAIL) || decide (v.id = HAR_THORN)))
                (roll_chance 3))
              (roll_chance 6))) r
      else if tactic_type = TACTIC_TURTLE then
        r_and (r_pure (decide (a.thrown ≤ MAX_TIMES_THROWN)))
          (r_or (r_and (r_pure (decide (pilot.att_def ≠ 0))) (roll_chance 3))
            (roll_chance 10)) r
      else if tactic_type = TACTIC_COUNTER then
        r_and (r_pure (decide (a.thrown < MAX_TIMES_THROWN)))
          (r_or (r_and (r_pure (decide (pilot.att_def ≠ 0))) (roll_chance 3))
            (roll_chance 6)) r
      else if tactic_type = TACTIC_ESCAPE then
        r_or (r_and (r_pure (decide (pilot.att_jump ≠ 0))) (roll_chance 3))
          (roll_chance 6) r
      else if tactic_type = TACTIC_FLY then
        r_and
          (r_or (roll_pref a.pilot.pref_jump)
            (r_pure (decide (v.id = HAR_GARGOYLE) || decide (v.id = HAR_PYROS))))
          (r_or (r_pure (decide (pilot.att_jump ≠ 0)))
            (r_or (r_pure wall_close) (roll_chance 4))) r
      else if tactic_type = TACTIC_PUSH then
        r_and (r_pure (decide (enemy_range ≤ RANGE_MID)))
          (r_or (r_and (r_pure (har_has_push v.id)) (smart_usually a))
            (r_or (r_and (r_pure (decide (pilot.att_def ≠ 0))) (roll_chance 3))
              (r_or (r_and (r_pure wall_close) (roll_chance 3))
                (roll_chance 6)))) r
      else if tactic_type = TACTIC_TRIP then
        r_and (r_pure (decide (enemy_range ≤ RANGE_MID))) (roll_chance 3) r
      else if tactic_type = TACTIC_SPAM then
        r_and (r_or (r_pure enemy_close) (dumb_usually a))
          (r_and (r_or (r_pure wall_close) (roll_chance 6))
            (roll_chance 3)) r
      else (false, r)

/-! ## Tactic compiler -/

def queue_tactic (v : fighter_view) (a : ai) (tactic_type : Int) (r : Rng) : ai × Rng :=
  let last_tactic := if a.tactic.tactic_type > 0 then a.tactic.tactic_type else 0
  let enemy_close := v.close
  let wall_close := v.is_wallhugging
  let enemy_range := get_enemy_range v
  -- set move tactic: the new move_type, do_charge, and the generator afterwards
  let mv : Int × Bool × Rng :=
    if tactic_type = TACTIC_GRAB ∨ tactic_type = TACTIC_TRIP ∨
        tactic_type = TACTIC_QUICK ∨ tactic_type = TACTIC_CLOSE then
      if enemy_close then (0, false, r)
      else
        let c1 :=
          r_and
            (r_and
              (r_or (r_pure (decide (tactic_type = TACTIC_CLOSE)))
                (r_and (r_pure (decide (tactic_type = TACTIC_QUICK))) (roll_chance 3)))
              (smart_usually a))
            (r_pure (har_has_charge v.id)) r
        if c1.1 then (0, true, c1.2)
        else
          let c2 := r_and (smart_usually a) (roll_pref a.pilot.pref_jump) c1.2
          if c2.1 then (MOVE_JUMP, false, c2.2) else (MOVE_CLOSE, false, c2.2)
    else if tactic_type = TACTIC_FLY then (MOVE_JUMP, false, r)
    else if tactic_type = TACTIC_SHOOT then
      (if enemy_close && !wall_close then MOVE_AVOID else 0, false, r)
    else if tactic_type = TACTIC_PUSH ∨ tactic_type = TACTIC_SPAM then (0, false, r)
    else if tactic_type = TACTIC_ESCAPE then
      (if wall_close then MOVE_JUMP else MOVE_AVOID, false, r)
    else if tactic_type = TACTIC_TURTLE then
      if enemy_range = RANGE_CRAMPED then
        (if wall_close then MOVE_JUMP else MOVE_AVOID, false, r)
      else (MOVE_BLOCK, false, r)
    else if tactic_type = TACTIC_COUNTER then
      (if enemy_range > RANGE_CRAMPED then MOVE_BLOCK else 0, false, r)
    else (a.tactic.move_type, false, r)
  let move_type := mv.1
  let do_charge := mv.2.1
  let r1 := mv.2.2
  -- set tactic move timer
  let move_timer := if move_type > 0 then TACTIC_MOVE_TIMER_MAX else a.tactic.move_timer
  -- set attack tactics: attack_type, attack_id, attack_on, and the generator afterwards
  let atk : Int × Int × Option har_event_type × Rng :=
    if do_charge then (ATTACK_CHARGE, 0, a.tactic.attack_on, r1)
    else if tactic_type = TACTIC_GRAB then (ATTACK_GRAB, 0, a.tactic.attack_on, r1)
    else if tactic_type = TACTIC_TRIP then
      (ATTACK_TRIP, 0,
        if move_type = MOVE_JUMP then some HAR_EVENT_LAND else a.tactic.attack_on, r1)
    else if tactic_type = TACTIC_QUICK then (ATTACK_LIGHT, 0, a.tactic.attack_on, r1)
    else if tactic_type = TACTIC_FLY then
      (if (smart_usually a r1).1 then ATTACK_JUMP else 0, 0, a.tactic.attack_on,
        (smart_usually a r1).2)
    else if tactic_type = TACTIC_SHOOT then (ATTACK_RANGED, 0, a.tactic.attack_on, r1)
    else if tactic_type = TACTIC_PUSH then
      (if har_has_push v.id then ATTACK_PUSH else ATTACK_HEAVY, 0, a.tactic.attack_on, r1)
    else if tactic_type = TACTIC_SPAM then
      if a.last_move_id > 0 then (ATTACK_ID, a.last_move_id, a.tactic.attack_on, r1)
      else (ATTACK_LIGHT, 0, a.tactic.attack_on, r1)
    else if tactic_type = TACTIC_COUNTER then
      (if (roll_chance 3 r1).1 then ATTACK_TRIP else ATTACK_HEAVY, a.tactic.attack_id,
        if enemy_range > RANGE_CRAMPED then some HAR_EVENT_BLOCK else a.tactic.attack_on,
        (roll_chance 3 r1).2)
    else if tactic_type = TACTIC_CLOSE then (ATTACK_RANDOM, 0, a.tactic.attack_on, r1)
    else if tactic_type = TACTIC_ESCAPE ∨ tactic_type = TACTIC_TURTLE then
      (0, 0, a.tactic.attack_on, r1)
    else (a.tactic.attack_type, a.tactic.attack_id, a.tactic.attack_on, r1)
  let attack_type := atk.1
  -- set tactic attack timer
  let attack_timer :=
    if attack_type > 0 then TACTIC_ATTACK_TIMER_MAX else a.tactic.attack_timer
  ({ a with tactic :=
      { tactic_type := tactic_type
        last_tactic := last_tactic
        move_type := move_type
        move_timer := move_timer
        attack_type := attack_type
        attack_id := atk.2.1
        attack_timer := attack_timer
        attack_on := atk.2.2.1
        chain_hit_on := a.tactic.chain_hit_on
        chain_hit_tactic := a.tactic.chain_hit_tactic } },
   atk.2.2.2)

def reset_tactic_state (a : ai) : ai :=
  { a with tactic :=
      { tactic_type := 0
        last_tactic := if a.tactic.tactic_type ≠ 0 then a.tactic.tactic_type else 0
        move_type := 0
        move_timer := 0
        attack_type := 0
        attack_id := 0
        attack_timer := 0
        attack_on := none
        chain_hit_on := 0
        chain_hit_tactic := 0 } }

def reset_act_timer (a : ai) (r : Rng) : ai × Rng :=
  ({ a with act_timer := BASE_ACT_TIMER - (a.difficulty * 2) - ((rand_int 3 r).1 : Int) },
   (rand_int 3 r).2)

/-! ## Dislike policy -/

def dislikes_move (a : ai) (move : af_move) : Rand Bool :=
  fun r =>
    if is_special_move move then r_not (roll_pref a.pilot.ap_special) r
    else if move.category = CAT_BASIC then smart_usually a r
    else if move.category = CAT_LOW then r_not (roll_pref a.pilot.ap_low) r
    else if move.category = CAT_MEDIUM then r_not (roll_pref a.pilot.ap_middle) r
    else if move.category = CAT_HIGH then r_not (roll_pref a.pilot.ap_high) r
    else if move.category = CAT_THROW ∨ move.category = CAT_CLOSE then
      r_and (r_pure (decide (a.pilot.att_hyper = 0))) (r_not (roll_pref a.pilot.ap_throw)) r
    else if move.category = CAT_JUMPING then
      r_and (r_pure (decide (a.pilot.att_jump = 0))) (r_not (roll_pref a.pilot.ap_jump)) r
    else if move.category = CAT_PROJECTILE then
      r_and (r_pure (decide (a.pilot.att_sniper = 0))) (r_not (roll_pref a.pilot.ap_special)) r
    else (false, r)

def move_too_powerful (a : ai) (move : af_move) : Rand Bool :=
  r_and (r_pure (is_special_move move)) (dumb_usually a)

/-! ## Move catalog and validity -/

/-- The test the loop of `is_valid_move` applies to one character. -/
def valid_move_char (tmp : Char) : Bool :=
  (decide ('1' ≤ tmp) && decide (tmp ≤ '9')) || tmp == 'K' || tmp == 'P'

/-- Validity of a move.  The loop over the move string returns at the first
character that fails `valid_move_char`, with a result that does not depend on
the character; `List.all` says whether there is such a character. -/
def is_valid_move (move : af_move) (v : fighter_view) (force_allow_projectile : Bool) : Bool :=
  if (move.category = CAT_CLOSE ∨ move.category = CAT_LOW ∨ move.category = CAT_MEDIUM ∨
      move.category = CAT_HIGH) ∧ (v.close = false ∧ v.state ≠ STATE_JUMPING) then false
  else if move.category = CAT_JUMPING ∧ v.state ≠ STATE_JUMPING then false
  else if move.category ≠ CAT_JUMPING ∧ v.state = STATE_JUMPING then false
  else if move.category = CAT_SCRAP ∧ v.state ≠ STATE_VICTORY then false
  else if move.category = CAT_DESTRUCTION ∧ v.state ≠ STATE_SCRAP then false
  else
    let move_str_len : Int := move.move_string.length
    if !move.move_string.all valid_move_char then
      if force_allow_projectile && decide (move.category = CAT_PROJECTILE) then true
      else false
    else if (move.damage > 0 ∨ move.category = CAT_PROJECTILE ∨ move.category = CAT_SCRAP ∨
        move.category = CAT_DESTRUCTION) ∧ move_str_len > 0 then true
    else false

/-- Write one entry of the learning table. -/
def set_stat (stats : Fin 70 → move_stat) (i : Fin 70) (ms : move_stat) : Fin 70 → move_stat :=
  fun j => if j = i then ms else stats j

def set_selected_move (v : fighter_view) (a : ai) (selected_move : af_move) : ai :=
  let ms := a.move_stats selected_move.id
  { a with
    move_stats := set_stat a.move_stats selected_move.id
      { ms with
        attempts := ms.attempts + 1
        consecutive := ms.consecutive + 1
        last_dist := |v.pos_x - v.enemy_pos_x| }
    selected_move := some selected_move
    move_str_pos := (selected_move.move_string.length : Int) - 1
    blocked := 0 }

/-- The loop `for i < 70: move_stats[i].consecutive /= 2` shared by the two
selection functions. -/
def halve_consecutive (stats : Fin 70 → move_stat) : Fin 70 → move_stat :=
  fun i => { stats i with consecutive := Int.tdiv (stats i).consecutive 2 }

/-- The distance bias both selection functions add to a learned value. -/
def dist_bias (ms : move_stat) : Int :=
  if ms.min_hit_dist ≠ -1 then
    if ms.last_dist < ms.max_hit_dist + 5 ∧ ms.last_dist > ms.min_hit_dist + 5 then 2
    else if ms.last_dist > ms.max_hit_dist + 10 then -3
    else 0
  else 0

/-- The loop state of a selection: the best move so far, its value, and the
generator. -/
structure pick where
  selected_move : Option af_move
  top_value : Int
  r : Rng

/-- The tail of both loop bodies: keep the first candidate, then any candidate
with a strictly greater value. -/
def pick_update (p : pick) (move : af_move) (value : Int) (r : Rng) : pick :=
  if p.selected_move = none then ⟨some move, value, r⟩
  else if value > p.top_value then ⟨some move, value, r⟩
  else ⟨p.selected_move, p.top_value, r⟩

/-- The learning branch of the loop body of `assign_move_by_cat`: the value of a
move from its statistics, and the generator afterwards. -/
def cat_learned_value (a : ai) (ms : move_stat) (move : af_move) (r : Rng) : Int × Rng :=
  let d := rand_int 10 r
  let value := ms.value + (d.1 : Int) + dist_bias ms
  -- smart AI will slightly favor high damage moves
  let s := smart_usually a d.2
  let value := if s.1 then value + Int.tdiv move.damage 4 else value
  let value := value - Int.tdiv ms.attempts 2
  let value := value - ms.consecutive * 2
  (value, s.2)

/-- One iteration of the loop of `assign_move_by_cat`. -/
def assign_move_by_cat_step (v : fighter_view) (a : ai) (category : Int)
    (highest_damage : Bool) (p : pick) (i : Fin 70) : pick :=
  match v.af_get_move i.val with
  | none => p
  | some move =>
    if category ≠ move.category then p
    else if is_valid_move move v true then
      if highest_damage then pick_update p move (move.damage * 10) p.r
      else
        pick_update p move (cat_learned_value a (a.move_stats i) move p.r).1
          (cat_learned_value a (a.move_stats i) move p.r).2
    else p

def assign_move_by_cat (v : fighter_view) (a : ai) (category : Int) (highest_damage : Bool)
    (r : Rng) : Bool × ai × Rng :=
  let p := (List.finRange 70).foldl (assign_move_by_cat_step v a category highest_damage)
    ⟨none, 0, r⟩
  match p.selected_move with
  | some selected_move =>
    (true, set_selected_move v { a with move_stats := halve_consecutive a.move_stats }
      selected_move, p.r)
  | none => (false, a, p.r)

/-- One iteration of the loop of `assign_move_by_id`; `none` while no move has
been assigned. -/
def assign_move_by_id_step (v : fighter_view) (move_id : Int) (found : Option af_move)
    (i : Fin 70) : Option af_move :=
  match found with
  | some m => some m
  | none =>
    match v.af_get_move i.val with
    | none => none
    | some move =>
      if is_valid_move move v true then
        if move_id ≠ (move.id.val : Int) then none else some move
      else none

def assign_move_by_id (v : fighter_view) (a : ai) (move_id : Int) : Bool × ai :=
  match (List.finRange 70).foldl (assign_move_by_id_step v move_id) none with
  | some move => (true, set_selected_move v a move)
  | none => (false, a)

/-! ## Move scoring -/

/-- The learning branch of the loop body of `attempt_attack`, up to the test of
`move_too_powerful`: the value of a move from its statistics, and the generator
afterwards. -/
def attack_learned_value (a : ai) (ms : move_stat) (move : af_move) (r : Rng) : Int × Rng :=
  let d := rand_int 10 r
  let value := ms.value + (d.1 : Int) + dist_bias ms
  -- AI is less likely to use exact same move as last attack
  let same := decide (a.last_move_id > 0 ∧ a.last_move_id = (move.id.val : Int))
  let value1 := if same then value - ((rand_int 10 d.2).1 : Int) else value
  let r1 := if same then (rand_int 10 d.2).2 else d.2
  -- smart AI will slightly favor high damage moves
  let s := smart_usually a r1
  let value2 := if s.1 then value1 + Int.tdiv move.damage 4 else value1
  -- AI is less likely to use disliked moves
  let dl := dislikes_move a move s.2
  let value3 := if dl.1 then value2 - ((rand_int 10 dl.2).1 : Int) else value2
  let r3 := if dl.1 then (rand_int 10 dl.2).2 else dl.2
  let value4 := value3 - Int.tdiv ms.attempts 2
  let value5 := value4 - ms.consecutive * 2
  (value5, r3)

/-- One iteration of the loop of `attempt_attack`. -/
def attempt_attack_step (v : fighter_view) (a : ai) (highest_damage : Bool)
    (in_attempt_range : Bool) (p : pick) (i : Fin 70) : pick :=
  match v.af_get_move i.val with
  | none => p
  | some move =>
    if is_valid_move move v false then
      if !in_attempt_range &&
          decide (move.category = CAT_BASIC ∨ move.category = CAT_LOW ∨
            move.category = CAT_MEDIUM ∨ move.category = CAT_HIGH ∨
            move.category = CAT_LOW) then p
      else if highest_damage then pick_update p move (move.damage * 10) p.r
      else
        -- sometimes skip move if it is too powerful for difficulty
        if (move_too_powerful a move (attack_learned_value a (a.move_stats i) move p.r).2).1 then
          ⟨p.selected_move, p.top_value,
            (move_too_powerful a move (attack_learned_value a (a.move_stats i) move p.r).2).2⟩
        else
          pick_update p move (attack_learned_value a (a.move_stats i) move p.r).1
            (move_too_powerful a move (attack_learned_value a (a.move_stats i) move p.r).2).2
    else p

def attempt_attack (v : fighter_view) (a : ai) (highest_damage : Bool) (r : Rng) :
    Bool × ai × Rng :=
  let enemy_range := get_enemy_range v
  let in_attempt_range :=
    r_or (r_pure (decide (enemy_range ≤ RANGE_CLOSE)))
      (r_and (r_pure (decide (enemy_range = RANGE_MID))) (dumb_sometimes a)) r
  let p := (List.finRange 70).foldl
    (attempt_attack_step v a highest_damage in_attempt_range.1) ⟨none, 0, in_attempt_range.2⟩
  match p.selected_move with
  | some selected_move =>
    (true, set_selected_move v { a with move_stats := halve_consecutive a.move_stats }
      selected_move, p.r)
  | none => (false, a, p.r)

/-! ## Input synthesis -/

def char_to_act (ch : Char) (direction : facing) : Nat :=
  if ch = '8' then ACT_UP
  else if ch = '2' then ACT_DOWN
  else if ch = '6' then (if direction = OBJECT_FACE_LEFT then ACT_LEFT else ACT_RIGHT)
  else if ch = '4' then (if direction = OBJECT_FACE_LEFT then ACT_RIGHT else ACT_LEFT)
  else if ch = '7' then
    (if direction = OBJECT_FACE_LEFT then ACT_UP ||| ACT_RIGHT else ACT_UP ||| ACT_LEFT)
  else if ch = '9' then
    (if direction = OBJECT_FACE_LEFT then ACT_UP ||| ACT_LEFT else ACT_UP ||| ACT_RIGHT)
  else if ch = '1' then
    (if direction = OBJECT_FACE_LEFT then ACT_DOWN ||| ACT_RIGHT else ACT_DOWN ||| ACT_LEFT)
  else if ch = '3' then
    (if direction = OBJECT_FACE_LEFT then ACT_DOWN ||| ACT_LEFT else ACT_DOWN ||| ACT_RIGHT)
  else if ch = 'K' then ACT_KICK
  else if ch = 'P' then ACT_PUNCH
  else if ch = '5' then ACT_STOP
  else ACT_STOP

/-- The ternary `o->direction == OBJECT_FACE_RIGHT ? x : y` of the source. -/
def face (direction : facing) (x y : Nat) : Nat :=
  if direction = OBJECT_FACE_RIGHT then x else y

/-- The opening switch of the hard-coded attacks: a walking or crouching HAR
first emits `ACT_STOP`, a standing one emits nothing, and in any other state
the attack is refused (`none`). -/
def stop_prelude (s : har_state) : Option (List Nat) :=
  match s with
  | STATE_WALKTO => some [ACT_STOP]
  | STATE_WALKFROM => some [ACT_STOP]
  | STATE_CROUCHBLOCK => some [ACT_STOP]
  | STATE_CROUCHING => some [ACT_STOP]
  | STATE_STANDING => some []
  | _ => none

/-- The result of a hard-coded attack: the returned flag, the actions emitted in
order, and the generator afterwards. -/
abbrev Emit := Bool × List Nat × Rng

def attempt_charge_attack (v : fighter_view) (a : ai) (r : Rng) : Emit :=
  let enemy_range := get_enemy_range v
  let d := v.direction
  match stop_prelude v.state with
  | none => (false, [], r)
  | some pre =>
    if v.id = HAR_JAGUAR then
      let c := r_and (r_pure (decide (enemy_range ≥ RANGE_MID))) (smart_usually a) r
      (true, pre ++
        (if c.1 then [face d ACT_LEFT ACT_RIGHT,
          face d (ACT_LEFT ||| ACT_DOWN) (ACT_RIGHT ||| ACT_DOWN)] else []) ++
        [ACT_DOWN, face d (ACT_DOWN ||| ACT_RIGHT) (ACT_DOWN ||| ACT_LEFT),
          face d ACT_RIGHT ACT_LEFT,
          face d (ACT_RIGHT ||| ACT_PUNCH) (ACT_LEFT ||| ACT_PUNCH), ACT_PUNCH], c.2)
    else if v.id = HAR_SHADOW then
      (true, pre ++ [ACT_DOWN, ACT_STOP, ACT_DOWN, ACT_DOWN ||| ACT_PUNCH, ACT_PUNCH], r)
    else if v.id = HAR_KATANA then
      let c1 := r_and (roll_chance 2) (roll_pref a.pilot.ap_low) r
      if c1.1 then
        (true, pre ++ [ACT_DOWN, face d (ACT_DOWN ||| ACT_LEFT) (ACT_DOWN ||| ACT_RIGHT),
          ACT_KICK], c1.2)
      else
        let c2 := r_and (r_pure (decide (enemy_range ≥ RANGE_MID))) (roll_chance 2) c1.2
        if c2.1 then
          (true, pre ++ [ACT_DOWN, face d ACT_RIGHT ACT_LEFT,
            face d (ACT_RIGHT ||| ACT_KICK) (ACT_LEFT ||| ACT_KICK),
            face d ACT_RIGHT ACT_LEFT], c2.2)
        else
          let c3 := r_and (r_pure (decide (enemy_range > RANGE_CRAMPED))) (smart_usually a) c2.2
          (true, pre ++
            (if c3.1 then [face d ACT_LEFT ACT_RIGHT,
              face d (ACT_LEFT ||| ACT_DOWN) (ACT_RIGHT ||| ACT_DOWN)] else []) ++
            [ACT_DOWN, face d (ACT_DOWN ||| ACT_RIGHT) (ACT_DOWN ||| ACT_LEFT),
              face d ACT_RIGHT ACT_LEFT,
              face d (ACT_RIGHT ||| ACT_PUNCH) (ACT_LEFT ||| ACT_PUNCH), ACT_PUNCH], c3.2)
    else if v.id = HAR_FLAIL then
      let c := r_and (r_pure (decide (enemy_range ≥ RANGE_MID))) (smart_usually a) r
      (true, pre ++
        (if c.1 then [ACT_DOWN,
          face d (ACT_LEFT ||| ACT_DOWN) (ACT_RIGHT ||| ACT_DOWN)] else []) ++
        [face d ACT_LEFT ACT_RIGHT, face d ACT_LEFT ACT_RIGHT,
          face d (ACT_LEFT ||| ACT_PUNCH) (ACT_RIGHT ||| ACT_PUNCH), ACT_PUNCH], c.2)
    else if v.id = HAR_THORN then
      (true, pre ++ [face d ACT_RIGHT ACT_LEFT, face d ACT_RIGHT ACT_LEFT,
        face d (ACT_RIGHT ||| ACT_PUNCH) (ACT_LEFT ||| ACT_PUNCH), ACT_PUNCH], r)
    else if v.id = HAR_PYROS then
      let c := r_and (r_pure (decide (enemy_range ≥ RANGE_MID))) (smart_usually a) r
      (true, pre ++
        (if c.1 then [face d ACT_RIGHT ACT_LEFT, ACT_STOP] else []) ++
        [face d ACT_RIGHT ACT_LEFT, ACT_STOP, face d ACT_RIGHT ACT_LEFT,
          face d (ACT_RIGHT ||| ACT_PUNCH) (ACT_LEFT ||| ACT_PUNCH), ACT_PUNCH], c.2)
    else if v.id = HAR_ELECTRA then
      let c := r_and (r_pure (decide (enemy_range ≥ RANGE_MID))) (smart_usually a) r
      (true, pre ++
        (if c.1 then [face d ACT_LEFT ACT_RIGHT, ACT_DOWN] else []) ++
        [face d ACT_RIGHT ACT_LEFT, ACT_STOP, face d ACT_RIGHT ACT_LEFT,
          face d (ACT_RIGHT ||| ACT_PUNCH) (ACT_LEFT ||| ACT_PUNCH), ACT_PUNCH], c.2)
    else if v.id = HAR_CHRONOS then
      let c := r_or (r_pure (decide (enemy_range = RANGE_FAR)))
        (r_and (smart_usually a) (roll_pref a.pilot.ap_special)) r
      if c.1 then (true, pre ++ [ACT_DOWN, ACT_STOP, ACT_PUNCH], c.2)
      else
        (true, pre ++ [ACT_DOWN, face d (ACT_DOWN ||| ACT_LEFT) (ACT_DOWN ||| ACT_RIGHT),
          ACT_KICK], c.2)
    else if v.id = HAR_SHREDDER then
      let c := r_or (r_pure (decide (enemy_range = RANGE_FAR)))
        (r_and (smart_usually a) (roll_pref a.pilot.ap_jump)) r
      if c.1 then
        (true, pre ++ [ACT_DOWN, ACT_STOP, ACT_DOWN, ACT_DOWN ||| ACT_KICK, ACT_KICK], c.2)
      else
        let c2 := r_and (r_pure (decide (enemy_range ≥ RANGE_MID))) (smart_usually a) c.2
        (true, pre ++
          (if c2.1 then [face d ACT_LEFT ACT_RIGHT,
            face d (ACT_LEFT ||| ACT_DOWN) (ACT_RIGHT ||| ACT_DOWN)] else []) ++
          [ACT_DOWN, face d (ACT_DOWN ||| ACT_RIGHT) (ACT_DOWN ||| ACT_LEFT),
            face d ACT_RIGHT ACT_LEFT,
            face d (ACT_RIGHT ||| ACT_PUNCH) (ACT_LEFT ||| ACT_PUNCH), ACT_PUNCH], c2.2)
    else if v.id = HAR_GARGOYLE then
      let c := r_or (r_pure (decide (enemy_range = RANGE_FAR)))
        (r_and (smart_usually a) (roll_pref a.pilot.ap_jump)) r
      if c.1 then
        (true, pre ++ [face d ACT_RIGHT ACT_LEFT, face d ACT_RIGHT ACT_LEFT,
          face d (ACT_RIGHT ||| ACT_PUNCH) (ACT_LEFT ||| ACT_PUNCH), ACT_PUNCH], c.2)
      else
        let c2 := r_and (r_pure (decide (enemy_range = RANGE_MID))) (smart_usually a) c.2
        (true, pre ++
          (if c2.1 then [face d ACT_LEFT ACT_RIGHT,
            face d (ACT_LEFT ||| ACT_DOWN) (ACT_RIGHT ||| ACT_DOWN)] else []) ++
          [ACT_DOWN, face d (ACT_DOWN ||| ACT_RIGHT) (ACT_DOWN ||| ACT_LEFT),
            face d ACT_RIGHT ACT_LEFT,
            face d (ACT_RIGHT ||| ACT_PUNCH) (ACT_LEFT ||| ACT_PUNCH), ACT_PUNCH], c2.2)
    else (true, pre, r)

def attempt_push_attack (v : fighter_view) (a : ai) (r : Rng) : Emit :=
  let enemy_range := get_enemy_range v
  let d := v.direction
  match stop_prelude v.state with
  | none => (false, [], r)
  | some pre =>
    if v.id = HAR_JAGUAR then
      (true, pre ++ [face d ACT_LEFT ACT_RIGHT,
        face d (ACT_LEFT ||| ACT_KICK) (ACT_RIGHT ||| ACT_KICK), ACT_KICK], r)
    else if v.id = HAR_KATANA then
      let c := r_and (r_pure (decide (enemy_range > RANGE_CRAMPED))) (smart_usually a) r
      (true, pre ++
        (if c.1 then [face d ACT_LEFT ACT_RIGHT,
          face d (ACT_LEFT ||| ACT_DOWN) (ACT_RIGHT ||| ACT_DOWN)] else []) ++
        [ACT_DOWN, face d (ACT_DOWN ||| ACT_RIGHT) (ACT_DOWN ||| ACT_LEFT),
          face d ACT_RIGHT ACT_LEFT,
          face d (ACT_RIGHT ||| ACT_PUNCH) (ACT_LEFT ||| ACT_PUNCH), ACT_PUNCH], c.2)
    else if v.id = HAR_FLAIL then
      let c := roll_chance 3 r
      if c.1 then (true, pre ++ [ACT_DOWN, ACT_STOP, ACT_KICK], c.2)
      else (true, pre ++ [ACT_DOWN, ACT_STOP, ACT_PUNCH], c.2)
    else if v.id = HAR_THORN then
      let c := r_and (r_pure (decide (enemy_range > RANGE_CRAMPED))) (smart_usually a) r
      (true, pre ++
        (if c.1 then [face d ACT_LEFT ACT_RIGHT,
          face d (ACT_LEFT ||| ACT_DOWN) (ACT_RIGHT ||| ACT_DOWN)] else []) ++
        [ACT_DOWN, face d (ACT_DOWN ||| ACT_RIGHT) (ACT_DOWN ||| ACT_LEFT),
          face d ACT_RIGHT ACT_LEFT,
          face d (ACT_RIGHT ||| ACT_KICK) (ACT_LEFT ||| ACT_KICK), ACT_KICK], c.2)
    else if v.id = HAR_PYROS then
      (true, pre ++ [ACT_DOWN, ACT_STOP, ACT_PUNCH], r)
    else if v.id = HAR_ELECTRA then
      (true, pre ++ [ACT_DOWN, face d (ACT_DOWN ||| ACT_RIGHT) (ACT_DOWN ||| ACT_LEFT),
        face d ACT_RIGHT ACT_LEFT,
        face d (ACT_RIGHT ||| ACT_PUNCH) (ACT_LEFT ||| ACT_PUNCH), ACT_PUNCH], r)
    else if v.id = HAR_NOVA then
      (true, pre ++ [ACT_DOWN, ACT_STOP, ACT_DOWN, ACT_PUNCH], r)
    else (true, pre, r)

def attempt_trip_attack (v : fighter_view) (r : Rng) : Emit :=
  let d := v.direction
  match stop_prelude v.state with
  | none => (false, [], r)
  | some pre =>
    (true, pre ++ [ACT_DOWN, face d (ACT_DOWN ||| ACT_LEFT) (ACT_DOWN ||| ACT_RIGHT),
      face d (ACT_LEFT ||| ACT_KICK) (ACT_RIGHT ||| ACT_KICK), ACT_KICK], r)

def attempt_projectile_attack (v : fighter_view) (r : Rng) : Emit :=
  let d := v.direction
  let pre : List Nat :=
    if v.state = STATE_WALKTO ∨ v.state = STATE_WALKFROM ∨ v.state = STATE_CROUCHBLOCK
    then [ACT_STOP] else []
  if v.id = HAR_JAGUAR ∨ v.id = HAR_ELECTRA ∨ v.id = HAR_SHREDDER then
    (true, pre ++ [ACT_DOWN, face d (ACT_DOWN ||| ACT_LEFT) (ACT_DOWN ||| ACT_RIGHT),
      face d ACT_LEFT ACT_RIGHT,
      face d (ACT_LEFT ||| ACT_PUNCH) (ACT_RIGHT ||| ACT_PUNCH), ACT_PUNCH], r)
  else if v.id = HAR_SHADOW then
    let c := roll_chance 2 r
    (true, pre ++ [ACT_DOWN, face d (ACT_DOWN ||| ACT_LEFT) (ACT_DOWN ||| ACT_RIGHT),
      face d ACT_LEFT ACT_RIGHT] ++
      (if c.1 then [face d (ACT_LEFT ||| ACT_PUNCH) (ACT_RIGHT ||| ACT_PUNCH), ACT_PUNCH]
       else [face d (ACT_LEFT ||| ACT_KICK) (ACT_RIGHT ||| ACT_KICK), ACT_KICK]), c.2)
  else if v.id = HAR_CHRONOS then
    (true, pre ++ [ACT_DOWN, face d (ACT_DOWN ||| ACT_LEFT) (ACT_DOWN ||| ACT_RIGHT),
      face d ACT_LEFT ACT_RIGHT, ACT_PUNCH], r)
  else if v.id = HAR_NOVA then
    let c := roll_chance 3 r
    (true, pre ++ [ACT_DOWN] ++
      (if c.1 then [face d (ACT_DOWN ||| ACT_LEFT) (ACT_DOWN ||| ACT_RIGHT),
        face d ACT_LEFT ACT_RIGHT]
       else [face d (ACT_DOWN ||| ACT_RIGHT) (ACT_DOWN ||| ACT_LEFT),
        face d ACT_RIGHT ACT_LEFT]) ++
      [ACT_PUNCH], c.2)
  else (true, pre, r)

/-! ## Reactive blocking and move playback -/

/-- The result of a step of the executor: the returned flag, the controller
state, the generator, and the actions emitted in order. -/
structure step_result where
  flag : Bool
  a : ai
  r : Rng
  out : List Nat

def ai_block_har (v : fighter_view) (a : ai) (r : Rng) : step_result :=
  let c := r_and
    (r_pure (decide (|v.enemy_pos_x - v.pos_x| < 100) && v.enemy_executing_move))
    (smart_usually a) r
  if c.1 then
    if v.enemy_crouching then
      let act := face v.direction (ACT_DOWN ||| ACT_LEFT) (ACT_DOWN ||| ACT_RIGHT)
      ⟨true, { a with cur_act := act }, c.2, [act]⟩
    else
      let act := face v.direction ACT_LEFT ACT_RIGHT
      ⟨true, { a with cur_act := act }, c.2, [act]⟩
  else ⟨false, a, c.2, []⟩

/-- The world-space x of a projectile's sprite as `ai_block_projectile` computes
it, for a projectile whose current sprite sits at `sprite_x`. -/
def projectile_sprite_x (p : projectile) (sprite_x : Int) : Int :=
  if p.direction = OBJECT_FACE_LEFT then p.pos_x + ((sprite_x * -1) - p.size_x)
  else p.pos_x + sprite_x

/-- The loop of `ai_block_projectile` over the projectiles still to visit. -/
def ai_block_projectile_loop (v : fighter_view) (a : ai) :
    List projectile → Rng → step_result
  | [], r => ⟨false, a, r, []⟩
  | p :: rest, r =>
    if p.owned_by_self then ai_block_projectile_loop v a rest r
    else
      match p.cur_sprite with
      | none => ai_block_projectile_loop v a rest r
      | some sprite_x =>
        let c := smart_usually a r
        if c.1 then
          if |projectile_sprite_x p sprite_x - v.pos_x| < 120 then
            let act := face v.direction (ACT_DOWN ||| ACT_LEFT) (ACT_DOWN ||| ACT_RIGHT)
            ⟨true, { a with cur_act := act }, c.2, [act]⟩
          else ai_block_projectile_loop v a rest c.2
        else ai_block_projectile_loop v a rest c.2

def ai_block_projectile (v : fighter_view) (a : ai) (r : Rng) : step_result :=
  ai_block_projectile_loop v a a.active_projectiles r

/-- Read a character of a move string (`str_at`); an index outside the string
reads the terminating NUL. -/
def str_at (s : List Char) (i : Int) : Char :=
  if 0 ≤ i then s.getD i.toNat (Char.ofNat 0) else Char.ofNat 0

def process_selected_move (v : fighter_view) (a : ai) (selected_move : af_move) : ai × List Nat :=
  let a1 :=
    if a.input_lag_timer > 0 then { a with input_lag_timer := a.input_lag_timer - 1 }
    else
      { a with
        move_str_pos := if a.move_str_pos - 1 ≤ 0 then 0 else a.move_str_pos - 1
        input_lag_timer := a.input_lag }
  let ch := str_at selected_move.move_string a1.move_str_pos
  let out := [char_to_act ch v.direction]
  if a1.move_str_pos = 0 then ({ a1 with selected_move := none }, out)
  else (a1, out)

/-! ## Ambient movement -/

/-- The choice `handle_movement` makes once the act timer has run out and the
roll against `BASE_ACT_THRESH` has passed: the new `cur_act`, the value of
`jump_thresh`, and the generator afterwards. -/
def choose_movement (v : fighter_view) (a : ai) (r : Rng) : Nat × Int × Rng :=
  let d := v.direction
  let p_move_roll : Int := (rand_int 100 r).1
  let r1 := (rand_int 100 r).2
  let p_move_thresh := BASE_MOVE_THRESH - a.difficulty * 2
  if p_move_roll > p_move_thresh then
    let p_fwd_roll : Int := (rand_int 100 r1).1
    let r2 := (rand_int 100 r1).2
    let t0 := BASE_FWD_THRESH - (a.difficulty - 1) * 2
    let adj : Int × Rng :=
      if a.pilot.pref_fwd > a.pilot.pref_back then
        (t0 - (if (roll_pref a.pilot.pref_fwd r2).1 then 8 else 4),
          (roll_pref a.pilot.pref_fwd r2).2)
      else if a.pilot.pref_back > a.pilot.pref_fwd then
        (t0 + (if (roll_pref a.pilot.pref_back r2).1 then 4 else 2),
          (roll_pref a.pilot.pref_back r2).2)
      else (t0, r2)
    let t1 := if v.id = HAR_FLAIL ∨ v.id = HAR_THORN ∨ v.id = HAR_NOVA
      then adj.1 - 4 else adj.1
    let p_fwd_thresh := if a.pilot.att_hyper ≠ 0 then t1 - 4 else t1
    if p_fwd_roll ≥ p_fwd_thresh then
      -- walk forward
      (face d ACT_RIGHT ACT_LEFT, BASE_FWD_JUMP_THRESH - a.difficulty * 2, adj.2)
    else
      -- walk backward
      (face d ACT_LEFT ACT_RIGHT, BASE_BACK_JUMP_THRESH - a.difficulty * 2, adj.2)
  else
    let s := smart_sometimes a r1
    -- crouch and block, or do nothing
    if s.1 then (face d (ACT_DOWN ||| ACT_LEFT) (ACT_DOWN ||| ACT_RIGHT), 0, s.2)
    else (ACT_STOP, BASE_STILL_JUMP_THRESH - a.difficulty, s.2)

/-- The first half of `handle_movement`, the change of action after `act_timer`
runs out: the state, the generator, the output and `jump_thresh`. -/
def change_movement (v : fighter_view) (a : ai) (r : Rng) : ai × Rng × List Nat × Int :=
  let g := r_and (r_pure (decide (a.act_timer ≤ 0)))
    (fun r => (decide (((rand_int 100 r).1 : Int) > BASE_ACT_THRESH - a.difficulty * 3),
      (rand_int 100 r).2)) r
  if g.1 then
    let chosen := choose_movement v a g.2
    let t := reset_act_timer { a with cur_act := chosen.1 } chosen.2.2
    (t.1, t.2, [chosen.1], chosen.2.1)
  else (a, g.2, [], 0)

def handle_movement (v : fighter_view) (a : ai) (r : Rng) : ai × Rng × List Nat :=
  let blk := change_movement v a r
  let a1 := blk.1
  let out1 := blk.2.2.1
  let jump_thresh0 := blk.2.2.2
  -- 5% more chance of jumping if pilot personality likes it
  let jump_thresh :=
    if jump_thresh0 > 0 ∧ a1.pilot.att_jump ≠ 0 then jump_thresh0 - 5 else jump_thresh0
  -- Jump once in a while if they like to jump
  let j := r_and (r_pure (decide (jump_thresh > 0)))
    (r_and (fun r => (decide (((rand_int 100 r).1 : Int) ≥ jump_thresh), (rand_int 100 r).2))
      (roll_pref a1.pilot.pref_jump)) blk.2.1
  let jump : List Nat :=
    if j.1 then
      if v.vel_x < 0 then [ACT_UP ||| ACT_LEFT]
      else if v.vel_x > 0 then [ACT_UP ||| ACT_RIGHT]
      else [ACT_UP]
    else []
  (a1, j.2, out1 ++ jump)

/-! ## Tactic executor -/

/-- The else-if cascade `if (likes_tactic(ctrl, T1)) queue_tactic(ctrl, T1);
else if (likes_tactic(ctrl, T2)) ...` of the source, over the tactics in source
order: the first liked tactic is queued, and none if none is liked. -/
def queue_first_liked (v : fighter_view) (a : ai) : List Int → Rng → ai × Rng
  | [], r => (a, r)
  | t :: ts, r =>
    if (likes_tactic v a t r).1 then queue_tactic v a t (likes_tactic v a t r).2
    else queue_first_liked v a ts (likes_tactic v a t r).2

/-- Set the chained follow-up: `chain_hit_on = cat; chain_hit_tactic = t`. -/
def set_chain (a : ai) (cat t : Int) : ai :=
  { a with tactic := { a.tactic with chain_hit_on := cat, chain_hit_tactic := t } }

/-- The else-if cascade `if (likes_tactic(ctrl, T1)) { chain_hit_on = cat;
chain_hit_tactic = T1; } else if ...` of the source, over the tactics in source
order. -/
def chain_first_liked (v : fighter_view) (a : ai) (cat : Int) : List Int → Rng → ai × Rng
  | [], r => (a, r)
  | t :: ts, r =>
    if (likes_tactic v a t r).1 then (set_chain a cat t, (likes_tactic v a t r).2)
    else chain_first_liked v a cat ts (likes_tactic v a t r).2

/-- The movement phase of `handle_queued_tactic` (the branch taken when
`move_type > 0 && move_timer > 0`). -/
def handle_move_phase (v : fighter_view) (a : ai) (r : Rng) : step_result :=
  let tactic := a.tactic
  let enemy_close := v.close
  let enemy_range := get_enemy_range v
  let wall_close := v.is_wallhugging
  let d := v.direction
  let set_timer (a : ai) (t : Int) : ai := { a with tactic := { a.tactic with move_timer := t } }
  if tactic.move_type = MOVE_CLOSE then
    if !enemy_close then
      let act := face d ACT_RIGHT ACT_LEFT
      ⟨true, set_timer { a with cur_act := act } (tactic.move_timer - 1), r, [act]⟩
    else ⟨true, set_timer a 0, r, []⟩
  else if tactic.move_type = MOVE_AVOID then
    if enemy_range = RANGE_FAR then ⟨true, set_timer a 0, r, []⟩
    else
      let c := r_or (r_pure (decide (enemy_range = RANGE_CRAMPED)))
        (r_not (roll_pref a.pilot.pref_jump)) r
      if c.1 then
        let act := face d ACT_LEFT ACT_RIGHT
        ⟨true, set_timer { a with cur_act := act } (tactic.move_timer - 1), c.2, [act]⟩
      else
        let s := smart_usually a c.2
        let act := (face d ACT_LEFT ACT_RIGHT) ||| ACT_UP
        ⟨true, set_timer { a with cur_act := act } (tactic.move_timer - 1), s.2,
          (if s.1 then [ACT_DOWN] else []) ++ [act]⟩
  else if tactic.move_type = MOVE_JUMP then
    if !enemy_close then
      let s := r_and (r_pure (decide (enemy_range = RANGE_FAR))) (smart_usually a) r
      let act := (face d ACT_RIGHT ACT_LEFT) ||| ACT_UP
      let p := roll_pref a.pilot.pref_jump s.2
      ⟨true, set_timer { a with cur_act := act } (if p.1 then tactic.move_timer - 1 else 0),
        p.2, (if s.1 then [ACT_DOWN] else []) ++ [act]⟩
    else if tactic.tactic_type = TACTIC_FLY then
      let s := smart_sometimes a r
      let act := (face d ACT_RIGHT ACT_LEFT) ||| ACT_UP
      ⟨true, set_timer { a with cur_act := act } 0, s.2,
        (if s.1 then [ACT_DOWN] else []) ++ [act]⟩
    else ⟨true, set_timer a 0, r, []⟩
  else if tactic.move_type = MOVE_BLOCK then
    let act :=
      if wall_close || v.crouching then face d (ACT_DOWN ||| ACT_LEFT) (ACT_DOWN ||| ACT_RIGHT)
      else (face d ACT_LEFT ACT_RIGHT) ||| ACT_UP
    ⟨true, set_timer { a with cur_act := act } (tactic.move_timer - 1), r, [act]⟩
  else
    ⟨false, { a with tactic := { a.tactic with move_type := 0, move_timer := 0 } }, r, []⟩

/-- After a successful attack the source resets the tactic and, if `gate`
passes, runs a `chain_first_liked` cascade. -/
def reset_and_chain (v : fighter_view) (a : ai) (gate : Rand Bool) (cat : Int)
    (ts : List Int) (r : Rng) : ai × Rng :=
  if (gate r).1 then chain_first_liked v (reset_tactic_state a) cat ts (gate r).2
  else (reset_tactic_state a, (gate r).2)

/-- The category of the selected move, read by the source right after a
successful `attempt_attack` (where `selected_move` is not NULL). -/
def selected_category (a : ai) : Int :=
  match a.selected_move with
  | some m => m.category
  | none => 0

/-- Case `ATTACK_ID` of the attack switch. -/
def attack_id_case (v : fighter_view) (a : ai) (in_attempt_range : Bool) (r : Rng) :
    step_result :=
  if !in_attempt_range then ⟨true, a, r, []⟩
  else if (assign_move_by_id v a a.tactic.attack_id).1 then
    ⟨true, reset_tactic_state (assign_move_by_id v a a.tactic.attack_id).2, r, []⟩
  else ⟨true, (assign_move_by_id v a a.tactic.attack_id).2, r, []⟩

/-- Case `ATTACK_TRIP` of the attack switch. -/
def attack_trip_case (v : fighter_view) (a : ai) (r : Rng) : step_result :=
  let e := attempt_trip_attack v r
  if e.1 then
    ⟨true,
      (reset_and_chain v a (smart_sometimes a) CAT_LOW [TACTIC_ESCAPE, TACTIC_SHOOT] e.2.2).1,
      (reset_and_chain v a (smart_sometimes a) CAT_LOW [TACTIC_ESCAPE, TACTIC_SHOOT] e.2.2).2,
      e.2.1⟩
  else ⟨true, a, e.2.2, e.2.1⟩

/-- The two selections of case `ATTACK_GRAB`: a throw by learned value, else a
close move by damage; `attack_cat` is the category that was selected, or 0. -/
def grab_select (v : fighter_view) (a : ai) (r : Rng) : Int × ai × Rng :=
  let s1 := assign_move_by_cat v a CAT_THROW false r
  if s1.1 then (CAT_THROW, s1.2.1, s1.2.2)
  else
    let s2 := assign_move_by_cat v s1.2.1 CAT_CLOSE true s1.2.2
    if s2.1 then (CAT_CLOSE, s2.2.1, s2.2.2) else (0, s2.2.1, s2.2.2)

/-- Case `ATTACK_GRAB` of the attack switch. -/
def attack_grab_case (v : fighter_view) (a : ai) (r : Rng) : step_result :=
  if !v.close then ⟨true, a, r, []⟩
  else
    let g := grab_select v a r
    if g.1 > 0 then
      ⟨true,
        (reset_and_chain v g.2.1 (smart_sometimes g.2.1) g.1
          [TACTIC_PUSH, TACTIC_FLY, TACTIC_COUNTER, TACTIC_SHOOT] g.2.2).1,
        (reset_and_chain v g.2.1 (smart_sometimes g.2.1) g.1
          [TACTIC_PUSH, TACTIC_FLY, TACTIC_COUNTER, TACTIC_SHOOT] g.2.2).2, []⟩
    else ⟨true, g.2.1, g.2.2, []⟩

/-- The shared shape of cases `ATTACK_LIGHT` and `ATTACK_HEAVY`: select a move of
category `cat` and, on success, reset the tactic and chain one of `ts`. -/
def attack_by_cat_case (v : fighter_view) (a : ai) (cat : Int) (highest_damage : Bool)
    (ts : List Int) (r : Rng) : step_result :=
  let s := assign_move_by_cat v a cat highest_damage r
  if s.1 then
    ⟨true, (reset_and_chain v s.2.1 (smart_sometimes s.2.1) cat ts s.2.2).1,
      (reset_and_chain v s.2.1 (smart_sometimes s.2.1) cat ts s.2.2).2, []⟩
  else ⟨true, s.2.1, s.2.2, []⟩

/-- Case `ATTACK_LIGHT` of the attack switch. -/
def attack_light_case (v : fighter_view) (a : ai) (in_attempt_range : Bool) (r : Rng) :
    step_result :=
  if !in_attempt_range then ⟨true, a, r, []⟩
  else
    let light_cat := if (roll_chance 2 r).1 then CAT_BASIC else CAT_MEDIUM
    attack_by_cat_case v a light_cat false [TACTIC_PUSH, TACTIC_TRIP, TACTIC_FLY]
      (roll_chance 2 r).2

/-- Case `ATTACK_HEAVY` of the attack switch. -/
def attack_heavy_case (v : fighter_view) (a : ai) (in_attempt_range : Bool) (r : Rng) :
    step_result :=
  if !in_attempt_range then ⟨true, a, r, []⟩
  else
    let heavy_cat := if (roll_chance 2 r).1 then CAT_MEDIUM else CAT_HIGH
    attack_by_cat_case v a heavy_cat true [TACTIC_TRIP, TACTIC_COUNTER, TACTIC_QUICK]
      (roll_chance 2 r).2

/-- Case `ATTACK_RANDOM` of the attack switch, which is also the tail of case
`ATTACK_JUMP`: a learned attack and, on success, a reset and a chain on the
category of the selected move. -/
def attack_random_case (v : fighter_view) (a : ai) (r : Rng) : step_result :=
  let s := attempt_attack v a false r
  if s.1 then
    ⟨true,
      (reset_and_chain v s.2.1 (smart_usually s.2.1) (selected_category s.2.1)
        [TACTIC_TRIP, TACTIC_GRAB, TACTIC_PUSH] s.2.2).1,
      (reset_and_chain v s.2.1 (smart_usually s.2.1) (selected_category s.2.1)
        [TACTIC_TRIP, TACTIC_GRAB, TACTIC_PUSH] s.2.2).2, []⟩
  else ⟨true, s.2.1, s.2.2, []⟩

/-- Case `ATTACK_JUMP` of the attack switch: out of range the attack waits until
the last tick of the attack timer. -/
def attack_jump_case (v : fighter_view) (a : ai) (in_attempt_range : Bool) (r : Rng) :
    step_result :=
  if !in_attempt_range && decide (a.tactic.attack_timer > 0) then ⟨true, a, r, []⟩
  else attack_random_case v a r

/-- The chain that follows a successful ranged attack. -/
def ranged_chain (v : fighter_view) (a1 : ai) (r : Rng) : ai × Rng :=
  let g := smart_sometimes a1 r
  if g.1 then
    let l := r_and (r_pure (decide (a1.pilot.att_sniper ≠ 0)))
      (likes_tactic v a1 TACTIC_SHOOT) g.2
    if l.1 then (set_chain a1 CAT_PROJECTILE TACTIC_SHOOT, l.2)
    else chain_first_liked v a1 CAT_PROJECTILE [TACTIC_FLY, TACTIC_COUNTER] l.2
  else (a1, g.2)

/-- Case `ATTACK_RANGED` of the attack switch. -/
def attack_ranged_case (v : fighter_view) (a : ai) (r : Rng) : step_result :=
  let e := attempt_projectile_attack v r
  if e.1 then
    ⟨true, (ranged_chain v (reset_tactic_state a) e.2.2).1,
      (ranged_chain v (reset_tactic_state a) e.2.2).2, e.2.1⟩
  else ⟨true, a, e.2.2, e.2.1⟩

/-- The follow-up a Shadow queues at once after a successful charge. -/
def shadow_followup (v : fighter_view) (a1 : ai) (r : Rng) : ai × Rng :=
  let l1 := likes_tactic v a1 TACTIC_SHOOT r
  if l1.1 then queue_tactic v a1 TACTIC_SHOOT l1.2
  else
    let l2 := likes_tactic v a1 TACTIC_GRAB l1.2
    if l2.1 then queue_tactic v a1 TACTIC_GRAB l2.2
    else queue_tactic v a1 TACTIC_FLY l2.2

/-- Case `ATTACK_CHARGE` of the attack switch. -/
def attack_charge_case (v : fighter_view) (a : ai) (r : Rng) : step_result :=
  let e := attempt_charge_attack v a r
  if e.1 then
    if v.id = HAR_SHADOW then
      ⟨true, (shadow_followup v (reset_tactic_state a) e.2.2).1,
        (shadow_followup v (reset_tactic_state a) e.2.2).2, e.2.1⟩
    else ⟨true, reset_tactic_state a, e.2.2, e.2.1⟩
  else ⟨true, a, e.2.2, e.2.1⟩

/-- Case `ATTACK_PUSH` of the attack switch. -/
def attack_push_case (v : fighter_view) (a : ai) (r : Rng) : step_result :=
  let e := attempt_push_attack v a r
  if e.1 then ⟨true, reset_tactic_state a, e.2.2, e.2.1⟩
  else ⟨true, a, e.2.2, e.2.1⟩

/-- The switch on `attack_type` in the attack phase, run on the state whose
`attack_timer` has been decremented already. -/
def attack_switch (v : fighter_view) (a : ai) (in_attempt_range : Bool) (r : Rng) :
    step_result :=
  if a.tactic.attack_type = ATTACK_ID then attack_id_case v a in_attempt_range r
  else if a.tactic.attack_type = ATTACK_TRIP then attack_trip_case v a r
  else if a.tactic.attack_type = ATTACK_GRAB then attack_grab_case v a r
  else if a.tactic.attack_type = ATTACK_LIGHT then attack_light_case v a in_attempt_range r
  else if a.tactic.attack_type = ATTACK_HEAVY then attack_heavy_case v a in_attempt_range r
  else if a.tactic.attack_type = ATTACK_JUMP then attack_jump_case v a in_attempt_range r
  else if a.tactic.attack_type = ATTACK_RANGED then attack_ranged_case v a r
  else if a.tactic.attack_type = ATTACK_CHARGE then attack_charge_case v a r
  else if a.tactic.attack_type = ATTACK_PUSH then attack_push_case v a r
  else if a.tactic.attack_type = ATTACK_RANDOM then attack_random_case v a r
  else
    ⟨true, { a with tactic := { a.tactic with attack_type := 0, attack_timer := 0 } }, r, []⟩

/-- The attack phase of `handle_queued_tactic` (the branch taken when
`attack_type > 0 && attack_timer > 0`): compute `in_attempt_range`, decrement
`attack_timer`, then run the switch. -/
def handle_attack_phase (v : fighter_view) (a : ai) (r : Rng) : step_result :=
  let enemy_close := v.close
  let enemy_range := get_enemy_range v
  let rng := r_or (r_pure enemy_close)
    (r_and (r_pure (decide (enemy_range ≤ RANGE_MID))) (dumb_sometimes a)) r
  attack_switch v
    { a with tactic := { a.tactic with attack_timer := a.tactic.attack_timer - 1 } }
    rng.1 rng.2

def handle_queued_tactic (v : fighter_view) (a : ai) (r : Rng) : step_result :=
  if a.tactic.move_type > 0 ∧ a.tactic.move_timer > 0 then handle_move_phase v a r
  else if a.tactic.attack_type > 0 ∧ a.tactic.attack_timer > 0 then handle_attack_phase v a r
  else ⟨false, reset_tactic_state a, r, []⟩

/-- The result of a poll: the controller state, the generator, and the actions
emitted in order. -/
structure poll_result where
  a : ai
  r : Rng
  out : List Nat

/-- The closing else-if cascade of `ai_controller_poll`: each entry `(n, T)` is
one arm `roll_chance(n) && likes_tactic(ctrl, T)`, and the first arm that
passes queues its tactic. -/
def queue_first_rolled (v : fighter_view) (a : ai) : List (Int × Int) → Rng → ai × Rng
  | [], r => (a, r)
  | (n, t) :: rest, r =>
    if (r_and (roll_chance n) (likes_tactic v a t) r).1 then
      queue_tactic v a t (r_and (roll_chance n) (likes_tactic v a t) r).2
    else queue_first_rolled v a rest (r_and (roll_chance n) (likes_tactic v a t) r).2

/-- The anti-throw override of `ai_controller_poll`; the flag says that the poll
returns here. -/
def poll_anti_throw (v : fighter_view) (a : ai) (can_move : Bool) (r : Rng) : step_result :=
  let can_interupt_tactic := decide (a.tactic.tactic_type = 0 ∨
    ¬ (a.tactic.attack_type = ATTACK_CHARGE ∨ a.tactic.attack_type = ATTACK_PUSH ∨
      a.tactic.attack_type = ATTACK_TRIP))
  -- be wary of repeated throws while attempting to complete a tactic
  let enemy_range := get_enemy_range v
  if can_move && can_interupt_tactic && decide (a.thrown > 1) && decide (a.difficulty > 2) &&
      decide (enemy_range = RANGE_CRAMPED ∨ (enemy_range = RANGE_CLOSE ∧ a.thrown ≥ 2)) then
    let s1 := assign_move_by_cat v a CAT_LOW false r
    if s1.1 then ⟨true, reset_tactic_state s1.2.1, s1.2.2, []⟩
    else
      let s2 := attempt_attack v s1.2.1 false s1.2.2
      if s2.1 then ⟨true, reset_tactic_state s2.2.1, s2.2.2, []⟩
      else ⟨false, s2.2.1, s2.2.2, []⟩
  else ⟨false, a, r, []⟩

/-- The queued-tactic step of `ai_controller_poll`; the flag says that the poll
returns here (the tactic acted). -/
def poll_tactic (v : fighter_view) (a : ai) (can_move : Bool) (r : Rng) : step_result :=
  if decide (a.tactic.tactic_type > 0) &&
      (can_move || decide (a.tactic.tactic_type = TACTIC_FLY ∧ v.state = STATE_JUMPING)) then
    let h := handle_queued_tactic v a r
    -- check if tactic is complete: reset movement act timer
    if h.a.tactic.tactic_type = 0 then
      ⟨h.flag, (reset_act_timer h.a h.r).1, (reset_act_timer h.a h.r).2, h.out⟩
    else h
  else ⟨false, a, r, []⟩

/-- The opportunistic attack of `ai_controller_poll`; the flag says that the
poll returns here. -/
def poll_random_attack (v : fighter_view) (a : ai) (r : Rng) : step_result :=
  let ds := diff_scale a r
  if ds.1 then
    let s := attempt_attack v a false ds.2
    if s.1 then ⟨true, (reset_act_timer s.2.1 s.2.2).1, (reset_act_timer s.2.1 s.2.2).2, []⟩
    else ⟨false, s.2.1, s.2.2, []⟩
  else ⟨false, a, ds.2, []⟩

/-- The end of `ai_controller_poll`: ambient movement, then the queueing of a
random tactic for the next poll. -/
def poll_ambient (v : fighter_view) (a : ai) (can_move : Bool) (r : Rng) : poll_result :=
  let m := handle_movement v a r
  let a4 := m.1
  let g := r_and (r_pure (decide (a4.last_move_id > 0) || v.close))
    (r_and (smart_sometimes a4)
      (r_and (r_pure (decide (a4.tactic.tactic_type = 0)))
        (r_and (r_pure can_move) (roll_chance 6)))) m.2.1
  if g.1 then
    let q := queue_first_rolled v a4
      [(4, TACTIC_CLOSE), (4, TACTIC_PUSH), (4, TACTIC_TRIP), (8, TACTIC_SHOOT),
        (6, TACTIC_GRAB), (6, TACTIC_FLY), (6, TACTIC_QUICK)] g.2
    ⟨q.1, q.2, m.2.2⟩
  else ⟨a4, g.2, m.2.2⟩

/-- The part of `ai_controller_poll` after selected-move playback: the
anti-throw override, the queued tactic, the opportunistic attack, ambient
movement and random tactic queueing, each returning from the poll when it
acts. -/
def poll_decide (v : fighter_view) (a : ai) (r : Rng) : poll_result :=
  let can_move := decide (v.state = STATE_STANDING ∨ v.state = STATE_WALKTO ∨
    v.state = STATE_WALKFROM ∨ v.state = STATE_CROUCHBLOCK)
  let s1 := poll_anti_throw v a can_move r
  if s1.flag then ⟨s1.a, s1.r, s1.out⟩
  else
    let s2 := poll_tactic v s1.a can_move s1.r
    if s2.flag then ⟨s2.a, s2.r, s2.out⟩
    else
      let s3 := poll_random_attack v s2.a s2.r
      if s3.flag then ⟨s3.a, s3.r, s2.out ++ s3.out⟩
      else
        let s4 := poll_ambient v s3.a can_move s3.r
        ⟨s4.a, s4.r, s2.out ++ s4.out⟩

def ai_controller_poll (v : fighter_view) (a : ai) (r : Rng) : poll_result :=
  -- Do not run AI while the game is paused
  if v.paused then ⟨a, r, []⟩
  -- Do not run AI while match is starting or ending
  else if v.in_arena && !v.arena_fighting then ⟨{ a with selected_move := none }, r, []⟩
  else
    -- decrement act_timer, grab all projectiles on screen
    let a1 := { a with act_timer := a.act_timer - 1, active_projectiles := v.projectiles }
    let b := ai_block_har v a1 r
    if b.flag then ⟨b.a, b.r, b.out⟩
    else
      let p := ai_block_projectile v b.a b.r
      if p.flag then ⟨p.a, p.r, p.out⟩
      else
        match p.a.selected_move with
        | some selected_move =>
          ⟨(process_selected_move v p.a selected_move).1, p.r,
            (process_selected_move v p.a selected_move).2⟩
        | none => poll_decide v p.a p.r

/-! ## Event reactor -/

/-- Conversion of an `int` result to `int16_t` on assignment to a pilot
preference. -/
def wrap_int16 (x : Int) : Int :=
  (x + 32768) % 65536 - 32768

/-- The first switch of `ai_har_event`: whether the queued tactic is cancelled
by the event, and the generator afterwards.  It is only run when a tactic is
queued. -/
def cancels_tactic (a : ai) (event : har_event) : Rand Bool :=
  fun r =>
    let tt := a.tactic.tactic_type
    match event.type with
    | HAR_EVENT_BLOCK =>
      r_and (r_pure (decide (tt ≠ TACTIC_COUNTER ∧ tt ≠ TACTIC_TURTLE ∧ tt ≠ TACTIC_TRIP ∧
          tt ≠ TACTIC_PUSH ∧ tt ≠ TACTIC_SPAM ∧ tt ≠ TACTIC_FLY)))
        (r_and (r_or (r_pure (decide (tt ≠ TACTIC_GRAB))) (roll_chance 2))
          (r_pure (decide (a.tactic.chain_hit_on = 0 ∨
            a.tactic.chain_hit_on ≠ event.move.category)))) r
    | HAR_EVENT_TAKE_HIT => (true, r)
    | HAR_EVENT_ENEMY_STUN =>
      (decide (tt ≠ TACTIC_GRAB ∧ tt ≠ TACTIC_CLOSE ∧ tt ≠ TACTIC_TRIP ∧ tt ≠ TACTIC_SHOOT), r)
    | _ => (false, r)

/-- The guard `if (has_queued_tactic || !smart_usually(a)) break;` followed by a
`queue_first_liked` cascade. -/
def suggest (v : fighter_view) (a : ai) (has_queued_tactic : Bool) (ts : List Int)
    (r : Rng) : ai × Rng :=
  let g := r_or (r_pure has_queued_tactic) (r_not (smart_usually a)) r
  if g.1 then (a, g.2) else queue_first_liked v a ts g.2

/-- The personality reshape of `ai_har_event` after repeated throws. -/
def reshape_thrown (pilot : sd_pilot) : sd_pilot :=
  { pilot with
    att_def := 0
    att_sniper := 1
    att_jump := 1
    pref_jump := wrap_int16 (pilot.pref_jump + 50)
    pref_back := if pilot.pref_back < 200 then wrap_int16 (pilot.pref_back + 50)
      else pilot.pref_back
    pref_fwd := if pilot.pref_fwd > -200 then wrap_int16 (pilot.pref_fwd - 50)
      else pilot.pref_fwd }

/-- The personality reshape of `ai_har_event` after repeated projectiles. -/
def reshape_shot (pilot : sd_pilot) : sd_pilot :=
  { pilot with
    att_def := 0
    att_hyper := 1
    att_jump := 1
    pref_fwd := if pilot.pref_fwd < 200 then wrap_int16 (pilot.pref_fwd + 50)
      else pilot.pref_fwd
    pref_back := if pilot.pref_back > -200 then wrap_int16 (pilot.pref_back - 50)
      else pilot.pref_back }

/-- The learning update of case `HAR_EVENT_LAND_HIT`: the observed hit distances
are extended, `value` is incremented and capped at 10, and `last_move_id` is
set. -/
def land_hit_update (a : ai) (move : af_move) : ai :=
  let ms := a.move_stats move.id
  let max_hit_dist :=
    if ms.max_hit_dist = -1 ∨ ms.last_dist > ms.max_hit_dist then ms.last_dist
    else ms.max_hit_dist
  let min_hit_dist :=
    if ms.min_hit_dist = -1 ∨ ms.last_dist < ms.min_hit_dist then ms.last_dist
    else ms.min_hit_dist
  let value := if ms.value + 1 > 10 then 10 else ms.value + 1
  { a with
    move_stats := set_stat a.move_stats move.id
      { ms with max_hit_dist := max_hit_dist, min_hit_dist := min_hit_dist, value := value }
    last_move_id := (move.id.val : Int) }

/-- The learning update of case `HAR_EVENT_ENEMY_BLOCK` on the first block of a
selected move. -/
def enemy_block_update (a : ai) (move : af_move) : ai :=
  let ms := a.move_stats move.id
  { a with
    blocked := 1
    move_stats := set_stat a.move_stats move.id { ms with value := ms.value - 1 }
    last_move_id := (move.id.val : Int) }

/-- The head of case `HAR_EVENT_TAKE_HIT`: count throws and projectiles, and
reshape the personality once a count has reached its threshold and
`smart_usually` passes. -/
def take_hit_adjust (a : ai) (cat : Int) (r : Rng) : ai × Rng :=
  if cat = CAT_THROW ∨ cat = CAT_CLOSE then
    let a3 : ai := { a with thrown := a.thrown + 1 }
    let g := r_and (smart_usually a3) (r_pure (decide (a3.thrown ≥ MAX_TIMES_THROWN))) r
    if g.1 then ({ a3 with pilot := reshape_thrown a3.pilot }, g.2) else (a3, g.2)
  else if cat = CAT_PROJECTILE then
    let a3 : ai := { a with shot := a.shot + 1 }
    let g := r_and (smart_usually a3) (r_pure (decide (a3.shot ≥ MAX_TIMES_SHOT))) r
    if g.1 then ({ a3 with pilot := reshape_shot a3.pilot }, g.2) else (a3, g.2)
  else (a, r)

/-- The second switch of `ai_har_event`: an attack that starts, lands or is
blocked ends the playback of the selected move. -/
def clear_on_event (a : ai) (type : har_event_type) : ai :=
  match type with
  | HAR_EVENT_ATTACK => { a with selected_move := none }
  | HAR_EVENT_ENEMY_BLOCK => { a with selected_move := none }
  | HAR_EVENT_LAND_HIT => { a with selected_move := none }
  | _ => a

/-- The third switch of `ai_har_event`, run on the state left by the first two,
with `has_queued_tactic` as the first switch left it. -/
def react (v : fighter_view) (a2 : ai) (has_queued_tactic : Bool) (event : har_event)
    (r1 : Rng) : ai × Rng :=
  match event.type with
  | HAR_EVENT_LAND_HIT =>
    let a3 := land_hit_update a2 event.move
    if a3.tactic.chain_hit_on = event.move.category then
      queue_tactic v a3 a3.tactic.chain_hit_tactic r1
    else
      suggest v a3 has_queued_tactic
        [TACTIC_QUICK, TACTIC_TRIP, TACTIC_GRAB, TACTIC_PUSH, TACTIC_CLOSE, TACTIC_SHOOT,
          TACTIC_TURTLE, TACTIC_SPAM] r1
  | HAR_EVENT_ENEMY_BLOCK =>
    if a2.blocked = 0 then
      suggest v (enemy_block_update a2 event.move) has_queued_tactic
        [TACTIC_GRAB, TACTIC_TRIP, TACTIC_PUSH, TACTIC_COUNTER, TACTIC_TURTLE, TACTIC_ESCAPE,
          TACTIC_FLY, TACTIC_QUICK, TACTIC_SPAM] r1
    else (a2, r1)
  | HAR_EVENT_BLOCK =>
    if has_queued_tactic && decide (a2.tactic.attack_on = some HAR_EVENT_BLOCK) then
      -- do the attack now
      ({ a2 with tactic := { a2.tactic with move_timer := 0 } }, r1)
    else if event.move.category = CAT_PROJECTILE then
      suggest v a2 has_queued_tactic
        [TACTIC_FLY, TACTIC_SHOOT, TACTIC_CLOSE, TACTIC_TURTLE] r1
    else
      suggest v a2 has_queued_tactic
        [TACTIC_TRIP, TACTIC_PUSH, TACTIC_TURTLE, TACTIC_GRAB, TACTIC_ESCAPE, TACTIC_QUICK,
          TACTIC_SPAM] r1
  | HAR_EVENT_LAND =>
    if has_queued_tactic && decide (a2.tactic.attack_on = some HAR_EVENT_LAND) &&
        decide (v.state = STATE_STANDING) then
      -- do the attack now
      ({ a2 with tactic := { a2.tactic with move_timer := 0 } }, r1)
    else
      suggest v a2 has_queued_tactic
        [TACTIC_TRIP, TACTIC_SHOOT, TACTIC_TURTLE, TACTIC_QUICK, TACTIC_GRAB, TACTIC_PUSH,
          TACTIC_COUNTER, TACTIC_CLOSE] r1
  | HAR_EVENT_ATTACK => (a2, r1)
  | HAR_EVENT_HIT_WALL =>
    suggest v a2 has_queued_tactic
      [TACTIC_SHOOT, TACTIC_PUSH, TACTIC_TURTLE, TACTIC_TRIP, TACTIC_FLY, TACTIC_ESCAPE,
        TACTIC_COUNTER, TACTIC_CLOSE] r1
  | HAR_EVENT_TAKE_HIT =>
    let cat := event.move.category
    -- if enemy is cheesing the AI will try to adjust
    let adj := take_hit_adjust a2 cat r1
    if cat = CAT_THROW ∨ cat = CAT_CLOSE then
      -- distance gaining tactics
      suggest v adj.1 has_queued_tactic [TACTIC_ESCAPE, TACTIC_PUSH, TACTIC_FLY] adj.2
    else if cat = CAT_PROJECTILE then
      -- aggressive tactics
      suggest v adj.1 has_queued_tactic
        [TACTIC_CLOSE, TACTIC_FLY, TACTIC_SHOOT, TACTIC_GRAB] adj.2
    else
      -- defensive tactics
      suggest v adj.1 has_queued_tactic
        [TACTIC_COUNTER, TACTIC_TURTLE, TACTIC_ESCAPE, TACTIC_PUSH, TACTIC_TRIP, TACTIC_QUICK,
          TACTIC_SPAM] adj.2
  | HAR_EVENT_RECOVER =>
    suggest v a2 has_queued_tactic
      [TACTIC_SHOOT, TACTIC_COUNTER, TACTIC_TURTLE, TACTIC_ESCAPE] r1
  | HAR_EVENT_ENEMY_STUN =>
    let g := r_or (r_pure has_queued_tactic) (r_not (smart_usually a2)) r1
    if g.1 then (a2, g.2)
    else if (roll_chance 2 g.2).1 then queue_tactic v a2 TACTIC_GRAB (roll_chance 2 g.2).2
    else queue_tactic v a2 TACTIC_CLOSE (roll_chance 2 g.2).2
  | HAR_EVENT_OTHER => (a2, r1)

def ai_har_event (v : fighter_view) (a : ai) (event : har_event) (r : Rng) : ai × Rng :=
  let queued := decide (a.tactic.tactic_type > 0)
  -- first switch: cancellation of the queued tactic
  let c := r_and (r_pure queued) (cancels_tactic a event) r
  let a1 := if c.1 then reset_tactic_state a else a
  let has_queued_tactic := queued && !c.1
  -- second switch, then third switch
  react v (clear_on_event a1 event.type) has_queued_tactic event c.2

/-! ## Controller lifecycle -/

def populate_pilot_prefs (pilot : sd_pilot) (pilot_id : Int) : sd_pilot :=
  if pilot_id = 0 then
    { pilot with pref_fwd := 150, att_hyper := 1, ap_throw := 150, ap_special := 50 }
  else if pilot_id = 1 then
    { pilot with att_normal := 1, pref_fwd := 50, ap_special := 200, ap_jump := 100 }
  else if pilot_id = 2 then
    { pilot with
      att_jump := 1, pref_fwd := 100, ap_special := -150, ap_jump := 300, pref_jump := 100 }
  else if pilot_id = 3 then
    { pilot with att_hyper := 1, pref_fwd := 250, ap_special := 150 }
  else if pilot_id = 4 then
    { pilot with
      att_normal := 1, ap_jump := -100, pref_jump := -100, ap_throw := 300, ap_special := -50 }
  else if pilot_id = 5 then
    { pilot with
      att_sniper := 1, pref_back := 50, ap_low := 100, ap_jump := 100, ap_special := 200 }
  else if pilot_id = 6 then
    { pilot with att_def := 1, pref_back := 100, ap_special := 100, ap_throw := 100 }
  else if pilot_id = 7 then
    { pilot with att_sniper := 1, pref_jump := 50, pref_fwd := 150, ap_special := 300 }
  else if pilot_id = 8 then
    { pilot with
      att_def := 1, ap_low := 100, ap_special := -50, pref_jump := -100, ap_jump := -50 }
  else if pilot_id = 9 then
    { pilot with att_hyper := 1, pref_jump := 200, ap_jump := 400, ap_special := 300 }
  else if pilot_id = 10 then
    { pilot with att_normal := 1, ap_throw := 100, ap_special := 350 }
  else pilot

/-- The controller state built by `ai_controller_create(ctrl, difficulty, pilot,
pilot_id)`.  The source allocates the state with `malloc` and never assigns
`shot`, so the value `shot` starts from is an input. -/
def ai_controller_create (difficulty : Int) (pilot : sd_pilot) (pilot_id : Int)
    (shot : Int) : ai :=
  reset_tactic_state
    { har_event_hooked := 0
      difficulty := difficulty + 1
      act_timer := 0
      cur_act := 0
      input_lag := 3
      input_lag_timer := 3
      selected_move := none
      last_move_id := 0
      move_str_pos := 0
      move_stats := fun _ =>
        { max_hit_dist := -1
          min_hit_dist := -1
          value := 0
          attempts := 0
          consecutive := 0
          last_dist := -1 }
      blocked := 0
      thrown := 0
      shot := shot
      tactic :=
        { tactic_type := 0
          last_tactic := 0
          move_type := 0
          move_timer := 0
          attack_type := 0
          attack_id := 0
          attack_timer := 0
          attack_on := none
          chain_hit_on := 0
          chain_hit_tactic := 0 }
      pilot := populate_pilot_prefs pilot pilot_id
      active_projectiles := [] }

/-! ## Vocabulary of the theorems -/

/-- Two controller states agree on every field other than `act_timer`,
`cur_act`, `tactic` and `active_projectiles`. -/
structure same_core (a b : ai) : Prop where
  har_event_hooked : b.har_event_hooked = a.har_event_hooked
  difficulty : b.difficulty = a.difficulty
  input_lag : b.input_lag = a.input_lag
  input_lag_timer : b.input_lag_timer = a.input_lag_timer
  selected_move : b.selected_move = a.selected_move
  last_move_id : b.last_move_id = a.last_move_id
  move_str_pos : b.move_str_pos = a.move_str_pos
  move_stats : b.move_stats = a.move_stats
  blocked : b.blocked = a.blocked
  thrown : b.thrown = a.thrown
  shot : b.shot = a.shot
  pilot : b.pilot = a.pilot

/-- What one poll can do to the fields compared by `same_core`: nothing, clear
the selected move, play one character of it, or select a valid move (with or
without first halving the `consecutive` counters). -/
inductive poll_effect (v : fighter_view) (a b : ai) : Prop where
  | unchanged : same_core a b → poll_effect v a b
  | cleared : same_core { a with selected_move := none } b → poll_effect v a b
  | played (m : af_move) : a.selected_move = some m →
      same_core (process_selected_move v a m).1 b → poll_effect v a b
  | selected (m : af_move) (f : Bool) : is_valid_move m v f = true →
      same_core (set_selected_move v { a with move_stats := halve_consecutive a.move_stats } m) b →
      poll_effect v a b
  | selected_by_id (m : af_move) : is_valid_move m v true = true →
      same_core (set_selected_move v a m) b → poll_effect v a b

/-- What one event can do to the fields compared by `same_core`: nothing, clear
the selected move, clear it and record a landed hit or a first block, or count
a throw or a projectile (with or without a reshaped pilot). -/
inductive event_effect (a b : ai) : Prop where
  | unchanged : same_core a b → event_effect a b
  | cleared : same_core { a with selected_move := none } b → event_effect a b
  | land_hit (m : af_move) :
      same_core (land_hit_update { a with selected_move := none } m) b → event_effect a b
  | enemy_block (m : af_move) :
      same_core (enemy_block_update { a with selected_move := none } m) b → event_effect a b
  | adjusted (thrown shot : Int) (pilot : sd_pilot) :
      same_core { a with thrown := thrown, shot := shot, pilot := pilot } b → event_effect a b

/-- The playback position points into the command string of the selected move,
whenever a move is selected. -/
def playback_in_range (a : ai) : Prop :=
  ∀ m, a.selected_move = some m →
    0 ≤ a.move_str_pos ∧ a.move_str_pos < (m.move_string.length : Int)

/-- Every learned value is at most 10. -/
def value_capped (a : ai) : Prop :=
  ∀ i, (a.move_stats i).value ≤ 10

/-- For every move, `attempts ≥ consecutive ≥ 0`. -/
def counts_ordered (a : ai) : Prop :=
  ∀ i, 0 ≤ (a.move_stats i).consecutive ∧ (a.move_stats i).consecutive ≤ (a.move_stats i).attempts

/-- The distance record of one move is in order: `last_dist` is -1 or a
distance, and either no hit was observed (`min_hit_dist = max_hit_dist = -1`) or
`0 ≤ min_hit_dist ≤ max_hit_dist` with `last_dist` a distance. -/
def dist_ok (ms : move_stat) : Prop :=
  (ms.last_dist = -1 ∨ 0 ≤ ms.last_dist) ∧
  ((ms.min_hit_dist = -1 ∧ ms.max_hit_dist = -1) ∨
    (0 ≤ ms.min_hit_dist ∧ ms.min_hit_dist ≤ ms.max_hit_dist ∧ 0 ≤ ms.last_dist))

/-- Every move has its distance record in order. -/
def dists_ordered (a : ai) : Prop :=
  ∀ i, dist_ok (a.move_stats i)

/-- The states a controller can be in: the state built by
`ai_controller_create`, and every state that `ai_har_event` or
`ai_controller_poll` produces from a reachable state, for any fighter view, any
event and any state of the generator. -/
inductive Reachable : ai → Prop where
  | create (difficulty : Int) (pilot : sd_pilot) (pilot_id shot : Int) :
      Reachable (ai_controller_create difficulty pilot pilot_id shot)
  | event (v : fighter_view) (a : ai) (event : har_event) (r : Rng) :
      Reachable a → Reachable (ai_har_event v a event r).1
  | poll (v : fighter_view) (a : ai) (r : Rng) :
      Reachable a → Reachable (ai_controller_poll v a r).a

/-- The timer invariant of a tactic state: a running movement timer has a
movement type, and a running attack timer has an attack type. -/
def timers_consistent (t : tactic_state) : Prop :=
  (t.move_timer = 0 ∨ t.move_type ≠ 0) ∧ (t.attack_timer = 0 ∨ t.attack_type ≠ 0)

/-- Both phases of a tactic state are empty. -/
def phases_clear (t : tactic_state) : Prop :=
  t.move_type = 0 ∧ t.move_timer = 0 ∧ t.attack_type = 0 ∧ t.attack_timer = 0

/-- The invariant carried along a run: the timers are consistent, and while no
tactic is queued both phases are empty. -/
def tactic_ok (t : tactic_state) : Prop :=
  timers_consistent t ∧ (t.tactic_type ≤ 0 → phases_clear t)

/-- The states a controller can be in when no chained follow-up is queued over
a tactic that is still queued: as `Reachable`, without the `LAND_HIT` events
whose move category equals `chain_hit_on` while `tactic_type > 0`. -/
inductive ReachableUnchained : ai → Prop where
  | create (difficulty : Int) (pilot : sd_pilot) (pilot_id shot : Int) :
      ReachableUnchained (ai_controller_create difficulty pilot pilot_id shot)
  | event (v : fighter_view) (a : ai) (event : har_event) (r : Rng) :
      ReachableUnchained a →
      ¬ (event.type = HAR_EVENT_LAND_HIT ∧ a.tactic.tactic_type > 0 ∧
          a.tactic.chain_hit_on = event.move.category) →
      ReachableUnchained (ai_har_event v a event r).1
  | poll (v : fighter_view) (a : ai) (r : Rng) :
      ReachableUnchained a → ReachableUnchained (ai_controller_poll v a r).a

/-- The tactic state is as `reset_tactic_state` leaves it, but for the chained
follow-up a successful attack may set right after the reset: no tactic is
queued and both phases are empty. -/
def tactic_reset (t : tactic_state) : Prop :=
  t.tactic_type = 0 ∧ t.move_type = 0 ∧ t.move_timer = 0 ∧ t.attack_type = 0 ∧
    t.attack_id = 0 ∧ t.attack_timer = 0 ∧ t.attack_on = none

/-- From tactic state `t` to `u` neither timer has grown and their sum has
strictly decreased. -/
def tactic_progress (t u : tactic_state) : Prop :=
  u.move_timer ≤ t.move_timer ∧ u.attack_timer ≤ t.attack_timer ∧
    u.move_timer + u.attack_timer < t.move_timer + t.attack_timer

/-- Successive calls of `handle_queued_tactic` with nothing in between, one call
per entry of the list: the fighter view the call sees and the state of the
generator it starts from. -/
def run_queued_tactic (a : ai) : List (fighter_view × Rng) → ai
  | [] => a
  | s :: rest => run_queued_tactic (handle_queued_tactic s.1 a s.2).a rest

/-- The call of `handle_queued_tactic` on state `a` with view `v` and generator
`r` runs the Charge arm of the attack phase for a Shadow, and the
`attempt_charge_attack` it makes there returns true. -/
def shadow_charge_succeeds (v : fighter_view) (a : ai) (r : Rng) : Prop :=
  v.id = HAR_SHADOW ∧ ¬ (a.tactic.move_type > 0 ∧ a.tactic.move_timer > 0) ∧
  a.tactic.attack_type = ATTACK_CHARGE ∧ a.tactic.attack_timer > 0 ∧
  (attempt_charge_attack v
    { a with tactic := { a.tactic with attack_timer := a.tactic.attack_timer - 1 } }
    (r_or (r_pure v.close)
      (r_and (r_pure (decide (get_enemy_range v ≤ RANGE_MID))) (dumb_sometimes a)) r).2).1
    = true

/-- No call of the run `run_queued_tactic a steps` is a successful Charge of a
Shadow: the tactic is never re-queued. -/
def never_requeued (a : ai) : List (fighter_view × Rng) → Prop
  | [] => True
  | s :: rest =>
    ¬ shadow_charge_succeeds s.1 a s.2 ∧ never_requeued (handle_queued_tactic s.1 a s.2).a rest

/-- The states a controller reaches from the state `a0` through any sequence of
`ai_har_event` and `ai_controller_poll` calls, for any fighter view, any event
and any state of the generator. -/
inductive ReachableFrom (a0 : ai) : ai → Prop where
  | start : ReachableFrom a0 a0
  | event (v : fighter_view) (a : ai) (event : har_event) (r : Rng) :
      ReachableFrom a0 a → ReachableFrom a0 (ai_har_event v a event r).1
  | poll (v : fighter_view) (a : ai) (r : Rng) :
      ReachableFrom a0 a → ReachableFrom a0 (ai_controller_poll v a r).a

/-- A controller of stored difficulty 1 with no tactic queued, no follow-up
tactic chained, and the pilot `p`. -/
def never_planning (p : sd_pilot) (a : ai) : Prop :=
  a.difficulty = 1 ∧ a.tactic.tactic_type = 0 ∧ a.tactic.chain_hit_tactic = 0 ∧ a.pilot = p

/-- The state with which `ai_controller_poll` reaches its blocking steps in a
running fight: `act_timer` is decremented and the projectile list is the one on
screen. -/
def poll_entry (v : fighter_view) (a : ai) : ai :=
  { a with act_timer := a.act_timer - 1, active_projectiles := v.projectiles }

/-- The generator with which a poll in a running fight reaches the steps after
the two blocking checks. -/
def poll_rng (v : fighter_view) (a : ai) (r : Rng) : Rng :=
  (ai_block_projectile v (poll_entry v a) (ai_block_har v (poll_entry v a) r).r).r

/-- The mirror image of an action mask, in the words of the specification: the
same mask with the Left and Right bits exchanged. -/
def mirror_act (x : Nat) : Nat :=
  x - (x &&& (ACT_LEFT ||| ACT_RIGHT)) + (if x &&& ACT_LEFT ≠ 0 then ACT_RIGHT else 0) +
    (if x &&& ACT_RIGHT ≠ 0 then ACT_LEFT else 0)

/-- The state after a selection of `m`, in the words of the specification:
every `consecutive` counter is replaced by its integer half, then `attempts` and
`consecutive` of `m` are incremented and its `last_dist` is the horizontal
distance between the fighters; `m` is selected, playback starts at the last
character of its command string, and `blocked` is cleared. -/
def after_selection (v : fighter_view) (a : ai) (m : af_move) : ai :=
  { a with
    move_stats := fun i =>
      if i = m.id then
        { a.move_stats i with
          attempts := (a.move_stats i).attempts + 1
          consecutive := Int.tdiv (a.move_stats i).consecutive 2 + 1
          last_dist := |v.pos_x - v.enemy_pos_x| }
      else { a.move_stats i with consecutive := Int.tdiv (a.move_stats i).consecutive 2 }
    selected_move := some m
    move_str_pos := (m.move_string.length : Int) - 1
    blocked := 0 }

/-! ## Sample inputs -/

/-- A generator whose first draws are the given ones and whose later draws are
all 0. -/
def rng_of (l : List Nat) : Rng :=
  ⟨fun i => l.getD i 0, 0⟩

/-- A pilot record with every field zero. -/
def zero_pilot : sd_pilot :=
  ⟨0, 0, 0, 0, 0, 0, 0, 0, 0, 0, 0, 0, 0, 0⟩

/-- A basic punch: move 3 of the sample catalog. -/
def jab : af_move :=
  ⟨3, CAT_BASIC, 5, ['P']⟩

/-- A Jaguar standing next to its enemy, facing right, in a running fight; its
catalog holds the single move `jab`. -/
def near_view : fighter_view :=
  { state := STATE_STANDING
    close := true
    is_wallhugging := false
    id := HAR_JAGUAR
    direction := OBJECT_FACE_RIGHT
    pos_x := 100
    vel_x := 0
    crouching := false
    enemy_pos_x := 160
    enemy_executing_move := false
    enemy_crouching := false
    af_get_move := fun i => if i = 3 then some jab else none
    paused := false
    in_arena := true
    arena_fighting := true
    projectiles := [] }

/-- The same fighter with the enemy 160 units away and not close. -/
def mid_view : fighter_view :=
  { near_view with close := false, enemy_pos_x := 260 }

/-- The same fighter in the air. -/
def jumping_view : fighter_view :=
  { near_view with state := STATE_JUMPING }

/-- A controller at the highest difficulty (index 5) for pilot 6, freshly
created. -/
def fresh_ai : ai :=
  ai_controller_create 5 zero_pilot 6 0

/-- The state of `fresh_ai` after an `ENEMY_STUN` event next to the enemy: the
Close tactic is queued. -/
def stunned_ai : ai :=
  (ai_har_event near_view fresh_ai ⟨HAR_EVENT_ENEMY_STUN, jab⟩ (rng_of [])).1

/-- The state of `stunned_ai` after one poll: the queued attack selected `jab`,
the tactic is reset, and a Push follow-up is chained on a Basic hit. -/
def attacking_ai : ai :=
  (ai_controller_poll near_view stunned_ai (rng_of [])).a

/-- The state of `attacking_ai` after a `RECOVER` event with the enemy 160 units
away: the Counter tactic is queued, with a Block movement phase. -/
def countering_ai : ai :=
  (ai_har_event mid_view attacking_ai ⟨HAR_EVENT_RECOVER, jab⟩ (rng_of [0, 600, 0, 1, 0])).1

/-- The state of `countering_ai` after the chained attack lands: the follow-up
Push tactic is queued over the Counter tactic. -/
def requeued_ai : ai :=
  (ai_har_event mid_view countering_ai ⟨HAR_EVENT_LAND_HIT, jab⟩ (rng_of [])).1

/-- A throw: move 5, of category Throw. -/
def throw_move : af_move :=
  ⟨5, CAT_THROW, 10, ['P']⟩

/-- The event of being hit by `throw_move`. -/
def thrown_event : har_event :=
  ⟨HAR_EVENT_TAKE_HIT, throw_move⟩

/-- A controller at the lowest difficulty after `n` rounds of one poll next to
the enemy (which selects an attack) followed by the enemy blocking `jab`. -/
def blocked_rounds : Nat → ai
  | 0 => ai_controller_create 0 zero_pilot 0 0
  | n + 1 =>
    (ai_har_event near_view (ai_controller_poll near_view (blocked_rounds n) (rng_of [])).a
      ⟨HAR_EVENT_ENEMY_BLOCK, jab⟩ (rng_of [])).1

/-- The same fighter as `near_view` with the game paused. -/
def paused_view : fighter_view :=
  { near_view with paused := true }

/-- The same fighter as `near_view` in an arena whose round is not being
fought. -/
def intro_view : fighter_view :=
  { near_view with arena_fighting := false }

/-- A projectile: move 7, of category Projectile. -/
def shot_move : af_move :=
  ⟨7, CAT_PROJECTILE, 8, ['P']⟩

/-- The controller `fresh_ai` after three projectiles have been counted. -/
def shot_ai : ai :=
  { fresh_ai with shot := 3 }

/-- A low kick: move 4, of category Low. -/
def low_kick : af_move :=
  ⟨4, CAT_LOW, 6, ['K']⟩

/-- The controller `fresh_ai` with an Escape follow-up chained on a Low hit. -/
def chained_ai : ai :=
  set_chain fresh_ai CAT_LOW TACTIC_ESCAPE

/-- A projectile fired by the controller's own fighter. -/
def own_projectile : projectile :=
  ⟨true, some 0, 120, 10, OBJECT_FACE_RIGHT⟩

/-- A projectile of the enemy flying left, 40 units from the fighter of
`mid_view`. -/
def incoming_projectile : projectile :=
  ⟨false, some 0, 150, 10, OBJECT_FACE_LEFT⟩

/-- The fighter of `mid_view` with both projectiles on screen. -/
def shot_view : fighter_view :=
  { mid_view with projectiles := [own_projectile, incoming_projectile] }

/-- The controller `fresh_ai` with the Fly tactic queued, 160 units from the
enemy: a Jump movement phase and a Jump attack. -/
def flying_ai : ai :=
  (queue_tactic mid_view fresh_ai TACTIC_FLY (rng_of [])).1

/-- The state of `flying_ai` after one poll: the jump of the movement phase was
made and the roll against `pref_jump` ended the phase, so the attack phase is
active with `attack_timer = 2`. -/
def fly_attack_ai : ai :=
  (ai_controller_poll mid_view flying_ai (rng_of [700])).a

/-- The state of `fly_attack_ai` after one more poll, in which the Jump attack
waited: `attack_timer = 1`. -/
def fly_last_tick_ai : ai :=
  (ai_controller_poll mid_view fly_attack_ai (rng_of [])).a

/-- The controller `fly_attack_ai` after two throws have been counted. -/
def fly_thrown_ai : ai :=
  { fly_attack_ai with thrown := 2 }

/-- The fighter of `mid_view` crouching. -/
def crouching_view : fighter_view :=
  { mid_view with state := STATE_CROUCHING }

/-- A Jaguar standing 200 units from its enemy (range class Mid), facing
right. -/
def charge_view : fighter_view :=
  { near_view with close := false, enemy_pos_x := 300 }

/-- The same fighter facing left, the enemy 200 units to its left. -/
def charge_view_left : fighter_view :=
  { near_view with close := false, direction := OBJECT_FACE_LEFT, pos_x := 300,
                   enemy_pos_x := 100 }

/-- A controller at the lowest difficulty with the Counter tactic queued and a
Push follow-up chained on a Basic hit. -/
def novice_countering_ai : ai :=
  set_chain (queue_tactic mid_view (ai_controller_create 0 zero_pilot 6 0) TACTIC_COUNTER
    (rng_of [])).1 CAT_BASIC TACTIC_PUSH

/-- A controller at the highest difficulty for pilot 9, zero-initialised, after
`n` `TAKE_HIT` events of category Throw with all draws 0. -/
def thrown_rounds : Nat → ai
  | 0 => ai_controller_create 5 zero_pilot 9 0
  | n + 1 => (ai_har_event near_view (thrown_rounds n) thrown_event (rng_of [])).1

/-- The fighter of `near_view` 400 units from its enemy (range class Far). -/
def far_view : fighter_view :=
  { near_view with close := false, enemy_pos_x := 500 }

/-- The fighter of `near_view` in its victory pose. -/
def victory_view : fighter_view :=
  { near_view with state := STATE_VICTORY }

/-- A scrap move: move 9, of category Scrap. -/
def scrap_move : af_move :=
  ⟨9, CAT_SCRAP, 0, ['P', 'K']⟩

/-- A projectile move whose command string is empty. -/
def blank_shot_move : af_move :=
  ⟨8, CAT_PROJECTILE, 8, []⟩

/-- Statistics of a move that has hit between 10 and 20 units and was last
selected at 25 units, five more than `max_hit_dist`. -/
def edge_stat : move_stat :=
  { max_hit_dist := 20, min_hit_dist := 10, value := 0, attempts := 0, consecutive := 0,
    last_dist := 25 }

/-- The state of `attacking_ai` after the enemy has blocked `jab` once:
`blocked = 1`. -/
def blocked_ai : ai :=
  (ai_har_event near_view attacking_ai ⟨HAR_EVENT_ENEMY_BLOCK, jab⟩ (rng_of [])).1

/-- The controller `fresh_ai` after three throws have been counted. -/
def thrice_thrown_ai : ai :=
  { fresh_ai with thrown := 3 }

/-- The controller `fresh_ai` with the Close tactic queued and an active
movement phase whose `move_type` is 7, not a movement type of the source. -/
def bad_move_ai : ai :=
  { fresh_ai with tactic :=
      { fresh_ai.tactic with tactic_type := TACTIC_CLOSE, move_type := 7, move_timer := 3,
                             attack_type := ATTACK_RANDOM, attack_timer := 2 } }

/-- The controller `fresh_ai` with the Close tactic queued and an active attack
phase whose `attack_type` is 42, not an attack type of the source. -/
def bad_attack_ai : ai :=
  { fresh_ai with tactic :=
      { fresh_ai.tactic with tactic_type := TACTIC_CLOSE, attack_type := 42,
                             attack_timer := 2 } }

/-- The easiest opponent: a controller created with difficulty index 0. -/
def easiest_ai : ai :=
  ai_controller_create 0 zero_pilot 6 0

/-- The state of `easiest_ai` after an `ENEMY_STUN` event next to the enemy and
one poll. -/
def easiest_later_ai : ai :=
  (ai_controller_poll near_view
    (ai_har_event near_view easiest_ai ⟨HAR_EVENT_ENEMY_STUN, jab⟩ (rng_of [])).1
    (rng_of [])).a

/-- A Shadow standing next to its enemy. -/
def shadow_view : fighter_view :=
  { near_view with id := HAR_SHADOW }

/-- The controller `fresh_ai` with the Close tactic queued and the last tick of
a Charge attack phase left. -/
def shadow_charging_ai : ai :=
  { fresh_ai with tactic :=
      { fresh_ai.tactic with tactic_type := TACTIC_CLOSE, attack_type := ATTACK_CHARGE,
                             attack_timer := 1 } }

/-- The state of `attacking_ai` after an `ENEMY_STUN` event next to the enemy:
the Close tactic is queued while the Push follow-up is still chained on a Basic
hit. -/
def chained_close_ai : ai :=
  (ai_har_event near_view attacking_ai ⟨HAR_EVENT_ENEMY_STUN, jab⟩ (rng_of [])).1

/-- The Shadow of `shadow_view` in the air, where a Charge is refused. -/
def shadow_jumping_view : fighter_view :=
  { shadow_view with state := STATE_JUMPING }


/-! ## Basic facts about the gates -/

theorem r_pure_apply (b : Bool) (r : Rng) : r_pure b r = (b, r) := rfl

theorem r_or_true_right (x : Rand Bool) (r : Rng) : (r_or x (r_pure true) r).1 = true := by
  unfold r_or r_pure
  split <;> simp_all

/-! ## The tactic selector in the air -/

/-- C6: for every tactic, every controller state and every outcome of the
random draws, `likes_tactic` returns false when the fighter is in the Jumping
state. -/
theorem likes_tactic_jumping (v : fighter_view) (a : ai) (tactic_type : Int) (r : Rng)
    (h : v.state = STATE_JUMPING) : (likes_tactic v a tactic_type r).1 = false := by
  unfold likes_tactic
  simp only [h, decide_True]
  rw [if_pos (r_or_true_right _ r)]

theorem likes_tactic_jumping_witness :
    jumping_view.state = STATE_JUMPING ∧
      (likes_tactic jumping_view (ai_controller_create 5 zero_pilot 6 0) TACTIC_ESCAPE
        (rng_of [1, 1])).1 = false :=
  ⟨rfl, likes_tactic_jumping _ _ _ _ rfl⟩

/-! ## Resetting and compiling a tactic -/

/-- C5 (counterexample): a controller whose tactic was reset once has
`tactic_type = 0` and `last_tactic = TACTIC_ESCAPE`; a second reset does not
leave `last_tactic` unchanged but sets it to 0. -/
theorem reset_tactic_state_twice_forgets :
    (reset_tactic_state (queue_tactic near_view (ai_controller_create 5 zero_pilot 6 0)
        TACTIC_ESCAPE (rng_of [])).1).tactic.tactic_type = 0 ∧
    (reset_tactic_state (queue_tactic near_view (ai_controller_create 5 zero_pilot 6 0)
        TACTIC_ESCAPE (rng_of [])).1).tactic.last_tactic = TACTIC_ESCAPE ∧
    (reset_tactic_state (reset_tactic_state (queue_tactic near_view
        (ai_controller_create 5 zero_pilot 6 0) TACTIC_ESCAPE (rng_of [])).1)).tactic.last_tactic
      ≠ TACTIC_ESCAPE := by
  decide

/-- C5 (amended): after `reset_tactic_state`, `last_tactic` equals the prior
`tactic_type` in every case, so it is 0 when the prior `tactic_type` was zero. -/
theorem reset_tactic_state_last_tactic (a : ai) :
    (reset_tactic_state a).tactic.last_tactic = a.tactic.tactic_type := by
  unfold reset_tactic_state
  by_cases h : a.tactic.tactic_type = 0 <;> simp [h]

/-- C7 (counterexample): queueing Push, a tactic without a movement phase, over
a queued Escape leaves `move_type = 0` with `move_timer = 5`. -/
theorem queue_tactic_keeps_stale_move_timer :
    (queue_tactic near_view (queue_tactic near_view (ai_controller_create 5 zero_pilot 6 0)
        TACTIC_ESCAPE (rng_of [])).1 TACTIC_PUSH (rng_of [])).1.tactic.move_type = 0 ∧
    (queue_tactic near_view (queue_tactic near_view (ai_controller_create 5 zero_pilot 6 0)
        TACTIC_ESCAPE (rng_of [])).1 TACTIC_PUSH (rng_of [])).1.tactic.move_timer = 5 := by
  decide

/-- C7 (amended): for every prior state and every tactic of the source (1..11),
after `queue_tactic` the `move_timer` keeps its prior value if the compiled
tactic has no movement phase, and is 5 if it has one. -/
theorem queue_tactic_move_timer (v : fighter_view) (a : ai) (tactic_type : Int) (r : Rng)
    (h : 1 ≤ tactic_type ∧ tactic_type ≤ 11) :
    ((queue_tactic v a tactic_type r).1.tactic.move_type = 0 →
      (queue_tactic v a tactic_type r).1.tactic.move_timer = a.tactic.move_timer) ∧
    ((queue_tactic v a tactic_type r).1.tactic.move_type ≠ 0 →
      (queue_tactic v a tactic_type r).1.tactic.move_timer = 5) := by
  obtain ⟨h1, h2⟩ := h
  interval_cases tactic_type <;> simp [queue_tactic] <;> split_ifs <;> simp_all

theorem queue_tactic_move_timer_witness :
    (1 ≤ TACTIC_PUSH ∧ TACTIC_PUSH ≤ 11) ∧
    (queue_tactic near_view (queue_tactic near_view (ai_controller_create 5 zero_pilot 6 0)
        TACTIC_ESCAPE (rng_of [])).1 TACTIC_PUSH (rng_of [])).1.tactic.move_timer =
      (queue_tactic near_view (ai_controller_create 5 zero_pilot 6 0)
        TACTIC_ESCAPE (rng_of [])).1.tactic.move_timer :=
  ⟨by decide, (queue_tactic_move_timer _ _ _ _ (by decide)).1 (by decide)⟩

/-! ## Highest-damage selection and the learning table -/

theorem attempt_attack_step_highest_damage (v : fighter_view) (a : ai)
    (ms : Fin 70 → move_stat) (b : Bool) :
    attempt_attack_step v { a with move_stats := ms } true b = attempt_attack_step v a true b := by
  funext p i
  unfold attempt_attack_step
  cases v.af_get_move i.val <;> simp

theorem dumb_sometimes_move_stats (a : ai) (ms : Fin 70 → move_stat) :
    dumb_sometimes { a with move_stats := ms } = dumb_sometimes a := rfl

/-- C8: `attempt_attack` with `highest_damage = true` does not depend on the
learning table: two controller states that differ only in `move_stats`, run on
the same fighter view with the same generator, return the same flag, select
the same move and leave the generator in the same state. -/
theorem attempt_attack_highest_damage_independent (v : fighter_view) (a : ai)
    (ms : Fin 70 → move_stat) (r : Rng) :
    (attempt_attack v { a with move_stats := ms } true r).1 = (attempt_attack v a true r).1 ∧
    (attempt_attack v { a with move_stats := ms } true r).2.1.selected_move =
      (attempt_attack v a true r).2.1.selected_move ∧
    (attempt_attack v { a with move_stats := ms } true r).2.2 =
      (attempt_attack v a true r).2.2 := by
  unfold attempt_attack
  simp only [attempt_attack_step_highest_damage, dumb_sometimes_move_stats]
  split <;> simp [set_selected_move]

/-! ## Functions that only touch the tactic -/

theorem same_core.refl (a : ai) : same_core a a :=
  ⟨rfl, rfl, rfl, rfl, rfl, rfl, rfl, rfl, rfl, rfl, rfl, rfl⟩

theorem same_core.trans {a b c : ai} (h1 : same_core a b) (h2 : same_core b c) : same_core a c :=
  ⟨h2.1.trans h1.1, h2.2.trans h1.2, h2.3.trans h1.3, h2.4.trans h1.4, h2.5.trans h1.5,
    h2.6.trans h1.6, h2.7.trans h1.7, h2.8.trans h1.8, h2.9.trans h1.9, h2.10.trans h1.10,
    h2.11.trans h1.11, h2.12.trans h1.12⟩

theorem same_core.symm {a b : ai} (h : same_core a b) : same_core b a :=
  ⟨h.1.symm, h.2.symm, h.3.symm, h.4.symm, h.5.symm, h.6.symm, h.7.symm, h.8.symm, h.9.symm,
    h.10.symm, h.11.symm, h.12.symm⟩

theorem same_core_tactic (a : ai) (t : tactic_state) : same_core a { a with tactic := t } :=
  ⟨rfl, rfl, rfl, rfl, rfl, rfl, rfl, rfl, rfl, rfl, rfl, rfl⟩

theorem queue_tactic_eq (v : fighter_view) (a : ai) (t : Int) (r : Rng) :
    (queue_tactic v a t r).1 = { a with tactic := (queue_tactic v a t r).1.tactic } := rfl

theorem queue_tactic_core (v : fighter_view) (a : ai) (t : Int) (r : Rng) :
    same_core a (queue_tactic v a t r).1 :=
  ⟨rfl, rfl, rfl, rfl, rfl, rfl, rfl, rfl, rfl, rfl, rfl, rfl⟩

theorem reset_tactic_state_core (a : ai) : same_core a (reset_tactic_state a) :=
  ⟨rfl, rfl, rfl, rfl, rfl, rfl, rfl, rfl, rfl, rfl, rfl, rfl⟩

theorem set_chain_core (a : ai) (cat t : Int) : same_core a (set_chain a cat t) :=
  ⟨rfl, rfl, rfl, rfl, rfl, rfl, rfl, rfl, rfl, rfl, rfl, rfl⟩

theorem reset_act_timer_core (a : ai) (r : Rng) : same_core a (reset_act_timer a r).1 :=
  ⟨rfl, rfl, rfl, rfl, rfl, rfl, rfl, rfl, rfl, rfl, rfl, rfl⟩

theorem queue_first_liked_core (v : fighter_view) (a : ai) (ts : List Int) (r : Rng) :
    same_core a (queue_first_liked v a ts r).1 := by
  induction ts generalizing r with
  | nil => exact same_core.refl a
  | cons t ts ih =>
    unfold queue_first_liked
    split
    · exact queue_tactic_core v a t _
    · exact ih _

theorem chain_first_liked_core (v : fighter_view) (a : ai) (cat : Int) (ts : List Int) (r : Rng) :
    same_core a (chain_first_liked v a cat ts r).1 := by
  induction ts generalizing r with
  | nil => exact same_core.refl a
  | cons t ts ih =>
    unfold chain_first_liked
    split
    · exact set_chain_core a cat t
    · exact ih _

theorem queue_first_rolled_core (v : fighter_view) (a : ai) (ts : List (Int × Int)) (r : Rng) :
    same_core a (queue_first_rolled v a ts r).1 := by
  induction ts generalizing r with
  | nil => exact same_core.refl a
  | cons t ts ih =>
    obtain ⟨n, t⟩ := t
    unfold queue_first_rolled
    split
    · exact queue_tactic_core v a t _
    · exact ih _

theorem suggest_core (v : fighter_view) (a : ai) (b : Bool) (ts : List Int) (r : Rng) :
    same_core a (suggest v a b ts r).1 := by
  unfold suggest
  dsimp only
  split
  · exact same_core.refl a
  · exact queue_first_liked_core v a ts _

theorem reset_and_chain_core (v : fighter_view) (a : ai) (gate : Rand Bool) (cat : Int)
    (ts : List Int) (r : Rng) : same_core a (reset_and_chain v a gate cat ts r).1 := by
  unfold reset_and_chain
  split
  · exact (reset_tactic_state_core a).trans (chain_first_liked_core v _ cat ts _)
  · exact reset_tactic_state_core a

/-! ## Move selection -/

theorem foldl_preserves {α β : Type} (P : α → Prop) (f : α → β → α)
    (h : ∀ x y, P x → P (f x y)) (l : List β) (x : α) (hx : P x) : P (l.foldl f x) := by
  induction l generalizing x with
  | nil => exact hx
  | cons y ys ih => exact ih (f x y) (h x y hx)

theorem pick_update_valid (v : fighter_view) (f : Bool) (p : pick) (move : af_move)
    (value : Int) (r : Rng) (hm : is_valid_move move v f = true)
    (hp : ∀ m, p.selected_move = some m → is_valid_move m v f = true) :
    ∀ m, (pick_update p move value r).selected_move = some m → is_valid_move m v f = true := by
  intro m
  unfold pick_update
  split_ifs
  · intro h; cases h; exact hm
  · intro h; cases h; exact hm
  · exact hp m

theorem assign_move_by_cat_step_valid (v : fighter_view) (a : ai) (category : Int)
    (highest_damage : Bool) (p : pick) (i : Fin 70)
    (hp : ∀ m, p.selected_move = some m → is_valid_move m v true = true) :
    ∀ m, (assign_move_by_cat_step v a category highest_damage p i).selected_move = some m →
      is_valid_move m v true = true := by
  unfold assign_move_by_cat_step
  split
  · exact hp
  · split_ifs with h1 h2 h3
    · exact hp
    · exact pick_update_valid v true p _ _ _ h2 hp
    · exact pick_update_valid v true p _ _ _ h2 hp
    · exact hp

theorem attempt_attack_step_valid (v : fighter_view) (a : ai) (highest_damage b : Bool)
    (p : pick) (i : Fin 70)
    (hp : ∀ m, p.selected_move = some m → is_valid_move m v false = true) :
    ∀ m, (attempt_attack_step v a highest_damage b p i).selected_move = some m →
      is_valid_move m v false = true := by
  unfold attempt_attack_step
  split
  · exact hp
  · split_ifs with h1 h2 h3 h4
    · exact hp
    · exact pick_update_valid v false p _ _ _ h1 hp
    · exact hp
    · exact pick_update_valid v false p _ _ _ h1 hp
    · exact hp

/-- The two outcomes of `assign_move_by_cat`: no move and an unchanged state, or
a valid move selected after halving the `consecutive` counters. -/
theorem assign_move_by_cat_cases (v : fighter_view) (a : ai) (category : Int)
    (highest_damage : Bool) (r : Rng) :
    ((assign_move_by_cat v a category highest_damage r).1 = false ∧
      (assign_move_by_cat v a category highest_damage r).2.1 = a) ∨
    ∃ m, is_valid_move m v true = true ∧
      (assign_move_by_cat v a category highest_damage r).1 = true ∧
      (assign_move_by_cat v a category highest_damage r).2.1 =
        set_selected_move v { a with move_stats := halve_consecutive a.move_stats } m := by
  have hv := foldl_preserves
    (fun p : pick => ∀ m, p.selected_move = some m → is_valid_move m v true = true)
    (assign_move_by_cat_step v a category highest_damage)
    (assign_move_by_cat_step_valid v a category highest_damage)
    (List.finRange 70) ⟨none, 0, r⟩ (by intro m h; cases h)
  unfold assign_move_by_cat
  dsimp only
  split
  · rename_i m hm
    exact Or.inr ⟨m, hv m hm, rfl, rfl⟩
  · exact Or.inl ⟨rfl, rfl⟩

/-- The two outcomes of `attempt_attack`. -/
theorem attempt_attack_cases (v : fighter_view) (a : ai) (highest_damage : Bool) (r : Rng) :
    ((attempt_attack v a highest_damage r).1 = false ∧
      (attempt_attack v a highest_damage r).2.1 = a) ∨
    ∃ m, is_valid_move m v false = true ∧
      (attempt_attack v a highest_damage r).1 = true ∧
      (attempt_attack v a highest_damage r).2.1 =
        set_selected_move v { a with move_stats := halve_consecutive a.move_stats } m := by
  unfold attempt_attack
  dsimp only
  split
  · rename_i m hm
    refine Or.inr ⟨m, ?_, rfl, rfl⟩
    exact foldl_preserves
      (fun p : pick => ∀ m, p.selected_move = some m → is_valid_move m v false = true)
      _ (attempt_attack_step_valid v a highest_damage _)
      (List.finRange 70) _ (by intro m h; cases h) m hm
  · exact Or.inl ⟨rfl, rfl⟩

theorem assign_move_by_id_step_valid (v : fighter_view) (move_id : Int) (found : Option af_move)
    (i : Fin 70) (hp : ∀ m, found = some m → is_valid_move m v true = true) :
    ∀ m, assign_move_by_id_step v move_id found i = some m → is_valid_move m v true = true := by
  intro m
  cases found with
  | some m0 =>
    intro h
    have h0 : m0 = m := by simpa [assign_move_by_id_step] using h
    exact h0 ▸ hp m0 rfl
  | none =>
    unfold assign_move_by_id_step
    dsimp only
    split
    · intro h; cases h
    · split_ifs with h1 h2
      · intro h; cases h
      · intro h; cases h; exact h1
      · intro h; cases h

/-- The two outcomes of `assign_move_by_id`. -/
theorem assign_move_by_id_cases (v : fighter_view) (a : ai) (move_id : Int) :
    ((assign_move_by_id v a move_id).1 = false ∧ (assign_move_by_id v a move_id).2 = a) ∨
    ∃ m, is_valid_move m v true = true ∧ (assign_move_by_id v a move_id).1 = true ∧
      (assign_move_by_id v a move_id).2 = set_selected_move v a m := by
  have hv := foldl_preserves
    (fun p : Option af_move => ∀ m, p = some m → is_valid_move m v true = true)
    (assign_move_by_id_step v move_id) (assign_move_by_id_step_valid v move_id)
    (List.finRange 70) none (by intro m h; cases h)
  unfold assign_move_by_id
  split
  · rename_i m hm
    exact Or.inr ⟨m, hv m hm, rfl, rfl⟩
  · exact Or.inl ⟨rfl, rfl⟩

/-! ## The effect of one poll on the fields outside the tactic -/

theorem same_core_light (a : ai) (t : Int) (c : Nat) (ts : tactic_state)
    (ps : List projectile) :
    same_core a { a with act_timer := t, cur_act := c, tactic := ts, active_projectiles := ps } :=
  ⟨rfl, rfl, rfl, rfl, rfl, rfl, rfl, rfl, rfl, rfl, rfl, rfl⟩

theorem set_selected_move_core (v : fighter_view) (m : af_move) {a b : ai} (h : same_core a b) :
    same_core (set_selected_move v a m) (set_selected_move v b m) := by
  constructor <;> simp [set_selected_move, h.har_event_hooked, h.difficulty, h.input_lag,
    h.input_lag_timer, h.last_move_id, h.move_stats, h.thrown, h.shot, h.pilot]

theorem halve_core {a b : ai} (h : same_core a b) :
    same_core { a with move_stats := halve_consecutive a.move_stats }
      { b with move_stats := halve_consecutive b.move_stats } := by
  constructor <;> simp [h.har_event_hooked, h.difficulty, h.input_lag, h.input_lag_timer,
    h.selected_move, h.last_move_id, h.move_str_pos, h.move_stats, h.blocked, h.thrown, h.shot,
    h.pilot]

theorem clear_selected_core {a b : ai} (h : same_core a b) :
    same_core { a with selected_move := none } { b with selected_move := none } := by
  constructor <;> simp [h.har_event_hooked, h.difficulty, h.input_lag, h.input_lag_timer,
    h.last_move_id, h.move_str_pos, h.move_stats, h.blocked, h.thrown, h.shot, h.pilot]

theorem process_selected_move_core (v : fighter_view) (m : af_move) {a b : ai}
    (h : same_core a b) :
    same_core (process_selected_move v a m).1 (process_selected_move v b m).1 := by
  unfold process_selected_move
  simp only [h.input_lag_timer, h.move_str_pos, h.input_lag]
  split_ifs <;> constructor <;>
    simp_all [h.har_event_hooked, h.difficulty, h.input_lag, h.input_lag_timer,
      h.selected_move, h.last_move_id, h.move_str_pos, h.move_stats, h.blocked, h.thrown,
      h.shot, h.pilot]

theorem poll_effect.mono_right {v : fighter_view} {a b c : ai} (h : poll_effect v a b)
    (hbc : same_core b c) : poll_effect v a c := by
  cases h with
  | unchanged h => exact .unchanged (h.trans hbc)
  | cleared h => exact .cleared (h.trans hbc)
  | played m hm h => exact .played m hm (h.trans hbc)
  | selected m f hv h => exact .selected m f hv (h.trans hbc)
  | selected_by_id m hv h => exact .selected_by_id m hv (h.trans hbc)

theorem poll_effect.mono_left {v : fighter_view} {a b c : ai} (hab : same_core a b)
    (h : poll_effect v b c) : poll_effect v a c := by
  cases h with
  | unchanged h => exact .unchanged (hab.trans h)
  | cleared h => exact .cleared ((clear_selected_core hab).trans h)
  | played m hm h =>
    exact .played m (hab.selected_move ▸ hm) ((process_selected_move_core v m hab).trans h)
  | selected m f hv h =>
    exact .selected m f hv ((set_selected_move_core v m (halve_core hab)).trans h)
  | selected_by_id m hv h => exact .selected_by_id m hv ((set_selected_move_core v m hab).trans h)
theorem ai_block_har_core (v : fighter_view) (a : ai) (r : Rng) :
    same_core a (ai_block_har v a r).a := by
  unfold ai_block_har
  dsimp only
  split_ifs <;> exact same_core_light a _ _ _ _

theorem ai_block_projectile_loop_core (v : fighter_view) (a : ai) (ps : List projectile)
    (r : Rng) : same_core a (ai_block_projectile_loop v a ps r).a := by
  induction ps generalizing r with
  | nil => exact same_core.refl a
  | cons p ps ih =>
    unfold ai_block_projectile_loop
    split_ifs
    · exact ih _
    · split
      · exact ih _
      · dsimp only
        split_ifs
        · exact same_core_light a _ _ _ _
        · exact ih _
        · exact ih _

theorem ai_block_projectile_core (v : fighter_view) (a : ai) (r : Rng) :
    same_core a (ai_block_projectile v a r).a :=
  ai_block_projectile_loop_core v a _ r

theorem handle_move_phase_core (v : fighter_view) (a : ai) (r : Rng) :
    same_core a (handle_move_phase v a r).a := by
  unfold handle_move_phase
  dsimp only
  split_ifs <;> exact same_core_light a _ _ _ _

theorem change_movement_core (v : fighter_view) (a : ai) (r : Rng) :
    same_core a (change_movement v a r).1 := by
  unfold change_movement
  dsimp only
  split_ifs
  · exact same_core_light a _ _ _ _
  · exact same_core.refl a

theorem handle_movement_core (v : fighter_view) (a : ai) (r : Rng) :
    same_core a (handle_movement v a r).1 :=
  change_movement_core v a r

theorem effect_of_assign_cat (v : fighter_view) (a b : ai) (category : Int) (hd : Bool)
    (r : Rng) (h : same_core (assign_move_by_cat v a category hd r).2.1 b) :
    poll_effect v a b := by
  rcases assign_move_by_cat_cases v a category hd r with ⟨_, h2⟩ | ⟨m, hv, _, h2⟩
  · exact .unchanged (h2 ▸ h)
  · exact .selected m true hv (h2 ▸ h)

theorem effect_of_attempt_attack (v : fighter_view) (a b : ai) (hd : Bool)
    (r : Rng) (h : same_core (attempt_attack v a hd r).2.1 b) :
    poll_effect v a b := by
  rcases attempt_attack_cases v a hd r with ⟨_, h2⟩ | ⟨m, hv, _, h2⟩
  · exact .unchanged (h2 ▸ h)
  · exact .selected m false hv (h2 ▸ h)

theorem effect_of_assign_id (v : fighter_view) (a b : ai) (move_id : Int)
    (h : same_core (assign_move_by_id v a move_id).2 b) :
    poll_effect v a b := by
  rcases assign_move_by_id_cases v a move_id with ⟨_, h2⟩ | ⟨m, hv, _, h2⟩
  · exact .unchanged (h2 ▸ h)
  · exact .selected_by_id m hv (h2 ▸ h)

theorem assign_move_by_cat_false (v : fighter_view) (a : ai) (category : Int) (hd : Bool)
    (r : Rng) (h : ¬ (assign_move_by_cat v a category hd r).1 = true) :
    (assign_move_by_cat v a category hd r).2.1 = a := by
  rcases assign_move_by_cat_cases v a category hd r with ⟨_, h2⟩ | ⟨m, _, h1, _⟩
  · exact h2
  · exact absurd h1 h

theorem attempt_attack_false (v : fighter_view) (a : ai) (hd : Bool)
    (r : Rng) (h : ¬ (attempt_attack v a hd r).1 = true) :
    (attempt_attack v a hd r).2.1 = a := by
  rcases attempt_attack_cases v a hd r with ⟨_, h2⟩ | ⟨m, _, h1, _⟩
  · exact h2
  · exact absurd h1 h
theorem effect_reset_and_chain {v : fighter_view} {a b : ai} (h : poll_effect v a b)
    (gate : Rand Bool) (cat : Int) (ts : List Int) (r : Rng) :
    poll_effect v a (reset_and_chain v b gate cat ts r).1 :=
  h.mono_right (reset_and_chain_core v b gate cat ts r)

theorem attack_id_case_effect (v : fighter_view) (a : ai) (b : Bool) (r : Rng) :
    poll_effect v a (attack_id_case v a b r).a := by
  unfold attack_id_case
  split_ifs
  · exact .unchanged (same_core.refl a)
  · exact effect_of_assign_id v a _ _ (reset_tactic_state_core _)
  · exact effect_of_assign_id v a _ _ (same_core.refl _)

theorem attack_trip_case_core (v : fighter_view) (a : ai) (r : Rng) :
    same_core a (attack_trip_case v a r).a := by
  unfold attack_trip_case
  dsimp only
  split_ifs
  · exact reset_and_chain_core _ _ _ _ _ _
  · exact same_core.refl a

theorem grab_select_effect (v : fighter_view) (a : ai) (r : Rng) :
    poll_effect v a (grab_select v a r).2.1 := by
  unfold grab_select
  dsimp only
  split_ifs with h1 h2
  · exact effect_of_assign_cat v a _ _ _ _ (same_core.refl _)
  · rw [assign_move_by_cat_false v a _ _ _ h1]
    exact effect_of_assign_cat v a _ _ _ _ (same_core.refl _)
  · rw [assign_move_by_cat_false v a _ _ _ h1]
    exact effect_of_assign_cat v a _ _ _ _ (same_core.refl _)

theorem attack_grab_case_effect (v : fighter_view) (a : ai) (r : Rng) :
    poll_effect v a (attack_grab_case v a r).a := by
  unfold attack_grab_case
  dsimp only
  split_ifs
  · exact .unchanged (same_core.refl a)
  · exact effect_reset_and_chain (grab_select_effect v a r) _ _ _ _
  · exact grab_select_effect v a r

theorem attack_by_cat_case_effect (v : fighter_view) (a : ai) (cat : Int) (hd : Bool)
    (ts : List Int) (r : Rng) : poll_effect v a (attack_by_cat_case v a cat hd ts r).a := by
  unfold attack_by_cat_case
  dsimp only
  split_ifs
  · exact effect_of_assign_cat v a _ _ _ _ (reset_and_chain_core _ _ _ _ _ _)
  · exact effect_of_assign_cat v a _ _ _ _ (same_core.refl _)

theorem attack_light_case_effect (v : fighter_view) (a : ai) (b : Bool) (r : Rng) :
    poll_effect v a (attack_light_case v a b r).a := by
  unfold attack_light_case
  dsimp only
  split_ifs <;> first
    | exact .unchanged (same_core.refl a)
    | exact attack_by_cat_case_effect _ _ _ _ _ _

theorem attack_heavy_case_effect (v : fighter_view) (a : ai) (b : Bool) (r : Rng) :
    poll_effect v a (attack_heavy_case v a b r).a := by
  unfold attack_heavy_case
  dsimp only
  split_ifs <;> first
    | exact .unchanged (same_core.refl a)
    | exact attack_by_cat_case_effect _ _ _ _ _ _

theorem attack_random_case_effect (v : fighter_view) (a : ai) (r : Rng) :
    poll_effect v a (attack_random_case v a r).a := by
  unfold attack_random_case
  dsimp only
  split_ifs
  · exact effect_of_attempt_attack v a _ _ _ (reset_and_chain_core _ _ _ _ _ _)
  · exact effect_of_attempt_attack v a _ _ _ (same_core.refl _)

theorem attack_jump_case_effect (v : fighter_view) (a : ai) (b : Bool) (r : Rng) :
    poll_effect v a (attack_jump_case v a b r).a := by
  unfold attack_jump_case
  split_ifs
  · exact .unchanged (same_core.refl a)
  · exact attack_random_case_effect v a r

theorem ranged_chain_core (v : fighter_view) (a : ai) (r : Rng) :
    same_core a (ranged_chain v a r).1 := by
  unfold ranged_chain
  dsimp only
  split_ifs
  · exact set_chain_core _ _ _
  · exact chain_first_liked_core _ _ _ _ _
  · exact same_core.refl a

theorem attack_ranged_case_core (v : fighter_view) (a : ai) (r : Rng) :
    same_core a (attack_ranged_case v a r).a := by
  unfold attack_ranged_case
  dsimp only
  split_ifs
  · exact (reset_tactic_state_core a).trans (ranged_chain_core _ _ _)
  · exact same_core.refl a

theorem shadow_followup_core (v : fighter_view) (a : ai) (r : Rng) :
    same_core a (shadow_followup v a r).1 := by
  unfold shadow_followup
  dsimp only
  split_ifs <;> exact queue_tactic_core _ _ _ _

theorem attack_charge_case_core (v : fighter_view) (a : ai) (r : Rng) :
    same_core a (attack_charge_case v a r).a := by
  unfold attack_charge_case
  dsimp only
  split_ifs
  · exact (reset_tactic_state_core a).trans (shadow_followup_core _ _ _)
  · exact reset_tactic_state_core a
  · exact same_core.refl a

theorem attack_push_case_core (v : fighter_view) (a : ai) (r : Rng) :
    same_core a (attack_push_case v a r).a := by
  unfold attack_push_case
  dsimp only
  split_ifs
  · exact reset_tactic_state_core a
  · exact same_core.refl a

/-- Case analysis on the attack switch: a property that holds of the result of
every case holds of the result of the switch. -/
theorem attack_switch_cases (P : step_result → Prop) (v : fighter_view) (a : ai) (b : Bool)
    (r : Rng)
    (h_id : P (attack_id_case v a b r)) (h_trip : P (attack_trip_case v a r))
    (h_grab : P (attack_grab_case v a r)) (h_light : P (attack_light_case v a b r))
    (h_heavy : P (attack_heavy_case v a b r)) (h_jump : P (attack_jump_case v a b r))
    (h_ranged : P (attack_ranged_case v a r)) (h_charge : P (attack_charge_case v a r))
    (h_push : P (attack_push_case v a r)) (h_random : P (attack_random_case v a r))
    (h_other : P ⟨true,
      { a with tactic := { a.tactic with attack_type := 0, attack_timer := 0 } }, r, []⟩) :
    P (attack_switch v a b r) := by
  unfold attack_switch
  by_cases c1 : a.tactic.attack_type = ATTACK_ID
  · rw [if_pos c1]; exact h_id
  rw [if_neg c1]
  by_cases c2 : a.tactic.attack_type = ATTACK_TRIP
  · rw [if_pos c2]; exact h_trip
  rw [if_neg c2]
  by_cases c3 : a.tactic.attack_type = ATTACK_GRAB
  · rw [if_pos c3]; exact h_grab
  rw [if_neg c3]
  by_cases c4 : a.tactic.attack_type = ATTACK_LIGHT
  · rw [if_pos c4]; exact h_light
  rw [if_neg c4]
  by_cases c5 : a.tactic.attack_type = ATTACK_HEAVY
  · rw [if_pos c5]; exact h_heavy
  rw [if_neg c5]
  by_cases c6 : a.tactic.attack_type = ATTACK_JUMP
  · rw [if_pos c6]; exact h_jump
  rw [if_neg c6]
  by_cases c7 : a.tactic.attack_type = ATTACK_RANGED
  · rw [if_pos c7]; exact h_ranged
  rw [if_neg c7]
  by_cases c8 : a.tactic.attack_type = ATTACK_CHARGE
  · rw [if_pos c8]; exact h_charge
  rw [if_neg c8]
  by_cases c9 : a.tactic.attack_type = ATTACK_PUSH
  · rw [if_pos c9]; exact h_push
  rw [if_neg c9]
  by_cases c10 : a.tactic.attack_type = ATTACK_RANDOM
  · rw [if_pos c10]; exact h_random
  rw [if_neg c10]
  exact h_other

theorem attack_switch_effect (v : fighter_view) (a : ai) (b : Bool) (r : Rng) :
    poll_effect v a (attack_switch v a b r).a :=
  attack_switch_cases (fun s => poll_effect v a s.a) v a b r
    (attack_id_case_effect _ _ _ _) (.unchanged (attack_trip_case_core _ _ _))
    (attack_grab_case_effect _ _ _) (attack_light_case_effect _ _ _ _)
    (attack_heavy_case_effect _ _ _ _) (attack_jump_case_effect _ _ _ _)
    (.unchanged (attack_ranged_case_core _ _ _)) (.unchanged (attack_charge_case_core _ _ _))
    (.unchanged (attack_push_case_core _ _ _)) (attack_random_case_effect _ _ _)
    (.unchanged (same_core_tactic a _))

theorem handle_attack_phase_effect (v : fighter_view) (a : ai) (r : Rng) :
    poll_effect v a (handle_attack_phase v a r).a :=
  poll_effect.mono_left (same_core_tactic a _) (attack_switch_effect v _ _ _)

theorem handle_queued_tactic_effect (v : fighter_view) (a : ai) (r : Rng) :
    poll_effect v a (handle_queued_tactic v a r).a := by
  unfold handle_queued_tactic
  split_ifs
  · exact .unchanged (handle_move_phase_core v a r)
  · exact handle_attack_phase_effect v a r
  · exact .unchanged (reset_tactic_state_core a)

theorem attack_by_cat_case_flag (v : fighter_view) (a : ai) (cat : Int) (hd : Bool)
    (ts : List Int) (r : Rng) : (attack_by_cat_case v a cat hd ts r).flag = true := by
  unfold attack_by_cat_case
  dsimp only
  split_ifs <;> rfl

theorem attack_random_case_flag (v : fighter_view) (a : ai) (r : Rng) :
    (attack_random_case v a r).flag = true := by
  unfold attack_random_case
  dsimp only
  split_ifs <;> rfl

theorem attack_switch_flag (v : fighter_view) (a : ai) (b : Bool) (r : Rng) :
    (attack_switch v a b r).flag = true := by
  apply attack_switch_cases (fun s => s.flag = true)
  · unfold attack_id_case; split_ifs <;> rfl
  · unfold attack_trip_case; dsimp only; split_ifs <;> rfl
  · unfold attack_grab_case; dsimp only; split_ifs <;> rfl
  · unfold attack_light_case; dsimp only
    split_ifs <;> first | rfl | exact attack_by_cat_case_flag _ _ _ _ _ _
  · unfold attack_heavy_case; dsimp only
    split_ifs <;> first | rfl | exact attack_by_cat_case_flag _ _ _ _ _ _
  · unfold attack_jump_case
    split_ifs <;> first | rfl | exact attack_random_case_flag _ _ _
  · unfold attack_ranged_case; dsimp only; split_ifs <;> rfl
  · unfold attack_charge_case; dsimp only; split_ifs <;> rfl
  · unfold attack_push_case; dsimp only; split_ifs <;> rfl
  · exact attack_random_case_flag _ _ _
  · rfl

theorem handle_queued_tactic_idle (v : fighter_view) (a : ai) (r : Rng)
    (h : (handle_queued_tactic v a r).flag = false) :
    same_core a (handle_queued_tactic v a r).a := by
  unfold handle_queued_tactic at h ⊢
  split_ifs at h ⊢
  · exact handle_move_phase_core v a r
  · rw [handle_attack_phase, attack_switch_flag] at h
    cases h
  · exact reset_tactic_state_core a
theorem poll_anti_throw_effect (v : fighter_view) (a : ai) (cm : Bool) (r : Rng) :
    poll_effect v a (poll_anti_throw v a cm r).a := by
  unfold poll_anti_throw
  dsimp only
  split_ifs with h0 h1 h2
  · exact effect_of_assign_cat v a _ _ _ _ (reset_tactic_state_core _)
  · rw [assign_move_by_cat_false v a _ _ _ h1]
    exact effect_of_attempt_attack v a _ _ _ (reset_tactic_state_core _)
  · rw [assign_move_by_cat_false v a _ _ _ h1]
    exact effect_of_attempt_attack v a _ _ _ (same_core.refl _)
  · exact .unchanged (same_core.refl a)

theorem poll_anti_throw_idle (v : fighter_view) (a : ai) (cm : Bool) (r : Rng)
    (h : (poll_anti_throw v a cm r).flag = false) :
    (poll_anti_throw v a cm r).a = a := by
  unfold poll_anti_throw at h ⊢
  dsimp only at h ⊢
  split_ifs at h ⊢ with h0 h1 h2
  · rw [assign_move_by_cat_false v a _ _ _ h1] at h2 ⊢
    exact attempt_attack_false v a _ _ h2
  · rfl

theorem poll_tactic_effect (v : fighter_view) (a : ai) (cm : Bool) (r : Rng) :
    poll_effect v a (poll_tactic v a cm r).a := by
  unfold poll_tactic
  dsimp only
  split_ifs
  · exact (handle_queued_tactic_effect v a r).mono_right (reset_act_timer_core _ _)
  · exact handle_queued_tactic_effect v a r
  · exact .unchanged (same_core.refl a)

theorem poll_tactic_idle (v : fighter_view) (a : ai) (cm : Bool) (r : Rng)
    (h : (poll_tactic v a cm r).flag = false) :
    same_core a (poll_tactic v a cm r).a := by
  unfold poll_tactic at h ⊢
  dsimp only at h ⊢
  split_ifs at h ⊢
  · exact (handle_queued_tactic_idle v a r h).trans (reset_act_timer_core _ _)
  · exact handle_queued_tactic_idle v a r h
  · exact same_core.refl a

theorem poll_random_attack_effect (v : fighter_view) (a : ai) (r : Rng) :
    poll_effect v a (poll_random_attack v a r).a := by
  unfold poll_random_attack
  dsimp only
  split_ifs
  · exact effect_of_attempt_attack v a _ _ _ (reset_act_timer_core _ _)
  · exact effect_of_attempt_attack v a _ _ _ (same_core.refl _)
  · exact .unchanged (same_core.refl a)

theorem poll_random_attack_idle (v : fighter_view) (a : ai) (r : Rng)
    (h : (poll_random_attack v a r).flag = false) :
    (poll_random_attack v a r).a = a := by
  unfold poll_random_attack at h ⊢
  dsimp only at h ⊢
  split_ifs at h ⊢ with h0 h1
  · exact attempt_attack_false v a _ _ h1
  · rfl

theorem poll_ambient_core (v : fighter_view) (a : ai) (cm : Bool) (r : Rng) :
    same_core a (poll_ambient v a cm r).a := by
  unfold poll_ambient
  dsimp only
  split_ifs
  · exact (handle_movement_core v a r).trans (queue_first_rolled_core _ _ _ _)
  · exact handle_movement_core v a r

theorem poll_decide_effect (v : fighter_view) (a : ai) (r : Rng) :
    poll_effect v a (poll_decide v a r).a := by
  unfold poll_decide
  dsimp only
  split_ifs with h1 h2 h3
  · exact poll_anti_throw_effect v a _ r
  · rw [poll_anti_throw_idle v a _ r (by simpa using h1)]
    exact poll_tactic_effect v a _ _
  · rw [poll_anti_throw_idle v a _ r (by simpa using h1)] at h2 ⊢
    exact poll_effect.mono_left (poll_tactic_idle v a _ _ (by simpa using h2))
      (poll_random_attack_effect v _ _)
  · rw [poll_anti_throw_idle v a _ r (by simpa using h1)] at h2 h3 ⊢
    rw [poll_random_attack_idle v _ _ (by simpa using h3)]
    exact .unchanged ((poll_tactic_idle v a _ _ (by simpa using h2)).trans
      (poll_ambient_core v _ _ _))

/-- The effect of one poll on the fields outside the tactic: nothing, the
selected move cleared, one character played, or one valid move selected. -/
theorem ai_controller_poll_effect (v : fighter_view) (a : ai) (r : Rng) :
    poll_effect v a (ai_controller_poll v a r).a := by
  have h1 : same_core a
      { a with act_timer := a.act_timer - 1, active_projectiles := v.projectiles } :=
    same_core_light a _ _ _ _
  have h2 := h1.trans (ai_block_har_core v _ r)
  unfold ai_controller_poll
  dsimp only
  split_ifs
  · exact .unchanged (same_core.refl a)
  · exact .cleared (same_core.refl _)
  · exact .unchanged h2
  · exact .unchanged (h2.trans (ai_block_projectile_core v _ _))
  · split
    · rename_i m hm
      exact poll_effect.mono_left (h2.trans (ai_block_projectile_core v _ _))
        (.played m hm (same_core.refl _))
    · exact poll_effect.mono_left (h2.trans (ai_block_projectile_core v _ _))
        (poll_decide_effect v _ _)

/-! ## The effect of one event on the fields outside the tactic -/

theorem take_hit_adjust_effect (a : ai) (cat : Int) (r : Rng) :
    event_effect a (take_hit_adjust a cat r).1 := by
  unfold take_hit_adjust
  dsimp only
  split_ifs <;> first
    | exact .unchanged (same_core.refl a)
    | exact .adjusted _ _ _ (same_core.refl _)

theorem event_effect.then_core {a b c : ai} (h : event_effect a b) (hbc : same_core b c) :
    event_effect a c := by
  cases h with
  | unchanged h => exact .unchanged (h.trans hbc)
  | cleared h => exact .cleared (h.trans hbc)
  | land_hit m h => exact .land_hit m (h.trans hbc)
  | enemy_block m h => exact .enemy_block m (h.trans hbc)
  | adjusted t s p h => exact .adjusted t s p (h.trans hbc)

theorem land_hit_update_core (m : af_move) {a b : ai} (h : same_core a b) :
    same_core (land_hit_update a m) (land_hit_update b m) := by
  constructor <;> simp [land_hit_update, h.har_event_hooked, h.difficulty, h.input_lag,
    h.input_lag_timer, h.selected_move, h.move_str_pos, h.move_stats, h.blocked, h.thrown,
    h.shot, h.pilot]

theorem enemy_block_update_core (m : af_move) {a b : ai} (h : same_core a b) :
    same_core (enemy_block_update a m) (enemy_block_update b m) := by
  constructor <;> simp [enemy_block_update, h.har_event_hooked, h.difficulty, h.input_lag,
    h.input_lag_timer, h.selected_move, h.move_str_pos, h.move_stats, h.thrown,
    h.shot, h.pilot]

theorem adjusted_core (t s : Int) (p : sd_pilot) {a b : ai} (h : same_core a b) :
    same_core { a with thrown := t, shot := s, pilot := p }
      { b with thrown := t, shot := s, pilot := p } := by
  constructor <;> simp [h.har_event_hooked, h.difficulty, h.input_lag,
    h.input_lag_timer, h.selected_move, h.last_move_id, h.move_str_pos, h.move_stats, h.blocked]

theorem event_effect.after_core {a b c : ai} (hab : same_core a b) (h : event_effect b c) :
    event_effect a c := by
  cases h with
  | unchanged h => exact .unchanged (hab.trans h)
  | cleared h => exact .cleared ((clear_selected_core hab).trans h)
  | land_hit m h => exact .land_hit m ((land_hit_update_core m (clear_selected_core hab)).trans h)
  | enemy_block m h =>
    exact .enemy_block m ((enemy_block_update_core m (clear_selected_core hab)).trans h)
  | adjusted t s p h => exact .adjusted t s p ((adjusted_core t s p hab).trans h)

theorem react_effect (v : fighter_view) (a : ai) (b : Bool) (event : har_event) (r : Rng) :
    event_effect a (react v (clear_on_event a event.type) b event r).1 := by
  obtain ⟨type, m⟩ := event
  cases type <;> unfold react clear_on_event <;> dsimp only
  · split_ifs <;> first
      | exact .unchanged (same_core_tactic a _)
      | exact .unchanged (suggest_core _ _ _ _ _)
  · split_ifs <;> first
      | exact .unchanged (same_core_tactic a _)
      | exact .unchanged (suggest_core _ _ _ _ _)
  · exact .unchanged (suggest_core _ _ _ _ _)
  · split_ifs <;>
      exact (take_hit_adjust_effect a _ _).then_core (suggest_core _ _ _ _ _)
  · exact .cleared (same_core.refl _)
  · split_ifs
    · exact .enemy_block m (suggest_core _ _ _ _ _)
    · exact .cleared (same_core.refl _)
  · split_ifs
    · exact .land_hit m (queue_tactic_core _ _ _ _)
    · exact .land_hit m (suggest_core _ _ _ _ _)
  · split_ifs <;> first
      | exact .unchanged (same_core.refl a)
      | exact .unchanged (queue_tactic_core _ _ _ _)
  · exact .unchanged (suggest_core _ _ _ _ _)
  · exact .unchanged (same_core.refl a)

/-- The effect of one event on the fields outside the tactic. -/
theorem ai_har_event_effect (v : fighter_view) (a : ai) (event : har_event) (r : Rng) :
    event_effect a (ai_har_event v a event r).1 := by
  unfold ai_har_event
  dsimp only
  split_ifs
  · exact event_effect.after_core (reset_tactic_state_core a) (react_effect v _ _ event _)
  · exact react_effect v a _ event _

/-! ## Invariants of the selected move and of the learning table -/

theorem is_valid_move_length (m : af_move) (v : fighter_view) (f : Bool)
    (h : is_valid_move m v f = true) : 0 < (m.move_string.length : Int) := by
  unfold is_valid_move at h
  dsimp only at h
  split_ifs at h with h1 h2 h3 h4 h5 h6 h7 h8
  · cases hs : m.move_string with
    | nil => simp [hs] at h6
    | cons c cs => simp
  · exact h8.2

theorem playback_in_range_of_core {a b : ai} (h : same_core a b) (ha : playback_in_range a) :
    playback_in_range b := by
  intro m hm
  rw [h.selected_move] at hm
  rw [h.move_str_pos]
  exact ha m hm

theorem value_capped_of_core {a b : ai} (h : same_core a b) (ha : value_capped a) :
    value_capped b := by
  intro i
  rw [h.move_stats]
  exact ha i

theorem counts_ordered_of_core {a b : ai} (h : same_core a b) (ha : counts_ordered a) :
    counts_ordered b := by
  intro i
  rw [h.move_stats]
  exact ha i

theorem playback_in_range_select (v : fighter_view) (a : ai) (m : af_move) (f : Bool)
    (hv : is_valid_move m v f = true) : playback_in_range (set_selected_move v a m) := by
  intro m2 hm
  have hlen := is_valid_move_length m v f hv
  simp only [set_selected_move, Option.some.injEq] at hm ⊢
  subst hm
  constructor <;> omega

theorem playback_in_range_played (v : fighter_view) (a : ai) (m : af_move)
    (hm : a.selected_move = some m) (ha : playback_in_range a) :
    playback_in_range (process_selected_move v a m).1 := by
  have hr := ha m hm
  unfold process_selected_move
  dsimp only
  intro m2
  split_ifs <;> dsimp only <;> intro h2
  · cases h2
  · rw [hm] at h2; cases h2; exact hr
  · cases h2
  · rw [hm] at h2; cases h2; constructor <;> omega
  · cases h2
  · rw [hm] at h2; cases h2; constructor <;> omega

theorem playback_in_range_poll_effect {v : fighter_view} {a b : ai} (h : poll_effect v a b)
    (ha : playback_in_range a) : playback_in_range b := by
  cases h with
  | unchanged h => exact playback_in_range_of_core h ha
  | cleared h =>
    refine playback_in_range_of_core h ?_
    intro m hm; cases hm
  | played m hm h => exact playback_in_range_of_core h (playback_in_range_played v a m hm ha)
  | selected m f hv h => exact playback_in_range_of_core h (playback_in_range_select v _ m f hv)
  | selected_by_id m hv h =>
    exact playback_in_range_of_core h (playback_in_range_select v _ m true hv)

theorem playback_in_range_event_effect {a b : ai} (h : event_effect a b)
    (ha : playback_in_range a) : playback_in_range b := by
  cases h with
  | unchanged h => exact playback_in_range_of_core h ha
  | cleared h =>
    refine playback_in_range_of_core h ?_
    intro m hm; cases hm
  | land_hit m h =>
    refine playback_in_range_of_core h ?_
    intro m hm; cases hm
  | enemy_block m h =>
    refine playback_in_range_of_core h ?_
    intro m hm; cases hm
  | adjusted t s p h => exact playback_in_range_of_core h ha
theorem tdiv_two_bounds (c : Int) (h : 0 ≤ c) : 0 ≤ Int.tdiv c 2 ∧ Int.tdiv c 2 ≤ c := by
  rw [Int.tdiv_eq_ediv h (by decide)]
  constructor <;> omega

theorem set_selected_move_stats (v : fighter_view) (a : ai) (m : af_move) (i : Fin 70) :
    ((set_selected_move v a m).move_stats i).value = (a.move_stats i).value ∧
    (((set_selected_move v a m).move_stats i).attempts = (a.move_stats i).attempts ∧
      ((set_selected_move v a m).move_stats i).consecutive = (a.move_stats i).consecutive ∨
     ((set_selected_move v a m).move_stats i).attempts = (a.move_stats i).attempts + 1 ∧
      ((set_selected_move v a m).move_stats i).consecutive =
        (a.move_stats i).consecutive + 1) := by
  unfold set_selected_move set_stat
  dsimp only
  split_ifs with h
  · subst h; exact ⟨rfl, Or.inr ⟨rfl, rfl⟩⟩
  · exact ⟨rfl, Or.inl ⟨rfl, rfl⟩⟩

theorem value_capped_select (v : fighter_view) (a : ai) (m : af_move) (ha : value_capped a) :
    value_capped (set_selected_move v a m) := by
  intro i
  rw [(set_selected_move_stats v a m i).1]
  exact ha i

theorem counts_ordered_select (v : fighter_view) (a : ai) (m : af_move)
    (ha : counts_ordered a) : counts_ordered (set_selected_move v a m) := by
  intro i
  have h := ha i
  rcases (set_selected_move_stats v a m i).2 with ⟨h1, h2⟩ | ⟨h1, h2⟩ <;> rw [h1, h2] <;>
    constructor <;> omega

theorem value_capped_halve (a : ai) (ha : value_capped a) :
    value_capped { a with move_stats := halve_consecutive a.move_stats } :=
  fun i => ha i

theorem counts_ordered_halve (a : ai) (ha : counts_ordered a) :
    counts_ordered { a with move_stats := halve_consecutive a.move_stats } := by
  intro i
  have h := ha i
  have hb := tdiv_two_bounds _ h.1
  exact ⟨hb.1, le_trans hb.2 h.2⟩

theorem value_capped_poll_effect {v : fighter_view} {a b : ai} (h : poll_effect v a b)
    (ha : value_capped a) : value_capped b := by
  cases h with
  | unchanged h => exact value_capped_of_core h ha
  | cleared h => exact value_capped_of_core h ha
  | played m hm h =>
    refine value_capped_of_core h ?_
    unfold process_selected_move
    dsimp only
    split_ifs <;> exact ha
  | selected m f hv h =>
    exact value_capped_of_core h (value_capped_select v _ m (value_capped_halve a ha))
  | selected_by_id m hv h => exact value_capped_of_core h (value_capped_select v _ m ha)

theorem counts_ordered_poll_effect {v : fighter_view} {a b : ai} (h : poll_effect v a b)
    (ha : counts_ordered a) : counts_ordered b := by
  cases h with
  | unchanged h => exact counts_ordered_of_core h ha
  | cleared h => exact counts_ordered_of_core h ha
  | played m hm h =>
    refine counts_ordered_of_core h ?_
    unfold process_selected_move
    dsimp only
    split_ifs <;> exact ha
  | selected m f hv h =>
    exact counts_ordered_of_core h (counts_ordered_select v _ m (counts_ordered_halve a ha))
  | selected_by_id m hv h => exact counts_ordered_of_core h (counts_ordered_select v _ m ha)

theorem land_hit_update_stats (a : ai) (m : af_move) (i : Fin 70) :
    ((land_hit_update a m).move_stats i).attempts = (a.move_stats i).attempts ∧
    ((land_hit_update a m).move_stats i).consecutive = (a.move_stats i).consecutive ∧
    (((land_hit_update a m).move_stats i).value = (a.move_stats i).value ∨
      ((land_hit_update a m).move_stats i).value = 10 ∨
      ((land_hit_update a m).move_stats i).value = (a.move_stats i).value + 1 ∧
        (a.move_stats i).value + 1 ≤ 10) := by
  unfold land_hit_update set_stat
  dsimp only
  by_cases h : i = m.id
  · subst h
    rw [if_pos rfl]
    dsimp only
    refine ⟨rfl, rfl, ?_⟩
    by_cases h2 : (a.move_stats m.id).value + 1 > 10
    · rw [if_pos h2]; exact Or.inr (Or.inl rfl)
    · rw [if_neg h2]; exact Or.inr (Or.inr ⟨rfl, by omega⟩)
  · rw [if_neg h]; exact ⟨rfl, rfl, Or.inl rfl⟩

theorem enemy_block_update_stats (a : ai) (m : af_move) (i : Fin 70) :
    ((enemy_block_update a m).move_stats i).attempts = (a.move_stats i).attempts ∧
    ((enemy_block_update a m).move_stats i).consecutive = (a.move_stats i).consecutive ∧
    ((enemy_block_update a m).move_stats i).value ≤ (a.move_stats i).value := by
  unfold enemy_block_update set_stat
  dsimp only
  split_ifs with h
  · subst h; exact ⟨rfl, rfl, by dsimp only; omega⟩
  · exact ⟨rfl, rfl, le_refl _⟩

theorem value_capped_event_effect {a b : ai} (h : event_effect a b)
    (ha : value_capped a) : value_capped b := by
  cases h with
  | unchanged h => exact value_capped_of_core h ha
  | cleared h => exact value_capped_of_core h ha
  | land_hit m h =>
    refine value_capped_of_core h ?_
    intro i
    have h0 : (a.move_stats i).value ≤ 10 := ha i
    rcases (land_hit_update_stats { a with selected_move := none } m i).2.2 with h1 | h1 | h1
    · rw [h1]; exact h0
    · rw [h1]
    · rw [h1.1]; exact h1.2
  | enemy_block m h =>
    refine value_capped_of_core h ?_
    intro i
    exact le_trans (enemy_block_update_stats { a with selected_move := none } m i).2.2 (ha i)
  | adjusted t s p h => exact value_capped_of_core h ha

theorem counts_ordered_event_effect {a b : ai} (h : event_effect a b)
    (ha : counts_ordered a) : counts_ordered b := by
  cases h with
  | unchanged h => exact counts_ordered_of_core h ha
  | cleared h => exact counts_ordered_of_core h ha
  | land_hit m h =>
    refine counts_ordered_of_core h ?_
    intro i
    have h1 := land_hit_update_stats { a with selected_move := none } m i
    rw [h1.1, h1.2.1]
    exact ha i
  | enemy_block m h =>
    refine counts_ordered_of_core h ?_
    intro i
    have h1 := enemy_block_update_stats { a with selected_move := none } m i
    rw [h1.1, h1.2.1]
    exact ha i
  | adjusted t s p h => exact counts_ordered_of_core h ha

/-! ## Reachable states -/

theorem playback_in_range_create (difficulty : Int) (pilot : sd_pilot) (pilot_id shot : Int) :
    playback_in_range (ai_controller_create difficulty pilot pilot_id shot) := by
  intro m hm
  cases hm

theorem Reachable.playback_in_range {a : ai} (h : Reachable a) : playback_in_range a := by
  induction h with
  | create d p i s => exact playback_in_range_create d p i s
  | event v a e r _ ih => exact playback_in_range_event_effect (ai_har_event_effect v a e r) ih
  | poll v a r _ ih => exact playback_in_range_poll_effect (ai_controller_poll_effect v a r) ih

theorem Reachable.value_capped {a : ai} (h : Reachable a) : value_capped a := by
  induction h with
  | create d p i s =>
    intro j
    show (0 : Int) ≤ 10
    decide
  | event v a e r _ ih => exact value_capped_event_effect (ai_har_event_effect v a e r) ih
  | poll v a r _ ih => exact value_capped_poll_effect (ai_controller_poll_effect v a r) ih

theorem Reachable.counts_ordered {a : ai} (h : Reachable a) : counts_ordered a := by
  induction h with
  | create d p i s =>
    intro j
    show (0 : Int) ≤ 0 ∧ (0 : Int) ≤ 0
    decide
  | event v a e r _ ih => exact counts_ordered_event_effect (ai_har_event_effect v a e r) ih
  | poll v a r _ ih => exact counts_ordered_poll_effect (ai_controller_poll_effect v a r) ih

theorem fresh_ai_reachable : Reachable fresh_ai :=
  Reachable.create 5 zero_pilot 6 0

theorem stunned_ai_reachable : Reachable stunned_ai :=
  Reachable.event near_view fresh_ai _ _ fresh_ai_reachable

theorem attacking_ai_reachable : Reachable attacking_ai :=
  Reachable.poll near_view stunned_ai _ stunned_ai_reachable

theorem countering_ai_reachable : Reachable countering_ai :=
  Reachable.event mid_view attacking_ai _ _ attacking_ai_reachable

theorem requeued_ai_reachable : Reachable requeued_ai :=
  Reachable.event mid_view countering_ai _ _ countering_ai_reachable

/-- C2: in every state reachable from `ai_controller_create` through
`ai_har_event` and `ai_controller_poll`, whenever a move is selected the
playback position satisfies `0 ≤ move_str_pos < length of its command string`. -/
theorem selected_move_position_in_range (a : ai) (h : Reachable a) (m : af_move)
    (hm : a.selected_move = some m) :
    0 ≤ a.move_str_pos ∧ a.move_str_pos < (m.move_string.length : Int) :=
  h.playback_in_range m hm

theorem selected_move_position_in_range_witness :
    Reachable attacking_ai ∧ attacking_ai.selected_move = some jab ∧
      (0 ≤ attacking_ai.move_str_pos ∧
        attacking_ai.move_str_pos < (jab.move_string.length : Int)) :=
  ⟨attacking_ai_reachable, by decide,
    selected_move_position_in_range attacking_ai attacking_ai_reachable jab (by decide)⟩

/-- C4: for every move id, `attempts ≥ consecutive ≥ 0` holds in every state
reachable from `ai_controller_create` through `ai_har_event` and
`ai_controller_poll`. -/
theorem attempts_ge_consecutive_ge_zero (a : ai) (h : Reachable a) (i : Fin 70) :
    (a.move_stats i).attempts ≥ (a.move_stats i).consecutive ∧
      (a.move_stats i).consecutive ≥ 0 :=
  ⟨(h.counts_ordered i).2, (h.counts_ordered i).1⟩

theorem attempts_ge_consecutive_ge_zero_witness :
    Reachable attacking_ai ∧ (attacking_ai.move_stats 3).attempts = 1 ∧
      ((attacking_ai.move_stats 3).attempts ≥ (attacking_ai.move_stats 3).consecutive ∧
        (attacking_ai.move_stats 3).consecutive ≥ 0) :=
  ⟨attacking_ai_reachable, by decide,
    attempts_ge_consecutive_ge_zero attacking_ai attacking_ai_reachable 3⟩

/-! ## The throw and projectile counters -/

theorem poll_effect_counters {v : fighter_view} {a b : ai} (h : poll_effect v a b) :
    b.thrown = a.thrown ∧ b.shot = a.shot ∧ b.pilot = a.pilot ∧ b.difficulty = a.difficulty := by
  have hp : ∀ m, (process_selected_move v a m).1.thrown = a.thrown ∧
      (process_selected_move v a m).1.shot = a.shot ∧
      (process_selected_move v a m).1.pilot = a.pilot ∧
      (process_selected_move v a m).1.difficulty = a.difficulty := by
    intro m
    unfold process_selected_move
    dsimp only
    split_ifs <;> exact ⟨rfl, rfl, rfl, rfl⟩
  cases h with
  | unchanged h => exact ⟨h.thrown, h.shot, h.pilot, h.difficulty⟩
  | cleared h => exact ⟨h.thrown, h.shot, h.pilot, h.difficulty⟩
  | played m hm h =>
    exact ⟨h.thrown.trans (hp m).1, h.shot.trans (hp m).2.1, h.pilot.trans (hp m).2.2.1,
      h.difficulty.trans (hp m).2.2.2⟩
  | selected m f hv h => exact ⟨h.thrown, h.shot, h.pilot, h.difficulty⟩
  | selected_by_id m hv h => exact ⟨h.thrown, h.shot, h.pilot, h.difficulty⟩

theorem take_hit_adjust_thrown (a : ai) (cat : Int) (r : Rng) :
    (take_hit_adjust a cat r).1.thrown =
      a.thrown + (if cat = CAT_THROW ∨ cat = CAT_CLOSE then 1 else 0) := by
  unfold take_hit_adjust
  dsimp only
  by_cases h : cat = CAT_THROW ∨ cat = CAT_CLOSE
  · rw [if_pos h, if_pos h]
    split_ifs <;> rfl
  · rw [if_neg h, if_neg h]
    split_ifs <;> simp

theorem take_hit_adjust_shot (a : ai) (cat : Int) (r : Rng) :
    (take_hit_adjust a cat r).1.shot =
      a.shot + (if cat = CAT_PROJECTILE then 1 else 0) := by
  unfold take_hit_adjust
  dsimp only
  by_cases h : cat = CAT_THROW ∨ cat = CAT_CLOSE
  · have h2 : ¬ cat = CAT_PROJECTILE := by
      rcases h with h | h <;> rw [h] <;> decide
    rw [if_pos h, if_neg h2]
    split_ifs <;> simp
  · rw [if_neg h]
    by_cases h2 : cat = CAT_PROJECTILE
    · rw [if_pos h2, if_pos h2]
      split_ifs <;> rfl
    · rw [if_neg h2, if_neg h2]
      simp

theorem react_counters (v : fighter_view) (a : ai) (b : Bool) (event : har_event) (r : Rng) :
    (react v a b event r).1.thrown =
      a.thrown + (if event.type = HAR_EVENT_TAKE_HIT ∧
        (event.move.category = CAT_THROW ∨ event.move.category = CAT_CLOSE) then 1 else 0) ∧
    (react v a b event r).1.shot =
      a.shot + (if event.type = HAR_EVENT_TAKE_HIT ∧ event.move.category = CAT_PROJECTILE
        then 1 else 0) := by
  obtain ⟨type, m⟩ := event
  cases type <;> unfold react <;> dsimp only
  case HAR_EVENT_TAKE_HIT =>
    simp only [true_and]
    split_ifs <;>
      simp only [(suggest_core _ _ _ _ _).thrown, (suggest_core _ _ _ _ _).shot,
        take_hit_adjust_thrown, take_hit_adjust_shot, if_pos, if_neg, *] <;> simp_all
  all_goals
    simp only [false_and, if_false, add_zero, reduceCtorEq]
    (try split_ifs) <;>
      first
        | exact ⟨rfl, rfl⟩
        | exact ⟨trivial, trivial⟩
        | exact ⟨(suggest_core _ _ _ _ _).thrown, (suggest_core _ _ _ _ _).shot⟩

theorem clear_on_event_counters (a : ai) (type : har_event_type) :
    (clear_on_event a type).thrown = a.thrown ∧ (clear_on_event a type).shot = a.shot ∧
    (clear_on_event a type).pilot = a.pilot ∧
    (clear_on_event a type).difficulty = a.difficulty := by
  cases type <;> exact ⟨rfl, rfl, rfl, rfl⟩

theorem ai_har_event_counters (v : fighter_view) (a : ai) (event : har_event) (r : Rng) :
    (ai_har_event v a event r).1.thrown =
      a.thrown + (if event.type = HAR_EVENT_TAKE_HIT ∧
        (event.move.category = CAT_THROW ∨ event.move.category = CAT_CLOSE) then 1 else 0) ∧
    (ai_har_event v a event r).1.shot =
      a.shot + (if event.type = HAR_EVENT_TAKE_HIT ∧ event.move.category = CAT_PROJECTILE
        then 1 else 0) := by
  unfold ai_har_event
  dsimp only
  constructor
  · rw [(react_counters v _ _ event _).1, (clear_on_event_counters _ _).1]
    split_ifs <;> rfl
  · rw [(react_counters v _ _ event _).2, (clear_on_event_counters _ _).2.1]
    split_ifs <;> rfl

/-- C10: the counters `thrown` and `shot` never decrease.  An event raises
`thrown` by exactly one when it is a `TAKE_HIT` of category Throw or Close and
leaves it unchanged otherwise; it raises `shot` by exactly one when it is a
`TAKE_HIT` of category Projectile and leaves it unchanged otherwise; a poll
changes neither. -/
theorem thrown_and_shot_only_count_up (v : fighter_view) (a : ai) (event : har_event)
    (r : Rng) :
    (ai_har_event v a event r).1.thrown =
      a.thrown + (if event.type = HAR_EVENT_TAKE_HIT ∧
        (event.move.category = CAT_THROW ∨ event.move.category = CAT_CLOSE) then 1 else 0) ∧
    (ai_har_event v a event r).1.shot =
      a.shot + (if event.type = HAR_EVENT_TAKE_HIT ∧ event.move.category = CAT_PROJECTILE
        then 1 else 0) ∧
    (ai_har_event v a event r).1.thrown ≥ a.thrown ∧
    (ai_har_event v a event r).1.shot ≥ a.shot ∧
    (ai_controller_poll v a r).a.thrown = a.thrown ∧
    (ai_controller_poll v a r).a.shot = a.shot := by
  have he := ai_har_event_counters v a event r
  have hp := poll_effect_counters (ai_controller_poll_effect v a r)
  refine ⟨he.1, he.2, ?_, ?_, hp.1, hp.2.1⟩
  · rw [he.1]; split_ifs <;> omega
  · rw [he.2]; split_ifs <;> omega

/-! ## Personality reshape after repeated throws -/

theorem smart_usually_congr {a b : ai} (h : b.difficulty = a.difficulty) :
    smart_usually b = smart_usually a := by
  funext r
  unfold smart_usually
  rw [h]

theorem cancel_take_hit_rng (a : ai) (event : har_event) (b : Bool) (r : Rng)
    (ht : event.type = HAR_EVENT_TAKE_HIT) :
    (r_and (r_pure b) (cancels_tactic a event) r).2 = r := by
  unfold r_and r_pure cancels_tactic
  rw [ht]
  split_ifs <;> rfl

theorem take_hit_adjust_reshape (a : ai) (r : Rng) (hs : (smart_usually a r).1 = true)
    (hn : a.thrown + 1 ≥ MAX_TIMES_THROWN) :
    (take_hit_adjust a CAT_THROW r).1.pilot = reshape_thrown a.pilot := by
  have hs2 : (smart_usually { a with thrown := a.thrown + 1 } r).1 = true := hs
  unfold take_hit_adjust
  dsimp only
  rw [if_pos (Or.inl rfl)]
  have hg : (r_and (smart_usually { a with thrown := a.thrown + 1 })
      (r_pure (decide (a.thrown + 1 ≥ MAX_TIMES_THROWN))) r).1 = true := by
    unfold r_and r_pure
    rw [if_pos hs2]
    simpa using hn
  rw [if_pos hg]

theorem react_throw_pilot (v : fighter_view) (a : ai) (b : Bool) (event : har_event) (r : Rng)
    (ht : event.type = HAR_EVENT_TAKE_HIT) (hc : event.move.category = CAT_THROW) :
    (react v a b event r).1.pilot = (take_hit_adjust a CAT_THROW r).1.pilot := by
  obtain ⟨type, m⟩ := event
  dsimp only at ht hc
  subst ht
  unfold react
  dsimp only
  rw [hc, if_pos (Or.inl rfl)]
  exact (suggest_core _ _ _ _ _).pilot

/-- A throw taken when `thrown` reaches the threshold, with the `smart_usually`
draw of the reshape check passing, reshapes the pilot. -/
theorem ai_har_event_throw_reshape (v : fighter_view) (a : ai) (event : har_event) (r : Rng)
    (ht : event.type = HAR_EVENT_TAKE_HIT) (hc : event.move.category = CAT_THROW)
    (hs : (smart_usually a r).1 = true) (hn : a.thrown + 1 ≥ MAX_TIMES_THROWN) :
    (ai_har_event v a event r).1.pilot = reshape_thrown a.pilot := by
  unfold ai_har_event
  dsimp only
  rw [react_throw_pilot v _ _ event _ ht hc, cancel_take_hit_rng a event _ r ht]
  have hcore : ∀ x : ai, x.difficulty = a.difficulty → x.thrown = a.thrown →
      x.pilot = a.pilot → (take_hit_adjust x CAT_THROW r).1.pilot = reshape_thrown a.pilot := by
    intro x hd hth hp
    rw [take_hit_adjust_reshape x r (by rw [smart_usually_congr hd]; exact hs)
      (by rw [hth]; exact hn), hp]
  apply hcore
  · rw [(clear_on_event_counters _ _).2.2.2]; split_ifs <;> rfl
  · rw [(clear_on_event_counters _ _).1]; split_ifs <;> rfl
  · rw [(clear_on_event_counters _ _).2.2.1]; split_ifs <;> rfl

/-- C9 (counterexample): at the lowest difficulty `smart_usually` never passes,
so three throws taken by a freshly created controller for pilot 6 leave
`att_def = 1`. -/
theorem three_throws_without_reshape :
    (ai_har_event near_view
      (ai_har_event near_view
        (ai_har_event near_view (ai_controller_create 0 zero_pilot 6 0) thrown_event
          (rng_of [])).1 thrown_event (rng_of [])).1 thrown_event (rng_of [])).1.pilot.att_def
      = 1 := by
  decide

/-- C9 (amended): for every freshly created controller (any difficulty, pilot
and fighter views), after `ai_har_event` has been called three times with a
`TAKE_HIT` event of category Throw, if the `smart_usually` draw taken at the
reshape check of the third call passes, the pilot has `att_def = 0`,
`att_sniper = 1` and `att_jump = 1`. -/
theorem three_throws_reshape (difficulty : Int) (pilot : sd_pilot) (pilot_id shot : Int)
    (v1 v2 v3 : fighter_view) (e1 e2 e3 : har_event) (r1 r2 r3 : Rng)
    (h1 : e1.type = HAR_EVENT_TAKE_HIT ∧ e1.move.category = CAT_THROW)
    (h2 : e2.type = HAR_EVENT_TAKE_HIT ∧ e2.move.category = CAT_THROW)
    (h3 : e3.type = HAR_EVENT_TAKE_HIT ∧ e3.move.category = CAT_THROW)
    (hs : (smart_usually
      (ai_har_event v2 (ai_har_event v1
        (ai_controller_create difficulty pilot pilot_id shot) e1 r1).1 e2 r2).1 r3).1 = true) :
    (ai_har_event v3 (ai_har_event v2 (ai_har_event v1
        (ai_controller_create difficulty pilot pilot_id shot) e1 r1).1 e2 r2).1 e3 r3).1.pilot.att_def
      = 0 ∧
    (ai_har_event v3 (ai_har_event v2 (ai_har_event v1
        (ai_controller_create difficulty pilot pilot_id shot) e1 r1).1 e2 r2).1 e3 r3).1.pilot.att_sniper
      = 1 ∧
    (ai_har_event v3 (ai_har_event v2 (ai_har_event v1
        (ai_controller_create difficulty pilot pilot_id shot) e1 r1).1 e2 r2).1 e3 r3).1.pilot.att_jump
      = 1 := by
  have c1 := (ai_har_event_counters v1
    (ai_controller_create difficulty pilot pilot_id shot) e1 r1).1
  have c2 := (ai_har_event_counters v2 (ai_har_event v1
    (ai_controller_create difficulty pilot pilot_id shot) e1 r1).1 e2 r2).1
  rw [if_pos ⟨h1.1, Or.inl h1.2⟩] at c1
  rw [if_pos ⟨h2.1, Or.inl h2.2⟩, c1] at c2
  have c0 : (ai_controller_create difficulty pilot pilot_id shot).thrown = 0 := rfl
  rw [c0] at c2
  rw [ai_har_event_throw_reshape v3 _ e3 r3 h3.1 h3.2 hs (by rw [c2]; decide)]
  exact ⟨rfl, rfl, rfl⟩

theorem three_throws_reshape_witness :
    (smart_usually
      (ai_har_event near_view (ai_har_event near_view fresh_ai thrown_event (rng_of [])).1
        thrown_event (rng_of [])).1 (rng_of [])).1 = true ∧
    (ai_har_event near_view (ai_har_event near_view
        (ai_har_event near_view fresh_ai thrown_event (rng_of [])).1
        thrown_event (rng_of [])).1 thrown_event (rng_of [])).1.pilot.att_def = 0 :=
  ⟨by decide,
    (three_throws_reshape 5 zero_pilot 6 0 near_view near_view near_view thrown_event
      thrown_event thrown_event (rng_of []) (rng_of []) (rng_of [])
      ⟨rfl, rfl⟩ ⟨rfl, rfl⟩ ⟨rfl, rfl⟩ (by decide)).1⟩

/-! ## The timer invariant of the tactic state -/

theorem tactic_ok_of_phase {t u : tactic_state} (h1 : u.tactic_type = t.tactic_type)
    (h2 : u.move_type = t.move_type) (h3 : u.move_timer = t.move_timer)
    (h4 : u.attack_type = t.attack_type) (h5 : u.attack_timer = t.attack_timer)
    (h : tactic_ok t) : tactic_ok u := by
  unfold tactic_ok timers_consistent phases_clear at *
  rw [h1, h2, h3, h4, h5]
  exact h

theorem tactic_ok_reset (a : ai) : tactic_ok (reset_tactic_state a).tactic := by
  unfold tactic_ok timers_consistent phases_clear reset_tactic_state
  simp

theorem phases_clear_reset (a : ai) : phases_clear (reset_tactic_state a).tactic := by
  unfold phases_clear reset_tactic_state
  simp

theorem reset_tactic_type (a : ai) : (reset_tactic_state a).tactic.tactic_type = 0 := rfl

theorem tactic_ok_set_chain (a : ai) (cat t : Int) (h : tactic_ok a.tactic) :
    tactic_ok (set_chain a cat t).tactic :=
  tactic_ok_of_phase rfl rfl rfl rfl rfl h

theorem queue_tactic_timers (v : fighter_view) (a : ai) (t : Int) (r : Rng) :
    (queue_tactic v a t r).1.tactic.move_timer =
      (if (queue_tactic v a t r).1.tactic.move_type > 0 then TACTIC_MOVE_TIMER_MAX
        else a.tactic.move_timer) ∧
    (queue_tactic v a t r).1.tactic.attack_timer =
      (if (queue_tactic v a t r).1.tactic.attack_type > 0 then TACTIC_ATTACK_TIMER_MAX
        else a.tactic.attack_timer) ∧
    (queue_tactic v a t r).1.tactic.tactic_type = t :=
  ⟨rfl, rfl, rfl⟩

theorem queue_tactic_unknown (v : fighter_view) (a : ai) (t : Int) (r : Rng) (ht : t ≤ 0) :
    (queue_tactic v a t r).1.tactic.move_type = a.tactic.move_type ∧
    (queue_tactic v a t r).1.tactic.attack_type = a.tactic.attack_type := by
  have e1 : t ≠ 1 := by omega
  have e2 : t ≠ 2 := by omega
  have e3 : t ≠ 3 := by omega
  have e4 : t ≠ 4 := by omega
  have e5 : t ≠ 5 := by omega
  have e6 : t ≠ 6 := by omega
  have e7 : t ≠ 7 := by omega
  have e8 : t ≠ 8 := by omega
  have e9 : t ≠ 9 := by omega
  have e10 : t ≠ 10 := by omega
  have e11 : t ≠ 11 := by omega
  simp [queue_tactic, e1, e2, e3, e4, e5, e6, e7, e8, e9, e10, e11]

/-- Compiling a tactic over a tactic state whose phases are empty yields
consistent timers. -/
theorem tactic_ok_queue (v : fighter_view) (a : ai) (t : Int) (r : Rng)
    (h : phases_clear a.tactic) : tactic_ok (queue_tactic v a t r).1.tactic := by
  obtain ⟨q1, q2, q3⟩ := queue_tactic_timers v a t r
  obtain ⟨c1, c2, c3, c4⟩ := h
  rw [c2] at q1
  rw [c4] at q2
  refine ⟨⟨?_, ?_⟩, ?_⟩
  · by_cases hm : (queue_tactic v a t r).1.tactic.move_type > 0
    · exact Or.inr (by omega)
    · rw [if_neg hm] at q1; exact Or.inl q1
  · by_cases hm : (queue_tactic v a t r).1.tactic.attack_type > 0
    · exact Or.inr (by omega)
    · rw [if_neg hm] at q2; exact Or.inl q2
  · intro ht
    rw [q3] at ht
    obtain ⟨u1, u2⟩ := queue_tactic_unknown v a t r ht
    rw [c1] at u1
    rw [c3] at u2
    rw [u1] at q1
    rw [u2] at q2
    exact ⟨u1, by simpa using q1, u2, by simpa using q2⟩

theorem tactic_ok_queue_first_liked (v : fighter_view) (a : ai) (ts : List Int) (r : Rng)
    (h : tactic_ok a.tactic) (hc : phases_clear a.tactic) :
    tactic_ok (queue_first_liked v a ts r).1.tactic := by
  induction ts generalizing r with
  | nil => exact h
  | cons t ts ih =>
    unfold queue_first_liked
    split
    · exact tactic_ok_queue v a t _ hc
    · exact ih _

theorem tactic_ok_queue_first_rolled (v : fighter_view) (a : ai) (ts : List (Int × Int))
    (r : Rng) (h : tactic_ok a.tactic) (hc : phases_clear a.tactic) :
    tactic_ok (queue_first_rolled v a ts r).1.tactic := by
  induction ts generalizing r with
  | nil => exact h
  | cons t ts ih =>
    obtain ⟨n, t⟩ := t
    unfold queue_first_rolled
    split
    · exact tactic_ok_queue v a t _ hc
    · exact ih _

theorem tactic_ok_chain_first_liked (v : fighter_view) (a : ai) (cat : Int) (ts : List Int)
    (r : Rng) (h : tactic_ok a.tactic) :
    tactic_ok (chain_first_liked v a cat ts r).1.tactic := by
  induction ts generalizing r with
  | nil => exact h
  | cons t ts ih =>
    unfold chain_first_liked
    split
    · exact tactic_ok_set_chain a cat t h
    · exact ih _

theorem tactic_ok_reset_and_chain (v : fighter_view) (a : ai) (gate : Rand Bool) (cat : Int)
    (ts : List Int) (r : Rng) : tactic_ok (reset_and_chain v a gate cat ts r).1.tactic := by
  unfold reset_and_chain
  split
  · exact tactic_ok_chain_first_liked v _ cat ts _ (tactic_ok_reset a)
  · exact tactic_ok_reset a

/-- The guard of `suggest` lets the cascade run only when no tactic is queued;
if the phases are empty in that case, the invariant is kept. -/
theorem tactic_ok_suggest (v : fighter_view) (a : ai) (b : Bool) (ts : List Int) (r : Rng)
    (h : tactic_ok a.tactic) (hc : b = false → phases_clear a.tactic) :
    tactic_ok (suggest v a b ts r).1.tactic := by
  unfold suggest
  dsimp only
  split
  · exact h
  · rename_i hg
    cases b with
    | true => exact absurd rfl hg
    | false => exact tactic_ok_queue_first_liked v a ts _ h (hc rfl)
theorem assign_move_by_cat_tactic (v : fighter_view) (a : ai) (category : Int) (hd : Bool)
    (r : Rng) : (assign_move_by_cat v a category hd r).2.1.tactic = a.tactic := by
  rcases assign_move_by_cat_cases v a category hd r with ⟨_, h⟩ | ⟨m, _, _, h⟩
  · rw [h]
  · rw [h]; rfl

theorem attempt_attack_tactic (v : fighter_view) (a : ai) (hd : Bool) (r : Rng) :
    (attempt_attack v a hd r).2.1.tactic = a.tactic := by
  rcases attempt_attack_cases v a hd r with ⟨_, h⟩ | ⟨m, _, _, h⟩
  · rw [h]
  · rw [h]; rfl

theorem assign_move_by_id_tactic (v : fighter_view) (a : ai) (move_id : Int) :
    (assign_move_by_id v a move_id).2.tactic = a.tactic := by
  rcases assign_move_by_id_cases v a move_id with ⟨_, h⟩ | ⟨m, _, _, h⟩
  · rw [h]
  · rw [h]; rfl

theorem tactic_ok_move_phase (v : fighter_view) (a : ai) (r : Rng) (h : tactic_ok a.tactic)
    (hm : a.tactic.move_type > 0) : tactic_ok (handle_move_phase v a r).a.tactic := by
  obtain ⟨⟨_, h2⟩, h3⟩ := h
  have ht : ¬ a.tactic.tactic_type ≤ 0 := by
    intro hle
    have := (h3 hle).1
    omega
  have hne : a.tactic.move_type ≠ 0 := by omega
  unfold handle_move_phase
  dsimp only
  split_ifs <;>
    exact ⟨⟨by first | exact Or.inr hne | exact Or.inl rfl, h2⟩, fun hle => absurd hle ht⟩

theorem tactic_ok_grab_select (v : fighter_view) (a : ai) (r : Rng) :
    (grab_select v a r).2.1.tactic = a.tactic := by
  unfold grab_select
  dsimp only
  split_ifs <;> simp only [assign_move_by_cat_tactic]

theorem tactic_ok_ranged_chain (v : fighter_view) (a : ai) (r : Rng) (h : tactic_ok a.tactic) :
    tactic_ok (ranged_chain v a r).1.tactic := by
  unfold ranged_chain
  dsimp only
  split_ifs
  · exact tactic_ok_set_chain _ _ _ h
  · exact tactic_ok_chain_first_liked _ _ _ _ _ h
  · exact h

theorem tactic_ok_shadow_followup (v : fighter_view) (a : ai) (r : Rng)
    (h : phases_clear a.tactic) : tactic_ok (shadow_followup v a r).1.tactic := by
  unfold shadow_followup
  dsimp only
  split_ifs <;> exact tactic_ok_queue _ _ _ _ h

theorem tactic_ok_attack_by_cat (v : fighter_view) (a : ai) (cat : Int) (hd : Bool)
    (ts : List Int) (r : Rng) (h : tactic_ok a.tactic) :
    tactic_ok (attack_by_cat_case v a cat hd ts r).a.tactic := by
  unfold attack_by_cat_case
  dsimp only
  split_ifs
  · exact tactic_ok_reset_and_chain _ _ _ _ _ _
  · rw [assign_move_by_cat_tactic]; exact h

theorem tactic_ok_attack_random (v : fighter_view) (a : ai) (r : Rng) (h : tactic_ok a.tactic) :
    tactic_ok (attack_random_case v a r).a.tactic := by
  unfold attack_random_case
  dsimp only
  split_ifs
  · exact tactic_ok_reset_and_chain _ _ _ _ _ _
  · rw [attempt_attack_tactic]; exact h

theorem tactic_ok_attack_switch (v : fighter_view) (a : ai) (b : Bool) (r : Rng)
    (h : tactic_ok a.tactic) (ht : a.tactic.tactic_type > 0) :
    tactic_ok (attack_switch v a b r).a.tactic := by
  apply attack_switch_cases (fun s => tactic_ok s.a.tactic)
  · unfold attack_id_case
    split_ifs
    · exact h
    · exact tactic_ok_reset _
    · rw [assign_move_by_id_tactic]; exact h
  · unfold attack_trip_case
    dsimp only
    split_ifs
    · exact tactic_ok_reset_and_chain _ _ _ _ _ _
    · exact h
  · unfold attack_grab_case
    dsimp only
    split_ifs
    · exact h
    · exact tactic_ok_reset_and_chain _ _ _ _ _ _
    · rw [tactic_ok_grab_select]; exact h
  · unfold attack_light_case
    dsimp only
    split_ifs <;> first | exact h | exact tactic_ok_attack_by_cat _ _ _ _ _ _ h
  · unfold attack_heavy_case
    dsimp only
    split_ifs <;> first | exact h | exact tactic_ok_attack_by_cat _ _ _ _ _ _ h
  · unfold attack_jump_case
    split_ifs
    · exact h
    · exact tactic_ok_attack_random _ _ _ h
  · unfold attack_ranged_case
    dsimp only
    split_ifs
    · exact tactic_ok_ranged_chain _ _ _ (tactic_ok_reset _)
    · exact h
  · unfold attack_charge_case
    dsimp only
    split_ifs
    · exact tactic_ok_shadow_followup _ _ _ (phases_clear_reset _)
    · exact tactic_ok_reset _
    · exact h
  · unfold attack_push_case
    dsimp only
    split_ifs
    · exact tactic_ok_reset _
    · exact h
  · exact tactic_ok_attack_random _ _ _ h
  · exact ⟨⟨h.1.1, Or.inl rfl⟩, fun hle => absurd hle (by dsimp only; omega)⟩

theorem tactic_ok_attack_phase (v : fighter_view) (a : ai) (r : Rng) (h : tactic_ok a.tactic)
    (hat : a.tactic.attack_type > 0) : tactic_ok (handle_attack_phase v a r).a.tactic := by
  obtain ⟨⟨h1, _⟩, h3⟩ := h
  have ht : a.tactic.tactic_type > 0 := by
    by_contra hle
    have := (h3 (by omega)).2.2.1
    omega
  unfold handle_attack_phase
  dsimp only
  refine tactic_ok_attack_switch v _ _ _ ⟨⟨h1, Or.inr ?_⟩, fun hle => absurd hle ?_⟩ ht
  · dsimp only; omega
  · dsimp only; omega

/-- One step of a queued tactic keeps the timer invariant. -/
theorem tactic_ok_handle_queued_tactic (v : fighter_view) (a : ai) (r : Rng)
    (h : tactic_ok a.tactic) : tactic_ok (handle_queued_tactic v a r).a.tactic := by
  unfold handle_queued_tactic
  split_ifs with h1 h2
  · exact tactic_ok_move_phase v a r h h1.1
  · exact tactic_ok_attack_phase v a r h h2.1
  · exact tactic_ok_reset a
theorem r_and_true {x y : Rand Bool} {r : Rng} (h : (r_and x y r).1 = true) :
    (x r).1 = true ∧ (y (x r).2).1 = true := by
  unfold r_and at h
  by_cases hx : (x r).1 = true
  · rw [if_pos hx] at h; exact ⟨hx, h⟩
  · rw [if_neg hx] at h; cases h

theorem ai_block_har_tactic (v : fighter_view) (a : ai) (r : Rng) :
    (ai_block_har v a r).a.tactic = a.tactic := by
  unfold ai_block_har
  dsimp only
  split_ifs <;> rfl

theorem ai_block_projectile_loop_tactic (v : fighter_view) (a : ai) (ps : List projectile)
    (r : Rng) : (ai_block_projectile_loop v a ps r).a.tactic = a.tactic := by
  induction ps generalizing r with
  | nil => rfl
  | cons p ps ih =>
    unfold ai_block_projectile_loop
    split_ifs
    · exact ih _
    · split
      · exact ih _
      · dsimp only
        split_ifs
        · rfl
        · exact ih _
        · exact ih _

theorem process_selected_move_tactic (v : fighter_view) (a : ai) (m : af_move) :
    (process_selected_move v a m).1.tactic = a.tactic := by
  unfold process_selected_move
  dsimp only
  split_ifs <;> rfl

theorem handle_movement_tactic (v : fighter_view) (a : ai) (r : Rng) :
    (handle_movement v a r).1.tactic = a.tactic := by
  show (change_movement v a r).1.tactic = a.tactic
  unfold change_movement
  dsimp only
  split_ifs <;> rfl

theorem tactic_ok_poll_anti_throw (v : fighter_view) (a : ai) (cm : Bool) (r : Rng)
    (h : tactic_ok a.tactic) : tactic_ok (poll_anti_throw v a cm r).a.tactic := by
  unfold poll_anti_throw
  dsimp only
  split_ifs
  · exact tactic_ok_reset _
  · exact tactic_ok_reset _
  · rw [attempt_attack_tactic, assign_move_by_cat_tactic]; exact h
  · exact h

theorem tactic_ok_poll_tactic (v : fighter_view) (a : ai) (cm : Bool) (r : Rng)
    (h : tactic_ok a.tactic) : tactic_ok (poll_tactic v a cm r).a.tactic := by
  unfold poll_tactic
  dsimp only
  split_ifs
  · exact tactic_ok_handle_queued_tactic v a r h
  · exact tactic_ok_handle_queued_tactic v a r h
  · exact h

theorem tactic_ok_poll_random_attack (v : fighter_view) (a : ai) (r : Rng)
    (h : tactic_ok a.tactic) : tactic_ok (poll_random_attack v a r).a.tactic := by
  unfold poll_random_attack
  dsimp only
  split_ifs
  · show tactic_ok (attempt_attack v a false _).2.1.tactic
    rw [attempt_attack_tactic]; exact h
  · rw [attempt_attack_tactic]; exact h
  · exact h

theorem tactic_ok_poll_ambient (v : fighter_view) (a : ai) (cm : Bool) (r : Rng)
    (h : tactic_ok a.tactic) : tactic_ok (poll_ambient v a cm r).a.tactic := by
  have hm := handle_movement_tactic v a r
  unfold poll_ambient
  dsimp only
  split_ifs with hg
  · have h0 := (r_and_true (r_and_true (r_and_true hg).2).2).1
    have h1 : (handle_movement v a r).1.tactic.tactic_type = 0 := by
      simpa [r_pure] using h0
    have hok : tactic_ok (handle_movement v a r).1.tactic := hm ▸ h
    exact tactic_ok_queue_first_rolled v _ _ _ hok (hok.2 (by omega))
  · rw [hm]; exact h

theorem tactic_ok_poll_decide (v : fighter_view) (a : ai) (r : Rng)
    (h : tactic_ok a.tactic) : tactic_ok (poll_decide v a r).a.tactic := by
  have h1 := tactic_ok_poll_anti_throw v a
    (decide (v.state = STATE_STANDING ∨ v.state = STATE_WALKTO ∨
      v.state = STATE_WALKFROM ∨ v.state = STATE_CROUCHBLOCK)) r h
  unfold poll_decide
  dsimp only
  split_ifs
  · exact h1
  · exact tactic_ok_poll_tactic v _ _ _ h1
  · exact tactic_ok_poll_random_attack v _ _ (tactic_ok_poll_tactic v _ _ _ h1)
  · exact tactic_ok_poll_ambient v _ _ _
      (tactic_ok_poll_random_attack v _ _ (tactic_ok_poll_tactic v _ _ _ h1))

/-- One poll keeps the timer invariant of the tactic state. -/
theorem tactic_ok_poll (v : fighter_view) (a : ai) (r : Rng) (h : tactic_ok a.tactic) :
    tactic_ok (ai_controller_poll v a r).a.tactic := by
  have hb : ∀ r, (ai_block_har v
      { a with act_timer := a.act_timer - 1, active_projectiles := v.projectiles } r).a.tactic
        = a.tactic := fun r => ai_block_har_tactic v _ r
  have hp : ∀ r r2, (ai_block_projectile v (ai_block_har v
      { a with act_timer := a.act_timer - 1, active_projectiles := v.projectiles } r).a
        r2).a.tactic = a.tactic := fun r r2 =>
    (ai_block_projectile_loop_tactic v _ _ r2).trans (hb r)
  unfold ai_controller_poll
  dsimp only
  split_ifs
  · exact h
  · exact h
  · rw [hb]; exact h
  · rw [hp]; exact h
  · split
    · dsimp only
      rw [process_selected_move_tactic, hp]; exact h
    · exact tactic_ok_poll_decide v _ _ (by rw [hp]; exact h)
theorem take_hit_adjust_tactic (a : ai) (cat : Int) (r : Rng) :
    (take_hit_adjust a cat r).1.tactic = a.tactic := by
  unfold take_hit_adjust
  dsimp only
  split_ifs <;> rfl

theorem clear_on_event_tactic (a : ai) (type : har_event_type) :
    (clear_on_event a type).tactic = a.tactic := by
  cases type <;> rfl

theorem tactic_ok_react (v : fighter_view) (a : ai) (b : Bool) (event : har_event) (r : Rng)
    (h : tactic_ok a.tactic) (hc : b = false → phases_clear a.tactic)
    (hr : event.type = HAR_EVENT_LAND_HIT → a.tactic.chain_hit_on = event.move.category →
      phases_clear a.tactic) :
    tactic_ok (react v a b event r).1.tactic := by
  have hzero : tactic_ok { a.tactic with move_timer := 0 } :=
    ⟨⟨Or.inl rfl, h.1.2⟩, fun hle => ⟨(h.2 hle).1, rfl, (h.2 hle).2.2⟩⟩
  obtain ⟨type, m⟩ := event
  cases type <;> unfold react <;> dsimp only
  case HAR_EVENT_LAND_HIT =>
    split_ifs with hch
    · exact tactic_ok_queue v _ _ _ (hr rfl hch)
    · exact tactic_ok_suggest v _ b _ _ h hc
  case HAR_EVENT_TAKE_HIT =>
    split_ifs <;>
      exact tactic_ok_suggest v _ b _ _ (by rw [take_hit_adjust_tactic]; exact h)
        (by rw [take_hit_adjust_tactic]; exact hc)
  case HAR_EVENT_ENEMY_STUN =>
    split_ifs with hg
    · exact h
    · cases b with
      | true => exact absurd rfl hg
      | false => exact tactic_ok_queue v a _ _ (hc rfl)
    · cases b with
      | true => exact absurd rfl hg
      | false => exact tactic_ok_queue v a _ _ (hc rfl)
  all_goals
    (try split_ifs) <;>
      first
        | exact h
        | exact hzero
        | exact tactic_ok_suggest v _ b _ _ h hc

/-- One event keeps the timer invariant of the tactic state, unless it is a
`LAND_HIT` that queues the chained follow-up over a tactic still queued. -/
theorem tactic_ok_event (v : fighter_view) (a : ai) (event : har_event) (r : Rng)
    (h : tactic_ok a.tactic)
    (hr : ¬ (event.type = HAR_EVENT_LAND_HIT ∧ a.tactic.tactic_type > 0 ∧
      a.tactic.chain_hit_on = event.move.category)) :
    tactic_ok (ai_har_event v a event r).1.tactic := by
  unfold ai_har_event
  dsimp only
  by_cases hc : (r_and (r_pure (decide (a.tactic.tactic_type > 0)))
      (cancels_tactic a event) r).1 = true
  · rw [if_pos hc]
    refine tactic_ok_react v _ _ event _ ?_ ?_ ?_
    · rw [clear_on_event_tactic]; exact tactic_ok_reset a
    · intro _; rw [clear_on_event_tactic]; exact phases_clear_reset a
    · intro _ _; rw [clear_on_event_tactic]; exact phases_clear_reset a
  · rw [if_neg hc]
    refine tactic_ok_react v _ _ event _ ?_ ?_ ?_
    · rw [clear_on_event_tactic]; exact h
    · intro hq
      rw [clear_on_event_tactic]
      apply h.2
      simp only [hc, Bool.not_false, Bool.and_true, decide_eq_false_iff_not] at hq
      omega
    · intro ht hch
      rw [clear_on_event_tactic] at hch ⊢
      apply h.2
      by_contra hpos
      exact hr ⟨ht, by omega, hch⟩

theorem tactic_ok_create (difficulty : Int) (pilot : sd_pilot) (pilot_id shot : Int) :
    tactic_ok (ai_controller_create difficulty pilot pilot_id shot).tactic :=
  tactic_ok_reset _

theorem ReachableUnchained.tactic_ok {a : ai} (h : ReachableUnchained a) :
    tactic_ok a.tactic := by
  induction h with
  | create d p i s => exact tactic_ok_create d p i s
  | event v a e r _ hr ih => exact tactic_ok_event v a e r ih hr
  | poll v a r _ ih => exact tactic_ok_poll v a r ih

/-- C1 (counterexample): the state reached by create, `ENEMY_STUN`, poll,
`RECOVER`, `LAND_HIT` is reachable and has `move_timer = 5` with
`move_type = 0`: the chained Push was queued over the queued Counter, whose
movement timer stays. -/
theorem stale_move_timer_reachable :
    Reachable requeued_ai ∧
      ¬ (requeued_ai.tactic.move_timer = 0 ∨ requeued_ai.tactic.move_type ≠ 0) :=
  ⟨requeued_ai_reachable, by decide⟩

/-- C1 (amended): in every state reachable from `ai_controller_create` through
`ai_har_event` and `ai_controller_poll` calls (any events, any random draws)
among which no `LAND_HIT` matching `chain_hit_on` arrives while a tactic is
still queued, `move_timer = 0` or `move_type ≠ None`, and `attack_timer = 0` or
`attack_type ≠ None`. -/
theorem timers_consistent_unchained (a : ai) (h : ReachableUnchained a) :
    (a.tactic.move_timer = 0 ∨ a.tactic.move_type ≠ 0) ∧
      (a.tactic.attack_timer = 0 ∨ a.tactic.attack_type ≠ 0) :=
  h.tactic_ok.1

theorem countering_ai_unchained : ReachableUnchained countering_ai :=
  ReachableUnchained.event mid_view attacking_ai _ _
    (ReachableUnchained.poll near_view stunned_ai _
      (ReachableUnchained.event near_view fresh_ai _ _
        (ReachableUnchained.create 5 zero_pilot 6 0) (by decide)))
    (by decide)

theorem timers_consistent_unchained_witness :
    ReachableUnchained countering_ai ∧ countering_ai.tactic.move_timer = 5 ∧
      ((countering_ai.tactic.move_timer = 0 ∨ countering_ai.tactic.move_type ≠ 0) ∧
        (countering_ai.tactic.attack_timer = 0 ∨ countering_ai.tactic.attack_type ≠ 0)) :=
  ⟨countering_ai_unchained, by decide,
    timers_consistent_unchained countering_ai countering_ai_unchained⟩

/-! ## The learned value has no lower bound -/

theorem pick_update_some (p : pick) (move : af_move) (value : Int) (r : Rng) :
    (pick_update p move value r).selected_move.isSome = true := by
  unfold pick_update
  split_ifs with h1 h2
  · rfl
  · rfl
  · cases hp : p.selected_move with
    | none => exact absurd hp h1
    | some m => rfl

theorem attempt_attack_step_keeps (v : fighter_view) (a : ai) (hd b : Bool) (p : pick)
    (i : Fin 70) (hp : p.selected_move.isSome = true) :
    (attempt_attack_step v a hd b p i).selected_move.isSome = true := by
  unfold attempt_attack_step
  split
  · exact hp
  · split_ifs <;> first | exact hp | exact pick_update_some _ _ _ _

theorem attempt_attack_step_near (a : ai) (p : pick) :
    (attempt_attack_step near_view a false true p 3).selected_move.isSome = true := by
  have hv : is_valid_move jab near_view false = true := by decide
  have hs : ∀ r, (move_too_powerful a jab r).1 = false := by
    intro r
    unfold move_too_powerful r_and r_pure
    rfl
  have hget : near_view.af_get_move (3 : Fin 70).val = some jab := rfl
  unfold attempt_attack_step
  rw [hget]
  dsimp only
  rw [if_pos hv, hs]
  simp only [Bool.not_true, Bool.false_and, Bool.false_eq_true, if_false]
  exact pick_update_some _ _ _ _

theorem foldl_attack_some (a : ai) (l : List (Fin 70)) (p : pick)
    (h : p.selected_move.isSome = true ∨ (3 : Fin 70) ∈ l) :
    (l.foldl (attempt_attack_step near_view a false true) p).selected_move.isSome = true := by
  induction l generalizing p with
  | nil =>
    rcases h with h | h
    · exact h
    · cases h
  | cons i l ih =>
    rw [List.foldl_cons]
    apply ih
    rcases h with h | h
    · exact Or.inl (attempt_attack_step_keeps _ _ _ _ _ _ h)
    · rcases List.mem_cons.mp h with h | h
      · exact Or.inl (h ▸ attempt_attack_step_near a p)
      · exact Or.inr h

/-- Next to the enemy, with `jab` in the catalog, the learned attack always
selects a move. -/
theorem attempt_attack_near (a : ai) (r : Rng) :
    (attempt_attack near_view a false r).1 = true := by
  have hr : (r_or (r_pure (decide (get_enemy_range near_view ≤ RANGE_CLOSE)))
      (r_and (r_pure (decide (get_enemy_range near_view = RANGE_MID))) (dumb_sometimes a)) r)
        = (true, r) := rfl
  have hf := foldl_attack_some a (List.finRange 70) ⟨none, 0, r⟩
    (Or.inr (List.mem_finRange 3))
  unfold attempt_attack
  dsimp only
  rw [hr]
  dsimp only
  split
  · rfl
  · rename_i hnone
    rw [hnone] at hf
    cases hf
theorem poll_random_attack_near (a : ai) :
    (poll_random_attack near_view a (rng_of [])).flag = true ∧
    ∃ m, same_core
      (set_selected_move near_view { a with move_stats := halve_consecutive a.move_stats } m)
      (poll_random_attack near_view a (rng_of [])).a ∧
      (poll_random_attack near_view a (rng_of [])).a.tactic = a.tactic := by
  have hd : (diff_scale a (rng_of [])).1 = true := by
    unfold diff_scale
    simp only [decide_eq_true_eq]
    show (0 : Int) ≤ a.difficulty * a.difficulty
    exact mul_self_nonneg _
  have hs := attempt_attack_near a (diff_scale a (rng_of [])).2
  unfold poll_random_attack
  dsimp only
  rw [if_pos hd, if_pos hs]
  refine ⟨rfl, ?_⟩
  rcases attempt_attack_cases near_view a false (diff_scale a (rng_of [])).2 with
    ⟨h1, _⟩ | ⟨m, _, _, h2⟩
  · rw [hs] at h1; cases h1
  · refine ⟨m, ?_, ?_⟩
    · dsimp only
      rw [← h2]
      exact reset_act_timer_core _ _
    · exact attempt_attack_tactic near_view a false (diff_scale a (rng_of [])).2

theorem poll_decide_near (a : ai) (ht : a.tactic.tactic_type = 0) (hth : a.thrown = 0) :
    (poll_decide near_view a (rng_of [])).a =
      (poll_random_attack near_view a (rng_of [])).a := by
  have e3 : ∀ cm, poll_anti_throw near_view a cm (rng_of []) = ⟨false, a, rng_of [], []⟩ := by
    intro cm
    unfold poll_anti_throw
    simp [hth]
  have e4 : ∀ cm, poll_tactic near_view a cm (rng_of []) = ⟨false, a, rng_of [], []⟩ := by
    intro cm
    unfold poll_tactic
    simp [ht]
  have hflag := (poll_random_attack_near a).1
  unfold poll_decide
  dsimp only
  rw [e3]
  dsimp only
  rw [e4]
  dsimp only
  rw [if_neg (by decide), if_neg (by decide), if_pos hflag]

/-- One poll of an idle controller next to the enemy, with all draws 0, selects
an attack: `blocked` is 0 afterwards and no learned value has changed. -/
theorem poll_near_selects (a : ai) (hs : a.selected_move = none)
    (ht : a.tactic.tactic_type = 0) (hth : a.thrown = 0) :
    (ai_controller_poll near_view a (rng_of [])).a.blocked = 0 ∧
    (ai_controller_poll near_view a (rng_of [])).a.difficulty = a.difficulty ∧
    (ai_controller_poll near_view a (rng_of [])).a.thrown = 0 ∧
    (ai_controller_poll near_view a (rng_of [])).a.tactic.tactic_type = 0 ∧
    ∀ i, ((ai_controller_poll near_view a (rng_of [])).a.move_stats i).value =
      (a.move_stats i).value := by
  have key : (ai_controller_poll near_view a (rng_of [])).a =
      (poll_random_attack near_view
        { a with act_timer := a.act_timer - 1, active_projectiles := near_view.projectiles }
        (rng_of [])).a := by
    refine Eq.trans ?_ (poll_decide_near _ ht hth)
    unfold ai_controller_poll
    rw [if_neg (by decide), if_neg (by decide)]
    have e1 : ∀ (x : ai) (r : Rng), ai_block_har near_view x r = ⟨false, x, r, []⟩ := by
      intro x r; rfl
    dsimp only
    rw [e1]
    dsimp only
    have e2 : ai_block_projectile near_view
        { a with act_timer := a.act_timer - 1, active_projectiles := near_view.projectiles }
        (rng_of []) = ⟨false, _, rng_of [], []⟩ := rfl
    rw [if_neg (by decide), e2]
    dsimp only
    rw [if_neg (by decide), hs]
  obtain ⟨_, m, hcore, htac⟩ := poll_random_attack_near
    { a with act_timer := a.act_timer - 1, active_projectiles := near_view.projectiles }
  rw [key]
  refine ⟨?_, ?_, ?_, ?_, ?_⟩
  · rw [hcore.blocked]; rfl
  · rw [hcore.difficulty]; rfl
  · rw [hcore.thrown]; exact hth
  · rw [htac]; exact ht
  · intro i
    rw [hcore.move_stats]
    exact ((set_selected_move_stats near_view _ m i).1).trans rfl
/-- An `ENEMY_BLOCK` event on the jab, at difficulty 1 with no tactic queued and
`blocked = 0`, ends playback and runs the learning update of the block. -/
theorem enemy_block_lowers (p : ai) (hb : p.blocked = 0) (hd : p.difficulty = 1)
    (ht : p.tactic.tactic_type = 0) :
    (ai_har_event near_view p ⟨HAR_EVENT_ENEMY_BLOCK, jab⟩ (rng_of [])).1 =
      enemy_block_update { p with selected_move := none } jab := by
  have hq : decide (p.tactic.tactic_type > 0) = false := by simp [ht]
  have hs : ∀ (x : ai) (ts : List Int) (r : Rng), x.difficulty = 1 →
      suggest near_view x false ts r = (x, r) := by
    intro x ts r hx
    simp [suggest, r_or, r_pure, r_not, smart_usually, hx]
  have hb2 : ({ p with selected_move := none } : ai).blocked = 0 := hb
  have hd2 : (enemy_block_update { p with selected_move := none } jab).difficulty = 1 := hd
  unfold ai_har_event
  simp only [hq, r_and, r_pure]
  simp only [Bool.false_eq_true, if_false, Bool.false_and]
  unfold react clear_on_event
  dsimp only
  rw [if_pos hb2, hs _ _ _ hd2]

theorem blocked_rounds_spec (n : Nat) :
    Reachable (blocked_rounds n) ∧ (blocked_rounds n).selected_move = none ∧
    (blocked_rounds n).tactic.tactic_type = 0 ∧ (blocked_rounds n).thrown = 0 ∧
    (blocked_rounds n).difficulty = 1 ∧
    ((blocked_rounds n).move_stats 3).value = -(n : Int) := by
  induction n with
  | zero => exact ⟨Reachable.create 0 zero_pilot 0 0, rfl, rfl, rfl, rfl, rfl⟩
  | succ n ih =>
    obtain ⟨hr, hs, ht, hth, hd, hv⟩ := ih
    obtain ⟨pb, pd, pth, pt, pv⟩ := poll_near_selects (blocked_rounds n) hs ht hth
    have e := enemy_block_lowers _ pb (pd.trans hd) pt
    have e2 : blocked_rounds (n + 1) =
        enemy_block_update
          { (ai_controller_poll near_view (blocked_rounds n) (rng_of [])).a with
            selected_move := none } jab := e
    refine ⟨?_, ?_, ?_, ?_, ?_, ?_⟩
    · exact Reachable.event _ _ _ _ (Reachable.poll _ _ _ hr)
    · rw [e2]; rfl
    · rw [e2]; exact pt
    · rw [e2]; exact pth
    · rw [e2]; exact pd.trans hd
    · rw [e2]
      show ((ai_controller_poll near_view (blocked_rounds n) (rng_of [])).a.move_stats 3).value
        - 1 = -((n + 1 : Nat) : Int)
      rw [pv 3, hv]
      push_cast
      ring

/-- C3: for every move id, the learned `value` is at most 10 in every state
reachable from `ai_controller_create` through `ai_har_event` and
`ai_controller_poll`, and it has no lower bound: after `n` rounds of "select the
jab, have it blocked" (`blocked_rounds n`, a reachable state) the value of the
jab is `-n`. -/
theorem move_value_capped_without_floor :
    (∀ a, Reachable a → ∀ i, (a.move_stats i).value ≤ 10) ∧
    ∀ n : Nat, Reachable (blocked_rounds n) ∧
      ((blocked_rounds n).move_stats 3).value = -(n : Int) :=
  ⟨fun _ h i => h.value_capped i,
    fun n => ⟨(blocked_rounds_spec n).1, (blocked_rounds_spec n).2.2.2.2.2⟩⟩

theorem move_value_capped_without_floor_witness :
    Reachable attacking_ai ∧ (attacking_ai.move_stats 3).value ≤ 10 ∧
      ((blocked_rounds 11).move_stats 3).value = -11 :=
  ⟨attacking_ai_reachable,
    move_value_capped_without_floor.1 attacking_ai attacking_ai_reachable 3,
    (move_value_capped_without_floor.2 11).2⟩

/-! ## Polls outside a running fight -/

/-- C11: when the game is paused, `ai_controller_poll` emits no action at all,
for every controller state and every random draw. -/
theorem paused_poll_emits_nothing (v : fighter_view) (a : ai) (r : Rng)
    (h : v.paused = true) : (ai_controller_poll v a r).out = [] := by
  unfold ai_controller_poll
  rw [if_pos h]

theorem paused_poll_emits_nothing_witness :
    paused_view.paused = true ∧
      (ai_controller_poll paused_view attacking_ai (rng_of [])).out = [] :=
  ⟨rfl, paused_poll_emits_nothing paused_view attacking_ai (rng_of []) rfl⟩

/-- C12 (counterexample): a poll while the game is paused returns with the
selected move still in place. -/
theorem paused_poll_keeps_selected_move :
    paused_view.paused = true ∧
      (ai_controller_poll paused_view attacking_ai (rng_of [])).a.selected_move = some jab := by
  decide

/-- C12 (amended): a poll while the game is paused returns at once and leaves
`selected_move` as it was; a poll while the game is not paused and the scene is
an arena that is not in the Fighting state clears `selected_move`.  Neither
emits an action. -/
theorem poll_outside_fight (v : fighter_view) (a : ai) (r : Rng)
    (h : v.paused = true ∨ (v.in_arena = true ∧ v.arena_fighting = false)) :
    (ai_controller_poll v a r).a.selected_move =
      (if v.paused = true then a.selected_move else none) ∧
    (ai_controller_poll v a r).out = [] := by
  unfold ai_controller_poll
  by_cases hp : v.paused = true
  · rw [if_pos hp, if_pos hp]
    exact ⟨rfl, rfl⟩
  · rcases h with h | ⟨h1, h2⟩
    · exact absurd h hp
    · rw [if_neg hp, if_neg hp, if_pos (by rw [h1, h2]; rfl)]
      exact ⟨rfl, rfl⟩

theorem poll_outside_fight_witness :
    (intro_view.paused = true ∨
      (intro_view.in_arena = true ∧ intro_view.arena_fighting = false)) ∧
    attacking_ai.selected_move = some jab ∧
    (ai_controller_poll intro_view attacking_ai (rng_of [])).a.selected_move =
      (if intro_view.paused = true then attacking_ai.selected_move else none) ∧
    (ai_controller_poll intro_view attacking_ai (rng_of [])).out = [] :=
  ⟨Or.inr ⟨rfl, rfl⟩, by decide,
    poll_outside_fight intro_view attacking_ai (rng_of []) (Or.inr ⟨rfl, rfl⟩)⟩

/-! ## Personality reshape after repeated projectiles -/

theorem take_hit_adjust_shot_reshape (a : ai) (r : Rng) (hs : (smart_usually a r).1 = true)
    (hn : a.shot + 1 ≥ MAX_TIMES_SHOT) :
    (take_hit_adjust a CAT_PROJECTILE r).1.pilot = reshape_shot a.pilot := by
  have hs2 : (smart_usually { a with shot := a.shot + 1 } r).1 = true := hs
  unfold take_hit_adjust
  dsimp only
  rw [if_neg (by decide), if_pos rfl]
  have hg : (r_and (smart_usually { a with shot := a.shot + 1 })
      (r_pure (decide (a.shot + 1 ≥ MAX_TIMES_SHOT))) r).1 = true := by
    unfold r_and r_pure
    rw [if_pos hs2]
    simpa using hn
  rw [if_pos hg]

theorem react_shot_pilot (v : fighter_view) (a : ai) (b : Bool) (event : har_event) (r : Rng)
    (ht : event.type = HAR_EVENT_TAKE_HIT) (hc : event.move.category = CAT_PROJECTILE) :
    (react v a b event r).1.pilot = (take_hit_adjust a CAT_PROJECTILE r).1.pilot := by
  obtain ⟨type, m⟩ := event
  dsimp only at ht hc
  subst ht
  unfold react
  dsimp only
  rw [hc, if_neg (by decide), if_pos rfl]
  exact (suggest_core _ _ _ _ _).pilot

/-- A projectile taken when `shot` reaches the threshold, with the
`smart_usually` draw of the reshape check passing, reshapes the pilot. -/
theorem ai_har_event_shot_reshape (v : fighter_view) (a : ai) (event : har_event) (r : Rng)
    (ht : event.type = HAR_EVENT_TAKE_HIT) (hc : event.move.category = CAT_PROJECTILE)
    (hs : (smart_usually a r).1 = true) (hn : a.shot + 1 ≥ MAX_TIMES_SHOT) :
    (ai_har_event v a event r).1.pilot = reshape_shot a.pilot := by
  unfold ai_har_event
  dsimp only
  rw [react_shot_pilot v _ _ event _ ht hc, cancel_take_hit_rng a event _ r ht]
  have hcore : ∀ x : ai, x.difficulty = a.difficulty → x.shot = a.shot →
      x.pilot = a.pilot →
      (take_hit_adjust x CAT_PROJECTILE r).1.pilot = reshape_shot a.pilot := by
    intro x hd hsh hp
    rw [take_hit_adjust_shot_reshape x r (by rw [smart_usually_congr hd]; exact hs)
      (by rw [hsh]; exact hn), hp]
  apply hcore
  · rw [(clear_on_event_counters _ _).2.2.2]; split_ifs <;> rfl
  · rw [(clear_on_event_counters _ _).2.1]; split_ifs <;> rfl
  · rw [(clear_on_event_counters _ _).2.2.1]; split_ifs <;> rfl

/-- C13: for every controller state with `shot = 3`, after `ai_har_event` with a
`TAKE_HIT` event of category Projectile, `shot = 4`; and if the `smart_usually`
draw taken at the reshape check passes (the first draw of the call: the
cancellation pass takes none on `TAKE_HIT`), the pilot has `att_hyper = 1`,
`att_jump = 1` and `att_def = 0`. -/
theorem fourth_projectile_reshape (v : fighter_view) (a : ai) (event : har_event) (r : Rng)
    (h3 : a.shot = 3) (ht : event.type = HAR_EVENT_TAKE_HIT)
    (hc : event.move.category = CAT_PROJECTILE) :
    (ai_har_event v a event r).1.shot = 4 ∧
    ((smart_usually a r).1 = true →
      (ai_har_event v a event r).1.pilot.att_hyper = 1 ∧
      (ai_har_event v a event r).1.pilot.att_jump = 1 ∧
      (ai_har_event v a event r).1.pilot.att_def = 0) := by
  constructor
  · rw [(ai_har_event_counters v a event r).2, if_pos ⟨ht, hc⟩, h3]
    rfl
  · intro hs
    rw [ai_har_event_shot_reshape v a event r ht hc hs (by rw [h3]; decide)]
    exact ⟨rfl, rfl, rfl⟩

theorem fourth_projectile_reshape_witness :
    shot_ai.shot = 3 ∧ shot_ai.pilot.att_def = 1 ∧
    (smart_usually shot_ai (rng_of [])).1 = true ∧
    (ai_har_event mid_view shot_ai ⟨HAR_EVENT_TAKE_HIT, shot_move⟩ (rng_of [])).1.shot = 4 ∧
    ((smart_usually shot_ai (rng_of [])).1 = true →
      (ai_har_event mid_view shot_ai ⟨HAR_EVENT_TAKE_HIT, shot_move⟩
        (rng_of [])).1.pilot.att_hyper = 1 ∧
      (ai_har_event mid_view shot_ai ⟨HAR_EVENT_TAKE_HIT, shot_move⟩
        (rng_of [])).1.pilot.att_jump = 1 ∧
      (ai_har_event mid_view shot_ai ⟨HAR_EVENT_TAKE_HIT, shot_move⟩
        (rng_of [])).1.pilot.att_def = 0) :=
  ⟨rfl, by decide, by decide,
    fourth_projectile_reshape mid_view shot_ai ⟨HAR_EVENT_TAKE_HIT, shot_move⟩ (rng_of [])
      rfl rfl rfl⟩

/-! ## Chained follow-up and cancellation -/

theorem ai_har_event_chain (v : fighter_view) (a : ai) (m : af_move) (r : Rng)
    (h : a.tactic.chain_hit_on = m.category) :
    (ai_har_event v a ⟨HAR_EVENT_LAND_HIT, m⟩ r).1.tactic.tactic_type =
      a.tactic.chain_hit_tactic := by
  have hc : (r_and (r_pure (decide (a.tactic.tactic_type > 0)))
      (cancels_tactic a ⟨HAR_EVENT_LAND_HIT, m⟩) r).1 = false := by
    unfold r_and r_pure cancels_tactic
    split_ifs <;> rfl
  unfold ai_har_event
  dsimp only
  rw [hc]
  unfold react clear_on_event
  dsimp only
  rw [if_pos (by exact h)]
  rfl

/-- C14: for every controller state with `chain_hit_on = Low` and
`chain_hit_tactic = Escape`, after `ai_har_event` with a `LAND_HIT` event whose
move category is Low, `tactic_type = Escape`, whatever the random draws, the
fighter view and the queued tactic. -/
theorem chain_follow_up_queues_escape (v : fighter_view) (a : ai) (m : af_move) (r : Rng)
    (h1 : a.tactic.chain_hit_on = CAT_LOW) (h2 : a.tactic.chain_hit_tactic = TACTIC_ESCAPE)
    (hm : m.category = CAT_LOW) :
    (ai_har_event v a ⟨HAR_EVENT_LAND_HIT, m⟩ r).1.tactic.tactic_type = TACTIC_ESCAPE := by
  rw [ai_har_event_chain v a m r (by rw [h1, hm]), h2]

theorem chain_follow_up_queues_escape_witness :
    chained_ai.tactic.chain_hit_on = CAT_LOW ∧
    chained_ai.tactic.chain_hit_tactic = TACTIC_ESCAPE ∧ low_kick.category = CAT_LOW ∧
    (ai_har_event jumping_view chained_ai ⟨HAR_EVENT_LAND_HIT, low_kick⟩
      (rng_of [])).1.tactic.tactic_type = TACTIC_ESCAPE :=
  ⟨rfl, rfl, rfl,
    chain_follow_up_queues_escape jumping_view chained_ai low_kick (rng_of []) rfl rfl rfl⟩

/-! ## Projectile block -/

/-- Whenever the projectile loop fires, it emits the one crouch-block action and
changes nothing but `cur_act`. -/
theorem ai_block_projectile_loop_shape (v : fighter_view) (a : ai) (l : List projectile)
    (r : Rng) (h : (ai_block_projectile_loop v a l r).flag = true) :
    (ai_block_projectile_loop v a l r).out =
      [face v.direction (ACT_DOWN ||| ACT_LEFT) (ACT_DOWN ||| ACT_RIGHT)] ∧
    (ai_block_projectile_loop v a l r).a =
      { a with cur_act := face v.direction (ACT_DOWN ||| ACT_LEFT) (ACT_DOWN ||| ACT_RIGHT) } := by
  induction l generalizing r with
  | nil => cases h
  | cons q rest ih =>
    unfold ai_block_projectile_loop at h ⊢
    by_cases hq : q.owned_by_self = true
    · rw [if_pos hq] at h ⊢
      exact ih r h
    · rw [if_neg hq] at h ⊢
      cases hc : q.cur_sprite with
      | none =>
        simp only [hc] at h ⊢
        exact ih r h
      | some sq =>
        simp only [hc] at h ⊢
        by_cases h1 : (smart_usually a r).1 = true
        · rw [if_pos h1] at h ⊢
          by_cases h2 : |projectile_sprite_x q sq - v.pos_x| < 120
          · rw [if_pos h2]
            exact ⟨rfl, rfl⟩
          · rw [if_neg h2] at h ⊢
            exact ih _ h
        · rw [if_neg h1] at h ⊢
          exact ih _ h

/-- The projectile loop fires when some projectile of the list is not the
fighter's own, has a current sprite within 120 units, and the `smart_usually`
draw taken for it passes. -/
theorem ai_block_projectile_loop_fires (v : fighter_view) (a : ai)
    (pre post : List projectile) (p : projectile) (sprite_x : Int) (r : Rng)
    (ho : p.owned_by_self = false) (hs : p.cur_sprite = some sprite_x)
    (hd : |projectile_sprite_x p sprite_x - v.pos_x| < 120)
    (hu : (smart_usually a (ai_block_projectile_loop v a pre r).r).1 = true) :
    (ai_block_projectile_loop v a (pre ++ p :: post) r).flag = true := by
  induction pre generalizing r with
  | nil =>
    have hu2 : (smart_usually a r).1 = true := hu
    show (ai_block_projectile_loop v a (p :: post) r).flag = true
    unfold ai_block_projectile_loop
    rw [if_neg (by rw [ho]; decide)]
    simp only [hs]
    rw [if_pos hu2, if_pos hd]
  | cons q pre ih =>
    show (ai_block_projectile_loop v a (q :: (pre ++ p :: post)) r).flag = true
    unfold ai_block_projectile_loop at hu ⊢
    by_cases hq : q.owned_by_self = true
    · rw [if_pos hq] at hu ⊢
      exact ih r hu
    · rw [if_neg hq] at hu ⊢
      cases hc : q.cur_sprite with
      | none =>
        simp only [hc] at hu ⊢
        exact ih r hu
      | some sq =>
        simp only [hc] at hu ⊢
        by_cases h1 : (smart_usually a r).1 = true
        · rw [if_pos h1] at hu ⊢
          by_cases h2 : |projectile_sprite_x q sq - v.pos_x| < 120
          · rw [if_pos h2]
          · rw [if_neg h2] at hu ⊢
            exact ih _ hu
        · rw [if_neg h1] at hu ⊢
          exact ih _ hu

/-- C15: in a running fight (not paused, arena in the Fighting state), when the
enemy-HAR block does not fire and some projectile on screen that is not the
fighter's own has a current sprite whose x, as `ai_block_projectile` computes
it, is within 120 units of the fighter's x, with the `smart_usually` draw taken
for it passing, `ai_controller_poll` emits exactly one action, Down+Left when
the fighter faces right and Down+Right when it faces left, and changes nothing
of the controller state but `act_timer`, the projectile list and `cur_act`: no
playback, tactic or movement step is made. -/
theorem projectile_block_single_action (v : fighter_view) (a : ai) (r : Rng)
    (pre post : List projectile) (p : projectile) (sprite_x : Int)
    (hp : v.paused = false) (hf : v.arena_fighting = true)
    (hb : (ai_block_har v (poll_entry v a) r).flag = false)
    (hl : v.projectiles = pre ++ p :: post)
    (ho : p.owned_by_self = false) (hs : p.cur_sprite = some sprite_x)
    (hd : |projectile_sprite_x p sprite_x - v.pos_x| < 120)
    (hu : (smart_usually a
      (ai_block_projectile_loop v (poll_entry v a) pre
        (ai_block_har v (poll_entry v a) r).r).r).1 = true) :
    (ai_controller_poll v a r).out =
      [if v.direction = OBJECT_FACE_RIGHT then ACT_DOWN ||| ACT_LEFT
        else ACT_DOWN ||| ACT_RIGHT] ∧
    (ai_controller_poll v a r).a =
      { a with
        act_timer := a.act_timer - 1
        active_projectiles := v.projectiles
        cur_act := if v.direction = OBJECT_FACE_RIGHT then ACT_DOWN ||| ACT_LEFT
          else ACT_DOWN ||| ACT_RIGHT } := by
  have hba : (ai_block_har v (poll_entry v a) r).a = poll_entry v a := by
    unfold ai_block_har at hb ⊢
    dsimp only at hb ⊢
    split_ifs at hb ⊢
    rfl
  have hu2 : (smart_usually (poll_entry v a)
      (ai_block_projectile_loop v (poll_entry v a) pre
        (ai_block_har v (poll_entry v a) r).r).r).1 = true := hu
  have hfire : (ai_block_projectile v (poll_entry v a)
      (ai_block_har v (poll_entry v a) r).r).flag = true := by
    unfold ai_block_projectile
    show (ai_block_projectile_loop v (poll_entry v a) v.projectiles _).flag = true
    rw [hl]
    exact ai_block_projectile_loop_fires v _ pre post p sprite_x _ ho hs hd hu2
  have hshape := ai_block_projectile_loop_shape v (poll_entry v a)
    (poll_entry v a).active_projectiles (ai_block_har v (poll_entry v a) r).r hfire
  have key : ai_controller_poll v a r =
      ⟨(ai_block_projectile v (poll_entry v a) (ai_block_har v (poll_entry v a) r).r).a,
        (ai_block_projectile v (poll_entry v a) (ai_block_har v (poll_entry v a) r).r).r,
        (ai_block_projectile v (poll_entry v a) (ai_block_har v (poll_entry v a) r).r).out⟩ := by
    unfold poll_entry at hb hba hfire ⊢
    unfold ai_controller_poll
    rw [if_neg (by rw [hp]; decide), if_neg (by rw [hf]; simp)]
    dsimp only
    rw [if_neg (by rw [hb]; decide), hba, if_pos hfire]
  rw [key]
  exact ⟨hshape.1, hshape.2⟩

theorem projectile_block_single_action_witness :
    (ai_controller_poll shot_view attacking_ai (rng_of [])).out = [ACT_DOWN ||| ACT_LEFT] ∧
    (ai_controller_poll shot_view attacking_ai (rng_of [])).a.selected_move =
      attacking_ai.selected_move :=
  have h := projectile_block_single_action shot_view attacking_ai (rng_of [])
    [own_projectile] [] incoming_projectile 0 rfl rfl (by decide) rfl rfl rfl (by decide)
    (by decide)
  ⟨h.1, by rw [h.2]⟩

/-! ## Deferral of the jump attack -/

theorem dumb_sometimes_congr {a b : ai} (h : b.difficulty = a.difficulty) :
    dumb_sometimes b = dumb_sometimes a := by
  funext r
  unfold dumb_sometimes
  rw [h]

/-- Out of attempt range with ticks left on the attack timer, the Jump case of
the attack switch waits: it reports that it acted and changes nothing. -/
theorem attack_switch_jump_waits (v : fighter_view) (a : ai) (r : Rng)
    (hat : a.tactic.attack_type = ATTACK_JUMP) (htm : a.tactic.attack_timer > 0) :
    attack_switch v a false r = ⟨true, a, r, []⟩ := by
  unfold attack_switch
  rw [hat, if_neg (by decide), if_neg (by decide), if_neg (by decide), if_neg (by decide),
    if_neg (by decide), if_pos rfl]
  unfold attack_jump_case
  rw [if_pos (by simpa using htm)]

/-- The queued-tactic step in the attack phase of a Jump attack, out of attempt
range and with more than one tick on the attack timer at entry: the timer is
decremented and nothing else happens. -/
theorem handle_queued_tactic_jump_waits (v : fighter_view) (a : ai) (r : Rng)
    (hmv : ¬ (a.tactic.move_type > 0 ∧ a.tactic.move_timer > 0))
    (hat : a.tactic.attack_type = ATTACK_JUMP) (htm : a.tactic.attack_timer > 1)
    (hcl : v.close = false) (hds : (dumb_sometimes a r).1 = false) :
    (handle_queued_tactic v a r).flag = true ∧
    (handle_queued_tactic v a r).a =
      { a with tactic := { a.tactic with attack_timer := a.tactic.attack_timer - 1 } } := by
  have hrange : (r_or (r_pure v.close)
      (r_and (r_pure (decide (get_enemy_range v ≤ RANGE_MID))) (dumb_sometimes a)) r).1
        = false := by
    unfold r_or r_pure r_and
    dsimp only
    rw [hcl, if_neg (by decide)]
    split_ifs
    · exact hds
    · rfl
  unfold handle_queued_tactic
  rw [if_neg hmv, if_pos ⟨by rw [hat]; decide, by omega⟩]
  unfold handle_attack_phase
  dsimp only
  rw [hrange, attack_switch_jump_waits v
    { a with tactic := { a.tactic with attack_timer := a.tactic.attack_timer - 1 } } _ hat
    (by show a.tactic.attack_timer - 1 > 0; omega)]
  exact ⟨rfl, rfl⟩

/-- The decision part of a poll for a queued Fly tactic in the attack phase of a
Jump attack: while the fighter is jumping, or can move with the anti-throw
override not applying, out of attempt range and with more than one tick on the
attack timer, the only change is the decrement of the attack timer. -/
theorem poll_decide_jump_waits (v : fighter_view) (x : ai) (r : Rng)
    (hty : x.tactic.tactic_type = TACTIC_FLY)
    (hmv : ¬ (x.tactic.move_type > 0 ∧ x.tactic.move_timer > 0))
    (hat : x.tactic.attack_type = ATTACK_JUMP) (htm : x.tactic.attack_timer > 1)
    (hst : v.state = STATE_JUMPING ∨
      ((v.state = STATE_STANDING ∨ v.state = STATE_WALKTO ∨ v.state = STATE_WALKFROM ∨
        v.state = STATE_CROUCHBLOCK) ∧ (x.thrown ≤ 1 ∨ x.difficulty ≤ 2)))
    (hcl : v.close = false) (hds : (dumb_sometimes x r).1 = false) :
    (poll_decide v x r).a =
      { x with tactic := { x.tactic with attack_timer := x.tactic.attack_timer - 1 } } := by
  have e3 : ∀ cm : Bool, (cm = true → v.state = STATE_STANDING ∨ v.state = STATE_WALKTO ∨
      v.state = STATE_WALKFROM ∨ v.state = STATE_CROUCHBLOCK) →
      poll_anti_throw v x cm r = ⟨false, x, r, []⟩ := by
    intro cm hcm
    unfold poll_anti_throw
    dsimp only
    rw [if_neg]
    intro hc
    simp only [Bool.and_eq_true, decide_eq_true_eq] at hc
    obtain ⟨⟨⟨⟨hc1, _⟩, hth⟩, hdf⟩, _⟩ := hc
    rcases hst with hj | ⟨_, hth2 | hdf2⟩
    · have := hcm hc1
      rw [hj] at this
      revert this
      decide
    · omega
    · omega
  have hw := handle_queued_tactic_jump_waits v x r hmv hat htm hcl hds
  have e4 : ∀ cm : Bool, (cm = false → v.state = STATE_JUMPING) →
      poll_tactic v x cm r = handle_queued_tactic v x r := by
    intro cm hcm
    unfold poll_tactic
    have hcond : (decide (x.tactic.tactic_type > 0) &&
        (cm || decide (x.tactic.tactic_type = TACTIC_FLY ∧ v.state = STATE_JUMPING))) = true := by
      rw [hty]
      cases cm with
      | true => rw [Bool.true_or, Bool.and_true]; decide
      | false => rw [hcm rfl]; decide
    rw [if_pos hcond]
    dsimp only
    rw [if_neg]
    rw [hw.2]
    show ¬ x.tactic.tactic_type = 0
    rw [hty]
    decide
  unfold poll_decide
  dsimp only
  rw [e3 _ (by intro h; simpa using h)]
  dsimp only
  rw [e4 _ (by
    intro h
    rcases hst with hj | ⟨hm, _⟩
    · exact hj
    · exact absurd (decide_eq_true hm) (by rw [h]; decide)), if_neg (by decide), if_pos hw.1]
  exact hw.2

theorem ai_block_har_idle (v : fighter_view) (a : ai) (r : Rng)
    (h : (ai_block_har v a r).flag = false) : (ai_block_har v a r).a = a := by
  unfold ai_block_har at h ⊢
  dsimp only at h ⊢
  split_ifs at h ⊢
  rfl

theorem ai_block_projectile_loop_idle (v : fighter_view) (a : ai) (l : List projectile)
    (r : Rng) (h : (ai_block_projectile_loop v a l r).flag = false) :
    (ai_block_projectile_loop v a l r).a = a := by
  induction l generalizing r with
  | nil => rfl
  | cons q rest ih =>
    unfold ai_block_projectile_loop at h ⊢
    by_cases hq : q.owned_by_self = true
    · rw [if_pos hq] at h ⊢
      exact ih r h
    · rw [if_neg hq] at h ⊢
      cases hc : q.cur_sprite with
      | none =>
        simp only [hc] at h ⊢
        exact ih r h
      | some sq =>
        simp only [hc] at h ⊢
        by_cases h1 : (smart_usually a r).1 = true
        · rw [if_pos h1] at h ⊢
          by_cases h2 : |projectile_sprite_x q sq - v.pos_x| < 120
          · rw [if_pos h2] at h
            cases h
          · rw [if_neg h2] at h ⊢
            exact ih _ h
        · rw [if_neg h1] at h ⊢
          exact ih _ h

/-- Playback selects nothing and learns nothing: the learning table is kept,
and the selected move is kept or cleared. -/
theorem process_selected_move_keeps (v : fighter_view) (a : ai) (m : af_move) :
    (process_selected_move v a m).1.move_stats = a.move_stats ∧
    ((process_selected_move v a m).1.selected_move = a.selected_move ∨
      (process_selected_move v a m).1.selected_move = none) := by
  unfold process_selected_move
  dsimp only
  split_ifs <;> first | exact ⟨rfl, Or.inr rfl⟩ | exact ⟨rfl, Or.inl rfl⟩

/-- C16 (counterexample): a queued Fly tactic in the attack phase of a Jump
attack with `attack_timer = 1` when the poll is called, out of attempt range:
the timer is decremented before it is tested, so the attack does not wait, and
the poll selects `jab` and counts an attempt. -/
theorem jump_attack_fires_on_last_tick :
    fly_last_tick_ai.tactic.tactic_type = TACTIC_FLY ∧
    fly_last_tick_ai.tactic.move_timer = 0 ∧
    fly_last_tick_ai.tactic.attack_type = ATTACK_JUMP ∧
    fly_last_tick_ai.tactic.attack_timer = 1 ∧
    mid_view.close = false ∧
    (dumb_sometimes fly_last_tick_ai (poll_rng mid_view fly_last_tick_ai (rng_of []))).1
      = false ∧
    fly_last_tick_ai.selected_move = none ∧
    (ai_controller_poll mid_view fly_last_tick_ai (rng_of [])).a.selected_move = some jab ∧
    ((ai_controller_poll mid_view fly_last_tick_ai (rng_of [])).a.move_stats 3).attempts =
      (fly_last_tick_ai.move_stats 3).attempts + 1 := by
  decide

/-- With two throws counted at difficulty 6, the anti-throw override of the
poll attacks before the queued Jump attack is looked at, whatever its timer. -/
theorem anti_throw_preempts_jump_wait :
    fly_thrown_ai.tactic.attack_type = ATTACK_JUMP ∧
    fly_thrown_ai.tactic.attack_timer = 2 ∧
    (ai_controller_poll mid_view fly_thrown_ai (rng_of [])).a.selected_move = some jab := by
  decide

/-- A crouching fighter does not run its queued tactic, and the opportunistic
attack of the poll is attempted instead. -/
theorem crouching_skips_jump_wait :
    fly_attack_ai.tactic.attack_type = ATTACK_JUMP ∧
    fly_attack_ai.tactic.attack_timer = 2 ∧
    (ai_controller_poll crouching_view fly_attack_ai (rng_of [])).a.selected_move
      = some jab := by
  decide

/-- C16 (amended): for a queued Fly tactic whose attack phase is active with
`attack_type = Jump`, in every `ai_controller_poll` call made while the fighter
is jumping, or can move with the anti-throw override not applying
(`thrown ≤ 1` or `difficulty ≤ 2`), the fighter is not in attempt range, and
`attack_timer > 1` when the poll is called (so that it is still positive after
the decrement that precedes the test), no move is selected and no `MoveStat`
changes. -/
theorem jump_attack_waits (v : fighter_view) (a : ai) (r : Rng)
    (hty : a.tactic.tactic_type = TACTIC_FLY)
    (hmv : ¬ (a.tactic.move_type > 0 ∧ a.tactic.move_timer > 0))
    (hat : a.tactic.attack_type = ATTACK_JUMP) (htm : a.tactic.attack_timer > 1)
    (hst : v.state = STATE_JUMPING ∨
      ((v.state = STATE_STANDING ∨ v.state = STATE_WALKTO ∨ v.state = STATE_WALKFROM ∨
        v.state = STATE_CROUCHBLOCK) ∧ (a.thrown ≤ 1 ∨ a.difficulty ≤ 2)))
    (hcl : v.close = false) (hds : (dumb_sometimes a (poll_rng v a r)).1 = false) :
    (ai_controller_poll v a r).a.move_stats = a.move_stats ∧
    ((ai_controller_poll v a r).a.selected_move = a.selected_move ∨
      (ai_controller_poll v a r).a.selected_move = none) := by
  have hds2 : (dumb_sometimes (poll_entry v a) (poll_rng v a r)).1 = false := hds
  have hd := poll_decide_jump_waits v (poll_entry v a) (poll_rng v a r) hty hmv hat htm hst
    hcl hds2
  unfold ai_controller_poll
  dsimp only
  split_ifs with h1 h2 h3 h4
  · exact ⟨rfl, Or.inl rfl⟩
  · exact ⟨rfl, Or.inr rfl⟩
  · exact ⟨(ai_block_har_core v _ r).move_stats, Or.inl (ai_block_har_core v _ r).selected_move⟩
  · have hb := ai_block_har_idle v _ r (by simpa using h3)
    rw [hb]
    exact ⟨(ai_block_projectile_core v _ _).move_stats,
      Or.inl (ai_block_projectile_core v _ _).selected_move⟩
  · have hb := ai_block_har_idle v _ r (by simpa using h3)
    rw [hb] at h4 ⊢
    have hp := ai_block_projectile_loop_idle v _ _ _ (by simpa using h4)
    unfold ai_block_projectile
    rw [hp]
    dsimp only
    split
    · rename_i m hsel
      have hk := process_selected_move_keeps v
        { a with act_timer := a.act_timer - 1, active_projectiles := v.projectiles } m
      exact ⟨hk.1, hk.2⟩
    · show (poll_decide v (poll_entry v a) (poll_rng v a r)).a.move_stats = a.move_stats ∧
        ((poll_decide v (poll_entry v a) (poll_rng v a r)).a.selected_move = a.selected_move ∨
          (poll_decide v (poll_entry v a) (poll_rng v a r)).a.selected_move = none)
      rw [hd]
      exact ⟨rfl, Or.inl rfl⟩

theorem jump_attack_waits_witness :
    fly_attack_ai.tactic.attack_timer = 2 ∧
    (ai_controller_poll mid_view fly_attack_ai (rng_of [])).a.tactic.attack_timer = 1 ∧
    (ai_controller_poll mid_view fly_attack_ai (rng_of [])).a.move_stats =
      fly_attack_ai.move_stats ∧
    ((ai_controller_poll mid_view fly_attack_ai (rng_of [])).a.selected_move =
        fly_attack_ai.selected_move ∨
      (ai_controller_poll mid_view fly_attack_ai (rng_of [])).a.selected_move = none) :=
  ⟨by decide, by decide,
    jump_attack_waits mid_view fly_attack_ai (rng_of []) (by decide) (by decide) (by decide)
      (by decide) (by decide) (by decide) (by decide)⟩

/-! ## The hard-coded charge attack -/

/-- C17: the code at the claim's input.  For a Jaguar standing 200 units from
its enemy (range class Mid), `get_enemy_range` returns 1, the test
`enemy_range >= RANGE_MID` fails without a `smart_usually` draw being taken, and
`attempt_charge_attack` emits only the five actions Down, Down+Right, Right,
Right+Punch, Punch (mirrored when facing left), not the seven of the claim. -/
theorem jaguar_charge_at_mid_range (a : ai) (r : Rng) :
    Int.tdiv |charge_view.enemy_pos_x - charge_view.pos_x| 50 = 4 ∧
    get_enemy_range charge_view = 1 ∧
    attempt_charge_attack charge_view a r =
      (true, [ACT_DOWN, ACT_DOWN ||| ACT_RIGHT, ACT_RIGHT, ACT_RIGHT ||| ACT_PUNCH, ACT_PUNCH],
        r) ∧
    attempt_charge_attack charge_view_left a r =
      (true, [ACT_DOWN, ACT_DOWN ||| ACT_LEFT, ACT_LEFT, ACT_LEFT ||| ACT_PUNCH, ACT_PUNCH],
        r) :=
  ⟨by decide, by decide, rfl, rfl⟩

/-! ## Cancellation of the queued tactic -/

/-- The suggestion cascade either leaves the state alone or queues one of its
tactics. -/
theorem queue_first_liked_type (v : fighter_view) (a : ai) (ts : List Int) (r : Rng) :
    (queue_first_liked v a ts r).1 = a ∨
    ∃ t ∈ ts, (queue_first_liked v a ts r).1.tactic.tactic_type = t := by
  induction ts generalizing r with
  | nil => exact Or.inl rfl
  | cons t ts ih =>
    unfold queue_first_liked
    split
    · exact Or.inr ⟨t, List.mem_cons_self t ts, rfl⟩
    · rcases ih (likes_tactic v a t r).2 with h | ⟨t2, hm, h⟩
      · exact Or.inl h
      · exact Or.inr ⟨t2, List.mem_cons_of_mem t hm, h⟩

/-- The suggestion pass with no tactic queued: it queues nothing when the
`smart_usually` draw fails, and otherwise leaves the state alone or queues one
of its tactics. -/
theorem suggest_type (v : fighter_view) (a : ai) (ts : List Int) (r : Rng) :
    ((smart_usually a r).1 = false → (suggest v a false ts r).1 = a) ∧
    ((suggest v a false ts r).1 = a ∨
      ∃ t ∈ ts, (suggest v a false ts r).1.tactic.tactic_type = t) := by
  unfold suggest
  dsimp only
  constructor
  · intro hs
    rw [if_pos (by unfold r_or r_pure r_not; simp [hs])]
  · split
    · exact Or.inl rfl
    · exact queue_first_liked_type v a ts _

theorem take_hit_adjust_difficulty (a : ai) (cat : Int) (r : Rng) :
    (take_hit_adjust a cat r).1.difficulty = a.difficulty := by
  unfold take_hit_adjust
  dsimp only
  split_ifs <;> rfl

theorem take_hit_adjust_rng_congr {a b : ai} (h : b.difficulty = a.difficulty) (cat : Int)
    (r : Rng) : (take_hit_adjust b cat r).2 = (take_hit_adjust a cat r).2 := by
  have e1 : ∀ (x : ai) (g : Bool), x.difficulty = a.difficulty →
      (r_and (smart_usually x) (r_pure g) r).2 = (smart_usually a r).2 := by
    intro x g hx
    unfold r_and r_pure
    rw [smart_usually_congr hx]
    split_ifs <;> rfl
  unfold take_hit_adjust
  dsimp only
  by_cases h1 : cat = CAT_THROW ∨ cat = CAT_CLOSE
  · rw [if_pos h1, if_pos h1]
    rw [apply_ite Prod.snd, apply_ite Prod.snd]
    dsimp only
    rw [ite_self, ite_self]
    exact (e1 _ _ h).trans (e1 _ _ rfl).symm
  · rw [if_neg h1, if_neg h1]
    by_cases h2 : cat = CAT_PROJECTILE
    · rw [if_pos h2, if_pos h2]
      rw [apply_ite Prod.snd, apply_ite Prod.snd]
      dsimp only
      rw [ite_self, ite_self]
      exact (e1 _ _ h).trans (e1 _ _ rfl).symm
    · rw [if_neg h2, if_neg h2]

/-- The third switch on a `TAKE_HIT` event is the adjustment followed by one
suggestion pass over a list of tactics of the source. -/
theorem react_take_hit_shape (v : fighter_view) (x : ai) (b : Bool) (m : af_move) (r : Rng) :
    ∃ ts : List Int, (∀ t ∈ ts, t > 0) ∧
      react v x b ⟨HAR_EVENT_TAKE_HIT, m⟩ r =
        suggest v (take_hit_adjust x m.category r).1 b ts (take_hit_adjust x m.category r).2 := by
  unfold react
  dsimp only
  split_ifs
  · exact ⟨_, by decide, rfl⟩
  · exact ⟨_, by decide, rfl⟩
  · exact ⟨_, by decide, rfl⟩

/-- On a `TAKE_HIT` event with a tactic queued, the first switch resets the
tactic state and the third switch runs on the reset state with no tactic
queued. -/
theorem ai_har_event_take_hit (v : fighter_view) (a : ai) (m : af_move) (r : Rng)
    (hq : a.tactic.tactic_type > 0) :
    ai_har_event v a ⟨HAR_EVENT_TAKE_HIT, m⟩ r =
      react v (reset_tactic_state a) false ⟨HAR_EVENT_TAKE_HIT, m⟩ r := by
  have hc : r_and (r_pure (decide (a.tactic.tactic_type > 0)))
      (cancels_tactic a ⟨HAR_EVENT_TAKE_HIT, m⟩) r = (true, r) := by
    unfold r_and r_pure cancels_tactic
    dsimp only
    rw [if_pos (by simpa using hq)]
  unfold ai_har_event
  dsimp only
  rw [hc]
  dsimp only
  rw [if_pos rfl, decide_eq_true hq]
  rfl

/-- C18: for every controller state with a queued tactic `T` (any `T`, any
`chain_hit_on`), after `ai_har_event` with a `TAKE_HIT` event in which the
suggestion pass queues nothing (the `smart_usually` draw of the pass fails, or
no tactic is queued when the call returns), `tactic_type = None`,
`last_tactic = T`, and `move_type`, `move_timer`, `attack_type`, `attack_id`,
`attack_timer`, `attack_on`, `chain_hit_on` and `chain_hit_tactic` are all
zero. -/
theorem take_hit_always_cancels (v : fighter_view) (a : ai) (event : har_event) (r : Rng)
    (hq : a.tactic.tactic_type > 0) (he : event.type = HAR_EVENT_TAKE_HIT)
    (hn : (smart_usually a (take_hit_adjust a event.move.category r).2).1 = false ∨
      (ai_har_event v a event r).1.tactic.tactic_type = 0) :
    (ai_har_event v a event r).1.tactic =
      { tactic_type := 0
        last_tactic := a.tactic.tactic_type
        move_type := 0
        move_timer := 0
        attack_type := 0
        attack_id := 0
        attack_timer := 0
        attack_on := none
        chain_hit_on := 0
        chain_hit_tactic := 0 } := by
  obtain ⟨type, m⟩ := event
  dsimp only at he hn
  subst he
  have hreset : (reset_tactic_state a).tactic =
      { tactic_type := 0, last_tactic := a.tactic.tactic_type, move_type := 0, move_timer := 0,
        attack_type := 0, attack_id := 0, attack_timer := 0, attack_on := none,
        chain_hit_on := 0, chain_hit_tactic := 0 } := by
    unfold reset_tactic_state
    dsimp only
    rw [if_pos (by omega)]
  have hadj : (take_hit_adjust (reset_tactic_state a) m.category r).1.tactic =
      (reset_tactic_state a).tactic := take_hit_adjust_tactic _ _ _
  obtain ⟨ts, hpos, hshape⟩ := react_take_hit_shape v (reset_tactic_state a) false m r
  have hst := suggest_type v (take_hit_adjust (reset_tactic_state a) m.category r).1 ts
    (take_hit_adjust (reset_tactic_state a) m.category r).2
  rw [ai_har_event_take_hit v a m r hq, hshape] at hn ⊢
  have hdone : (suggest v (take_hit_adjust (reset_tactic_state a) m.category r).1 false ts
      (take_hit_adjust (reset_tactic_state a) m.category r).2).1 =
      (take_hit_adjust (reset_tactic_state a) m.category r).1 := by
    rcases hn with hs | h0
    · apply hst.1
      rw [smart_usually_congr (take_hit_adjust_difficulty (reset_tactic_state a) m.category r),
        take_hit_adjust_rng_congr (show (reset_tactic_state a).difficulty = a.difficulty
          from rfl) m.category r]
      exact hs
    · rcases hst.2 with h | ⟨t, ht, h⟩
      · exact h
      · rw [h] at h0
        have := hpos t ht
        omega
  rw [hdone, hadj, hreset]

theorem take_hit_always_cancels_witness :
    novice_countering_ai.tactic.tactic_type = TACTIC_COUNTER ∧
    novice_countering_ai.tactic.move_timer = 5 ∧
    novice_countering_ai.tactic.chain_hit_on = jab.category ∧
    (ai_har_event mid_view novice_countering_ai ⟨HAR_EVENT_TAKE_HIT, jab⟩ (rng_of [])).1.tactic =
      { tactic_type := 0, last_tactic := TACTIC_COUNTER, move_type := 0, move_timer := 0,
        attack_type := 0, attack_id := 0, attack_timer := 0, attack_on := none,
        chain_hit_on := 0, chain_hit_tactic := 0 } :=
  ⟨by decide, by decide, by decide,
    take_hit_always_cancels mid_view novice_countering_ai ⟨HAR_EVENT_TAKE_HIT, jab⟩ (rng_of [])
      (by decide) rfl (Or.inl (by decide))⟩

/-- C19 (counterexample): a `TAKE_HIT` event whose move category equals a
non-zero `chain_hit_on` still resets the queued tactic, and so does an
`ENEMY_STUN` event. -/
theorem take_hit_ignores_chain :
    countering_ai.tactic.tactic_type = TACTIC_COUNTER ∧
    countering_ai.tactic.chain_hit_on ≠ 0 ∧
    countering_ai.tactic.chain_hit_on = jab.category ∧
    (cancels_tactic countering_ai ⟨HAR_EVENT_TAKE_HIT, jab⟩ (rng_of [1])).1 = true ∧
    (cancels_tactic countering_ai ⟨HAR_EVENT_ENEMY_STUN, jab⟩ (rng_of [1])).1 = true ∧
    (ai_har_event mid_view countering_ai ⟨HAR_EVENT_TAKE_HIT, jab⟩
      (rng_of [1])).1.tactic.tactic_type = 0 := by
  decide

theorem queue_first_liked_chain (v : fighter_view) (a : ai) (ts : List Int) (r : Rng) :
    (queue_first_liked v a ts r).1.tactic.chain_hit_on = a.tactic.chain_hit_on ∧
    (queue_first_liked v a ts r).1.tactic.chain_hit_tactic = a.tactic.chain_hit_tactic := by
  induction ts generalizing r with
  | nil => exact ⟨rfl, rfl⟩
  | cons t ts ih =>
    unfold queue_first_liked
    split
    · exact ⟨rfl, rfl⟩
    · exact ih _

theorem suggest_chain (v : fighter_view) (a : ai) (b : Bool) (ts : List Int) (r : Rng) :
    (suggest v a b ts r).1.tactic.chain_hit_on = a.tactic.chain_hit_on ∧
    (suggest v a b ts r).1.tactic.chain_hit_tactic = a.tactic.chain_hit_tactic := by
  unfold suggest
  dsimp only
  split
  · exact ⟨rfl, rfl⟩
  · exact queue_first_liked_chain v a ts _

/-- The reaction to a `TAKE_HIT` or `ENEMY_STUN` event leaves the chained
follow-up as it found it. -/
theorem react_chain (v : fighter_view) (a : ai) (b : Bool) (m : af_move) (r : Rng) :
    ((react v a b ⟨HAR_EVENT_TAKE_HIT, m⟩ r).1.tactic.chain_hit_on = a.tactic.chain_hit_on ∧
      (react v a b ⟨HAR_EVENT_TAKE_HIT, m⟩ r).1.tactic.chain_hit_tactic =
        a.tactic.chain_hit_tactic) ∧
    ((react v a b ⟨HAR_EVENT_ENEMY_STUN, m⟩ r).1.tactic.chain_hit_on = a.tactic.chain_hit_on ∧
      (react v a b ⟨HAR_EVENT_ENEMY_STUN, m⟩ r).1.tactic.chain_hit_tactic =
        a.tactic.chain_hit_tactic) := by
  constructor
  · unfold react
    dsimp only
    have ht := take_hit_adjust_tactic a m.category r
    split_ifs <;>
      exact ⟨(suggest_chain _ _ _ _ _).1.trans (by rw [ht]),
        (suggest_chain _ _ _ _ _).2.trans (by rw [ht])⟩
  · unfold react
    dsimp only
    split_ifs <;> exact ⟨rfl, rfl⟩

/-- C19 (amended): for a `BLOCK` event and every queued tactic, if
`chain_hit_on` is non-zero and equals the category of the event's move, the
cancellation pass does not reset the queued tactic: `ai_har_event` returns the
state it was given, but for `move_timer`, which is zeroed when `attack_on` is
OnBlock.  A `TAKE_HIT` event resets the queued tactic whatever `chain_hit_on`
is: the event is handled from the reset state with nothing queued, and the
chained follow-up is cleared on return.  An `ENEMY_STUN` event resets the
queued tactic in the same way exactly when the tactic is not Grab, Close, Trip
or Shoot, whatever `chain_hit_on` is, and otherwise leaves the state as it
was. -/
theorem chain_suppresses_block_cancellation (v : fighter_view) (a : ai) (event : har_event)
    (r : Rng) (hq : a.tactic.tactic_type > 0) :
    (event.type = HAR_EVENT_BLOCK → a.tactic.chain_hit_on ≠ 0 →
      a.tactic.chain_hit_on = event.move.category →
      (ai_har_event v a event r).1 =
        (if a.tactic.attack_on = some HAR_EVENT_BLOCK then
          { a with tactic := { a.tactic with move_timer := 0 } } else a) ∧
      (ai_har_event v a event r).1.tactic.tactic_type = a.tactic.tactic_type) ∧
    (event.type = HAR_EVENT_TAKE_HIT →
      ai_har_event v a event r = react v (reset_tactic_state a) false event r ∧
      (ai_har_event v a event r).1.tactic.chain_hit_on = 0 ∧
      (ai_har_event v a event r).1.tactic.chain_hit_tactic = 0) ∧
    (event.type = HAR_EVENT_ENEMY_STUN →
      ((a.tactic.tactic_type ≠ TACTIC_GRAB ∧ a.tactic.tactic_type ≠ TACTIC_CLOSE ∧
          a.tactic.tactic_type ≠ TACTIC_TRIP ∧ a.tactic.tactic_type ≠ TACTIC_SHOOT) →
        ai_har_event v a event r = react v (reset_tactic_state a) false event r ∧
        (ai_har_event v a event r).1.tactic.chain_hit_on = 0 ∧
        (ai_har_event v a event r).1.tactic.chain_hit_tactic = 0) ∧
      (¬ (a.tactic.tactic_type ≠ TACTIC_GRAB ∧ a.tactic.tactic_type ≠ TACTIC_CLOSE ∧
          a.tactic.tactic_type ≠ TACTIC_TRIP ∧ a.tactic.tactic_type ≠ TACTIC_SHOOT) →
        ai_har_event v a event r = (a, r))) := by
  obtain ⟨type, m⟩ := event
  dsimp only
  refine ⟨?_, ?_, ?_⟩
  · intro he hc hm
    subst he
    have hcan : (cancels_tactic a ⟨HAR_EVENT_BLOCK, m⟩ r).1 = false := by
      unfold cancels_tactic r_and r_or r_pure
      dsimp only
      have hch : decide (a.tactic.chain_hit_on = 0 ∨ a.tactic.chain_hit_on ≠ m.category)
          = false := by
        simp only [decide_eq_false_iff_not, not_or, not_not]
        exact ⟨hc, hm⟩
      rw [hch]
      split_ifs <;> rfl
    have hc2 : (r_and (r_pure (decide (a.tactic.tactic_type > 0)))
        (cancels_tactic a ⟨HAR_EVENT_BLOCK, m⟩) r).1 = false := by
      unfold r_and r_pure
      dsimp only
      rw [if_pos (by simpa using hq)]
      exact hcan
    have hsug : ∀ (ts : List Int) (r2 : Rng), (suggest v a true ts r2).1 = a := by
      intro ts r2
      unfold suggest r_or r_pure
      dsimp only
      rw [if_pos rfl, if_pos rfl]
    have key : (ai_har_event v a ⟨HAR_EVENT_BLOCK, m⟩ r).1 =
        (if a.tactic.attack_on = some HAR_EVENT_BLOCK then
          { a with tactic := { a.tactic with move_timer := 0 } } else a) := by
      unfold ai_har_event
      dsimp only
      rw [hc2, decide_eq_true hq]
      simp only [Bool.false_eq_true, if_false, Bool.not_false, Bool.and_true]
      unfold react clear_on_event
      dsimp only
      by_cases hao : a.tactic.attack_on = some HAR_EVENT_BLOCK
      · rw [if_pos hao, if_pos (by simp [hao])]
      · rw [if_neg hao, if_neg (by simp [hao])]
        split_ifs <;> rw [hsug]
    refine ⟨key, ?_⟩
    rw [key]
    split_ifs <;> rfl
  · intro he
    subst he
    have e : ai_har_event v a ⟨HAR_EVENT_TAKE_HIT, m⟩ r =
        react v (reset_tactic_state a) false ⟨HAR_EVENT_TAKE_HIT, m⟩ r := by
      unfold ai_har_event
      dsimp only
      rw [decide_eq_true hq]
      rfl
    rw [e]
    exact ⟨rfl, (react_chain v (reset_tactic_state a) false m r).1⟩
  · intro he
    subst he
    constructor
    · intro ht
      have e : ai_har_event v a ⟨HAR_EVENT_ENEMY_STUN, m⟩ r =
          react v (reset_tactic_state a) false ⟨HAR_EVENT_ENEMY_STUN, m⟩ r := by
        unfold ai_har_event cancels_tactic
        dsimp only
        rw [decide_eq_true hq]
        unfold r_and r_pure
        dsimp only
        rw [decide_eq_true ht]
        rfl
      rw [e]
      exact ⟨rfl, (react_chain v (reset_tactic_state a) false m r).2⟩
    · intro ht
      unfold ai_har_event cancels_tactic
      dsimp only
      rw [decide_eq_true hq]
      unfold r_and r_pure
      dsimp only
      rw [decide_eq_false ht]
      rfl

theorem chain_suppresses_block_cancellation_witness :
    (chained_close_ai.tactic.tactic_type = TACTIC_CLOSE ∧
      chained_close_ai.tactic.chain_hit_on = CAT_BASIC ∧ jab.category = CAT_BASIC ∧
      low_kick.category = CAT_LOW) ∧
    (ai_har_event near_view chained_close_ai ⟨HAR_EVENT_BLOCK, low_kick⟩
      (rng_of [1])).1.tactic.tactic_type = 0 ∧
    (ai_har_event near_view chained_close_ai ⟨HAR_EVENT_BLOCK, jab⟩ (rng_of [1])).1 =
      chained_close_ai ∧
    (ai_har_event near_view chained_close_ai ⟨HAR_EVENT_TAKE_HIT, jab⟩
      (rng_of [1])).1.tactic.chain_hit_on = 0 :=
  ⟨by decide, by decide,
    ((chain_suppresses_block_cancellation near_view chained_close_ai ⟨HAR_EVENT_BLOCK, jab⟩
      (rng_of [1]) (by decide)).1 rfl (by decide) (by decide)).1.trans
        (if_neg (by decide)),
    ((chain_suppresses_block_cancellation near_view chained_close_ai
      ⟨HAR_EVENT_TAKE_HIT, jab⟩ (rng_of [1]) (by decide)).2.1 rfl).2.1⟩

/-! ## Movement preferences -/

theorem thrown_rounds_reachable (n : Nat) : Reachable (thrown_rounds n) := by
  induction n with
  | zero => exact Reachable.create 5 zero_pilot 9 0
  | succ n ih => exact Reachable.event near_view _ thrown_event (rng_of []) ih

/-- C20: the code at a failing input.  A controller created for pilot 9 from a
zero-initialised pilot at the highest difficulty starts with `pref_jump = 200`;
every throw from the third on reshapes the pilot and adds 50 to `pref_jump`
with no bound, so after seven throws the reachable state has
`pref_jump = 450`, outside `[-400, 400]`, while `pref_fwd` and `pref_back`,
which the same block guards, have stopped at -200 and 200. -/
theorem pref_jump_leaves_range :
    Reachable (thrown_rounds 7) ∧
    (thrown_rounds 0).pilot.pref_jump = 200 ∧
    (thrown_rounds 7).pilot.pref_jump = 450 ∧
    ¬ ((-400 : Int) ≤ (thrown_rounds 7).pilot.pref_jump ∧
      (thrown_rounds 7).pilot.pref_jump ≤ 400) ∧
    (thrown_rounds 7).pilot.pref_fwd = -200 ∧
    (thrown_rounds 7).pilot.pref_back = 200 :=
  ⟨thrown_rounds_reachable 7, by decide, by decide, by decide, by decide, by decide⟩

/-! ## One-way personality reshaping -/

theorem take_hit_adjust_pilot (a : ai) (cat : Int) (r : Rng) :
    (take_hit_adjust a cat r).1.pilot = a.pilot ∨
    (take_hit_adjust a cat r).1.pilot = reshape_thrown a.pilot ∨
    (take_hit_adjust a cat r).1.pilot = reshape_shot a.pilot := by
  unfold take_hit_adjust
  dsimp only
  split_ifs
  · exact Or.inr (Or.inl rfl)
  · exact Or.inl rfl
  · exact Or.inr (Or.inr rfl)
  · exact Or.inl rfl
  · exact Or.inl rfl

theorem react_pilot (v : fighter_view) (a : ai) (b : Bool) (event : har_event) (r : Rng) :
    (react v a b event r).1.pilot = a.pilot ∨
    (react v a b event r).1.pilot = reshape_thrown a.pilot ∨
    (react v a b event r).1.pilot = reshape_shot a.pilot := by
  obtain ⟨type, m⟩ := event
  cases type <;> unfold react <;> dsimp only
  case HAR_EVENT_TAKE_HIT =>
    split_ifs <;> rw [(suggest_core _ _ _ _ _).pilot] <;> exact take_hit_adjust_pilot a _ r
  all_goals
    refine Or.inl ?_
    (try split_ifs) <;>
      first
        | rfl
        | exact (suggest_core _ _ _ _ _).pilot

/-- An event leaves the pilot alone or applies one of the two reshapes. -/
theorem ai_har_event_pilot (v : fighter_view) (a : ai) (event : har_event) (r : Rng) :
    (ai_har_event v a event r).1.pilot = a.pilot ∨
    (ai_har_event v a event r).1.pilot = reshape_thrown a.pilot ∨
    (ai_har_event v a event r).1.pilot = reshape_shot a.pilot := by
  have h : ∀ x : ai, x.pilot = a.pilot → ∀ (b : Bool) (r2 : Rng),
      (react v (clear_on_event x event.type) b event r2).1.pilot = a.pilot ∨
      (react v (clear_on_event x event.type) b event r2).1.pilot = reshape_thrown a.pilot ∨
      (react v (clear_on_event x event.type) b event r2).1.pilot = reshape_shot a.pilot := by
    intro x hx b r2
    have := react_pilot v (clear_on_event x event.type) b event r2
    rw [(clear_on_event_counters x event.type).2.2.1, hx] at this
    exact this
  unfold ai_har_event
  dsimp only
  split_ifs
  · exact h (reset_tactic_state a) rfl _ _
  · exact h a rfl _ _

/-- C21: personality reshaping is one-way.  No `ai_har_event` call and no
`ai_controller_poll` call raises `att_def` (so it never goes from 0 to 1), and
none changes `att_sniper`, `att_jump` or `att_hyper` from 1 to 0; a poll does
not change the pilot at all. -/
theorem personality_one_way (v : fighter_view) (a : ai) (event : har_event) (r : Rng) :
    ((ai_har_event v a event r).1.pilot.att_def ≤ a.pilot.att_def ∧
      (a.pilot.att_sniper = 1 → (ai_har_event v a event r).1.pilot.att_sniper = 1) ∧
      (a.pilot.att_jump = 1 → (ai_har_event v a event r).1.pilot.att_jump = 1) ∧
      (a.pilot.att_hyper = 1 → (ai_har_event v a event r).1.pilot.att_hyper = 1)) ∧
    (ai_controller_poll v a r).a.pilot = a.pilot := by
  refine ⟨?_, (poll_effect_counters (ai_controller_poll_effect v a r)).2.2.1⟩
  rcases ai_har_event_pilot v a event r with h | h | h <;> rw [h]
  · exact ⟨le_refl _, id, id, id⟩
  · exact ⟨Nat.zero_le _, fun _ => rfl, fun _ => rfl, id⟩
  · exact ⟨Nat.zero_le _, id, fun _ => rfl, fun _ => rfl⟩

theorem personality_one_way_witness :
    fresh_ai.pilot.att_def = 1 ∧
    (ai_har_event mid_view shot_ai ⟨HAR_EVENT_TAKE_HIT, shot_move⟩ (rng_of [])).1.pilot.att_def
      = 0 ∧
    (ai_har_event mid_view shot_ai ⟨HAR_EVENT_TAKE_HIT, shot_move⟩ (rng_of [])).1.pilot.att_def
      ≤ shot_ai.pilot.att_def :=
  ⟨by decide, by decide,
    (personality_one_way mid_view shot_ai ⟨HAR_EVENT_TAKE_HIT, shot_move⟩ (rng_of [])).1.1⟩

/-! ## The range classification and the skill gate -/

/-- C22: the code at failing inputs.  `get_enemy_range` returns 0 when
`range_units` is 0 or 1 and 1 for every other distance: at 200 units (class
Mid, 2) and at 400 units (class Far, 3) callers observe 1, the value of class
Close, so the four classes are not told apart. -/
theorem get_enemy_range_two_values :
    (∀ v : fighter_view, get_enemy_range v =
      if Int.tdiv |v.enemy_pos_x - v.pos_x| 50 = 0 ∨ Int.tdiv |v.enemy_pos_x - v.pos_x| 50 = 1
      then RANGE_CRAMPED else RANGE_CLOSE) ∧
    Int.tdiv |charge_view.enemy_pos_x - charge_view.pos_x| 50 = 4 ∧
    get_enemy_range charge_view = 1 ∧ get_enemy_range charge_view ≠ RANGE_MID ∧
    Int.tdiv |far_view.enemy_pos_x - far_view.pos_x| 50 = 8 ∧
    get_enemy_range far_view = 1 ∧ get_enemy_range far_view ≠ RANGE_FAR := by
  refine ⟨?_, by decide, by decide, by decide, by decide, by decide, by decide⟩
  intro v
  unfold get_enemy_range
  dsimp only
  split_ifs <;> first | rfl | (exfalso; revert ‹_›; decide)

theorem smart_usually_six (a : ai) (r : Rng) (h : a.difficulty = 6) :
    (smart_usually a r).1 = decide (r.draws r.pos % 12 ≠ 1) := by
  unfold smart_usually r_not roll_chance rand_int
  rw [if_pos h, if_neg (by decide)]
  simp

theorem smart_usually_mid (a : ai) (r : Rng) (h3 : 3 ≤ a.difficulty) (h5 : a.difficulty ≤ 5) :
    (smart_usually a r).1 = decide (r.draws r.pos % (7 - a.difficulty).toNat = 1) := by
  unfold smart_usually roll_chance rand_int
  rw [if_neg (by omega), if_pos (by omega), if_neg (by omega)]

theorem smart_usually_low (a : ai) (r : Rng) (h : a.difficulty ≤ 2) :
    (smart_usually a r).1 = false := by
  unfold smart_usually
  rw [if_neg (by omega), if_neg (by omega)]

/-- C23: `smart_usually` as a function of the difficulty and the draw.  At
difficulty 6 it is true exactly when the draw in `[0, 12)` is not 1, that is
for 11 of the 12 draws; at difficulty `d` in `{3, 4, 5}` it is true exactly
when the draw in `[0, 7 - d)` is 1, that is for 1 of the `7 - d` draws; at
difficulty 1 and 2 it is false for every draw. -/
theorem smart_usually_odds (a : ai) :
    (a.difficulty = 6 →
      (∀ r, (smart_usually a r).1 = decide (r.draws r.pos % 12 ≠ 1)) ∧
      ((Finset.range 12).filter
        (fun k => (smart_usually a (rng_of [k])).1 = true)).card = 11) ∧
    (3 ≤ a.difficulty ∧ a.difficulty ≤ 5 →
      (∀ r, (smart_usually a r).1 = decide (r.draws r.pos % (7 - a.difficulty).toNat = 1)) ∧
      ((Finset.range (7 - a.difficulty).toNat).filter
        (fun k => (smart_usually a (rng_of [k])).1 = true)).card = 1) ∧
    (a.difficulty = 1 ∨ a.difficulty = 2 → ∀ r, (smart_usually a r).1 = false) := by
  refine ⟨?_, ?_, ?_⟩
  · intro h
    refine ⟨fun r => smart_usually_six a r h, ?_⟩
    have e : ∀ k : Nat, (smart_usually a (rng_of [k])).1 = decide (k % 12 ≠ 1) :=
      fun k => smart_usually_six a (rng_of [k]) h
    simp only [e]
    decide
  · rintro ⟨h3, h5⟩
    refine ⟨fun r => smart_usually_mid a r h3 h5, ?_⟩
    have e : ∀ k : Nat, (smart_usually a (rng_of [k])).1 =
        decide (k % (7 - a.difficulty).toNat = 1) :=
      fun k => smart_usually_mid a (rng_of [k]) h3 h5
    simp only [e]
    have hd : a.difficulty = 3 ∨ a.difficulty = 4 ∨ a.difficulty = 5 := by omega
    rcases hd with hd | hd | hd <;> rw [hd] <;> decide
  · intro h r
    exact smart_usually_low a r (by omega)

theorem smart_usually_odds_witness :
    fresh_ai.difficulty = 6 ∧
    ((Finset.range 12).filter
      (fun k => (smart_usually fresh_ai (rng_of [k])).1 = true)).card = 11 ∧
    (blocked_rounds 0).difficulty = 1 ∧
    (smart_usually (blocked_rounds 0) (rng_of [1])).1 = false :=
  ⟨rfl, ((smart_usually_odds fresh_ai).1 rfl).2, rfl,
    (smart_usually_odds (blocked_rounds 0)).2.2 (Or.inl rfl) (rng_of [1])⟩

/-! ## Move validity -/

/-- C24 (counterexample): in the Victory state and in the Scrap state a basic
punch is valid, though its category is neither Scrap nor Destruction. -/
theorem victory_allows_basic_move :
    victory_view.state = STATE_VICTORY ∧ is_valid_move jab victory_view false = true ∧
    is_valid_move jab victory_view true = true ∧ jab.category ≠ CAT_SCRAP ∧
    is_valid_move jab { near_view with state := STATE_SCRAP } false = true ∧
    jab.category ≠ CAT_DESTRUCTION := by
  decide

/-- C24 (amended): for every move and fighter state for which `is_valid_move`
returns true (either value of `force_allow_projectile`): if the move's category
is Scrap the fighter state is Victory, and if the category is Destruction the
fighter state is Scrap. -/
theorem is_valid_move_finisher_states (m : af_move) (v : fighter_view) (f : Bool)
    (h : is_valid_move m v f = true) :
    (m.category = CAT_SCRAP → v.state = STATE_VICTORY) ∧
    (m.category = CAT_DESTRUCTION → v.state = STATE_SCRAP) := by
  unfold is_valid_move at h
  split_ifs at h with h1 h2 h3 h4 h5
  all_goals
    constructor
    · intro hc
      by_contra hs
      exact h4 ⟨hc, hs⟩
    · intro hc
      by_contra hs
      exact h5 ⟨hc, hs⟩

theorem is_valid_move_finisher_states_witness :
    is_valid_move scrap_move victory_view false = true ∧
    (scrap_move.category = CAT_SCRAP → victory_view.state = STATE_VICTORY) ∧
    (scrap_move.category = CAT_DESTRUCTION → victory_view.state = STATE_SCRAP) :=
  ⟨by decide, is_valid_move_finisher_states scrap_move victory_view false (by decide)⟩

/-- C25 (counterexample): with `force_allow_projectile` a Projectile move is
still refused while the fighter is jumping, and it is refused in any state when
its command string is empty. -/
theorem projectile_move_refused :
    shot_move.category = CAT_PROJECTILE ∧ is_valid_move shot_move jumping_view true = false ∧
    blank_shot_move.category = CAT_PROJECTILE ∧
    is_valid_move blank_shot_move near_view true = false := by
  decide

/-- C25 (amended): for every move of category Projectile whose command string
is not empty and every fighter state other than Jumping,
`is_valid_move(move, h, force_allow_projectile = true)` returns true. -/
theorem projectile_move_forced_valid (m : af_move) (v : fighter_view)
    (hc : m.category = CAT_PROJECTILE) (hs : v.state ≠ STATE_JUMPING)
    (hl : m.move_string ≠ []) : is_valid_move m v true = true := by
  have hlen : (m.move_string.length : Int) > 0 := by
    have : 0 < m.move_string.length := List.length_pos.mpr hl
    omega
  unfold is_valid_move
  rw [hc]
  rw [if_neg (fun h => absurd h.1 (by decide)), if_neg (fun h => absurd h.1 (by decide)),
    if_neg (fun h => hs h.2), if_neg (fun h => absurd h.1 (by decide)),
    if_neg (fun h => absurd h.1 (by decide))]
  dsimp only
  split_ifs with h1 h2 h3
  · rfl
  · exact absurd (by simp) h2
  · rfl
  · exact absurd ⟨Or.inr (Or.inl rfl), hlen⟩ h3

theorem projectile_move_forced_valid_witness :
    shot_move.category = CAT_PROJECTILE ∧ mid_view.state ≠ STATE_JUMPING ∧
    is_valid_move shot_move mid_view true = true :=
  ⟨rfl, by decide, projectile_move_forced_valid shot_move mid_view rfl (by decide) (by decide)⟩

/-! ## Input synthesis -/

/-- C26: `char_to_act` mirrors horizontally.  For every character the action
for a fighter facing left is the action for one facing right with the Left and
Right bits exchanged; `2`, `8`, `K`, `P` and `5` do not depend on the
direction; facing right, `4`, `6`, `7`, `9`, `1`, `3` map to Left, Right,
Up+Left, Up+Right, Down+Left, Down+Right; every other character maps to
Stop. -/
theorem char_to_act_mirrors :
    (∀ ch : Char, char_to_act ch OBJECT_FACE_LEFT =
      mirror_act (char_to_act ch OBJECT_FACE_RIGHT)) ∧
    (∀ d : facing, char_to_act '2' d = ACT_DOWN ∧ char_to_act '8' d = ACT_UP ∧
      char_to_act 'K' d = ACT_KICK ∧ char_to_act 'P' d = ACT_PUNCH ∧
      char_to_act '5' d = ACT_STOP) ∧
    (char_to_act '4' OBJECT_FACE_RIGHT = ACT_LEFT ∧
      char_to_act '6' OBJECT_FACE_RIGHT = ACT_RIGHT ∧
      char_to_act '7' OBJECT_FACE_RIGHT = ACT_UP ||| ACT_LEFT ∧
      char_to_act '9' OBJECT_FACE_RIGHT = ACT_UP ||| ACT_RIGHT ∧
      char_to_act '1' OBJECT_FACE_RIGHT = ACT_DOWN ||| ACT_LEFT ∧
      char_to_act '3' OBJECT_FACE_RIGHT = ACT_DOWN ||| ACT_RIGHT) ∧
    (∀ (ch : Char) (d : facing),
      ch ∈ ['1', '2', '3', '4', '6', '7', '8', '9', 'K', 'P'] ∨
        char_to_act ch d = ACT_STOP) := by
  refine ⟨?_, ?_, by decide, ?_⟩
  · intro ch
    unfold char_to_act
    by_cases h0 : ch = '8'
    · simp only [if_pos h0]
      decide
    simp only [if_neg h0]
    by_cases h1 : ch = '2'
    · simp only [if_pos h1]
      decide
    simp only [if_neg h1]
    by_cases h2 : ch = '6'
    · simp only [if_pos h2]
      decide
    simp only [if_neg h2]
    by_cases h3 : ch = '4'
    · simp only [if_pos h3]
      decide
    simp only [if_neg h3]
    by_cases h4 : ch = '7'
    · simp only [if_pos h4]
      decide
    simp only [if_neg h4]
    by_cases h5 : ch = '9'
    · simp only [if_pos h5]
      decide
    simp only [if_neg h5]
    by_cases h6 : ch = '1'
    · simp only [if_pos h6]
      decide
    simp only [if_neg h6]
    by_cases h7 : ch = '3'
    · simp only [if_pos h7]
      decide
    simp only [if_neg h7]
    by_cases h8 : ch = 'K'
    · simp only [if_pos h8]
      decide
    simp only [if_neg h8]
    by_cases h9 : ch = 'P'
    · simp only [if_pos h9]
      decide
    simp only [if_neg h9]
    by_cases h10 : ch = '5'
    · simp only [if_pos h10]
      decide
    simp only [if_neg h10]
    decide
  · intro d
    cases d <;> decide
  · intro ch d
    unfold char_to_act
    by_cases h0 : ch = '8'
    · simp only [if_pos h0]
      exact Or.inl (by rw [h0]; decide)
    simp only [if_neg h0]
    by_cases h1 : ch = '2'
    · simp only [if_pos h1]
      exact Or.inl (by rw [h1]; decide)
    simp only [if_neg h1]
    by_cases h2 : ch = '6'
    · simp only [if_pos h2]
      exact Or.inl (by rw [h2]; decide)
    simp only [if_neg h2]
    by_cases h3 : ch = '4'
    · simp only [if_pos h3]
      exact Or.inl (by rw [h3]; decide)
    simp only [if_neg h3]
    by_cases h4 : ch = '7'
    · simp only [if_pos h4]
      exact Or.inl (by rw [h4]; decide)
    simp only [if_neg h4]
    by_cases h5 : ch = '9'
    · simp only [if_pos h5]
      exact Or.inl (by rw [h5]; decide)
    simp only [if_neg h5]
    by_cases h6 : ch = '1'
    · simp only [if_pos h6]
      exact Or.inl (by rw [h6]; decide)
    simp only [if_neg h6]
    by_cases h7 : ch = '3'
    · simp only [if_pos h7]
      exact Or.inl (by rw [h7]; decide)
    simp only [if_neg h7]
    by_cases h8 : ch = 'K'
    · simp only [if_pos h8]
      exact Or.inl (by rw [h8]; decide)
    simp only [if_neg h8]
    by_cases h9 : ch = 'P'
    · simp only [if_pos h9]
      exact Or.inl (by rw [h9]; decide)
    simp only [if_neg h9]
    by_cases h10 : ch = '5'
    · simp only [if_pos h10]
      exact Or.inr trivial
    simp only [if_neg h10]
    exact Or.inr trivial

/-! ## The frame of a selection -/

theorem set_selected_move_after_halving (v : fighter_view) (a : ai) (m : af_move) :
    set_selected_move v { a with move_stats := halve_consecutive a.move_stats } m =
      after_selection v a m := by
  unfold set_selected_move after_selection halve_consecutive set_stat
  dsimp only
  congr 1
  funext i
  by_cases h : i = m.id
  · rw [if_pos h, if_pos h, h]
  · rw [if_neg h, if_neg h]

/-- C27: on every successful selection by `attempt_attack` or
`assign_move_by_cat` the new state is `after_selection`: every `consecutive`
counter is replaced by its integer half, after which `attempts` and
`consecutive` of the selected move are incremented, its `last_dist` is the
horizontal distance between the fighters, `blocked` is 0 and `move_str_pos` is
`len - 1` of its command string, with every other field kept; the selected
move is one `is_valid_move` accepts.  When no move is selected the state is
unchanged. -/
theorem selection_frame (v : fighter_view) (a : ai) (category : Int)
    (highest_damage : Bool) (r : Rng) :
    (((attempt_attack v a highest_damage r).1 = false ∧
        (attempt_attack v a highest_damage r).2.1 = a) ∨
      ∃ m, is_valid_move m v false = true ∧
        (attempt_attack v a highest_damage r).1 = true ∧
        (attempt_attack v a highest_damage r).2.1 = after_selection v a m) ∧
    (((assign_move_by_cat v a category highest_damage r).1 = false ∧
        (assign_move_by_cat v a category highest_damage r).2.1 = a) ∨
      ∃ m, is_valid_move m v true = true ∧
        (assign_move_by_cat v a category highest_damage r).1 = true ∧
        (assign_move_by_cat v a category highest_damage r).2.1 = after_selection v a m) := by
  constructor
  · rcases attempt_attack_cases v a highest_damage r with h | ⟨m, hv, hf, hs⟩
    · exact Or.inl h
    · exact Or.inr ⟨m, hv, hf, by rw [hs, set_selected_move_after_halving]⟩
  · rcases assign_move_by_cat_cases v a category highest_damage r with h | ⟨m, hv, hf, hs⟩
    · exact Or.inl h
    · exact Or.inr ⟨m, hv, hf, by rw [hs, set_selected_move_after_halving]⟩

/-! ## The distance bias of the learned score -/

/-- The distance bias enters both learned scores as a summand: the score with
the statistics `ms` is the score with `min_hit_dist` set to -1 (no bias) plus
`dist_bias ms`. -/
theorem learned_value_bias (a : ai) (ms : move_stat) (move : af_move) (r : Rng) :
    (cat_learned_value a ms move r).1 =
      (cat_learned_value a { ms with min_hit_dist := -1 } move r).1 + dist_bias ms ∧
    (attack_learned_value a ms move r).1 =
      (attack_learned_value a { ms with min_hit_dist := -1 } move r).1 + dist_bias ms := by
  have h0 : dist_bias { ms with min_hit_dist := -1 } = 0 := by
    unfold dist_bias
    rw [if_neg (by simp)]
  constructor
  · unfold cat_learned_value
    dsimp only
    rw [h0]
    split_ifs <;> ring
  · unfold attack_learned_value
    dsimp only
    rw [h0]
    split_ifs <;> ring

/-- C28 (counterexample): with `min_hit_dist = 10`, `max_hit_dist = 20` and
`last_dist = 25 = max_hit_dist + 5` the bias is 0, not +2, in both scores. -/
theorem dist_bias_at_upper_edge :
    edge_stat.min_hit_dist + 5 < edge_stat.last_dist ∧
    edge_stat.last_dist ≤ edge_stat.max_hit_dist + 5 ∧
    dist_bias edge_stat = 0 ∧
    (cat_learned_value fresh_ai edge_stat jab (rng_of [])).1 =
      (cat_learned_value fresh_ai { edge_stat with min_hit_dist := -1 } jab (rng_of [])).1 ∧
    (attack_learned_value fresh_ai edge_stat jab (rng_of [])).1 =
      (attack_learned_value fresh_ai { edge_stat with min_hit_dist := -1 } jab
        (rng_of [])).1 := by
  decide

/-- C28 (amended): the distance bias of the learning-mode score of
`attempt_attack` and `assign_move_by_cat`.  For statistics with
`min_hit_dist ≠ -1` the bias is +2 exactly when
`min_hit_dist + 5 < last_dist < max_hit_dist + 5`, is -3 exactly when
`last_dist > max_hit_dist + 10`, and is 0 otherwise; with `min_hit_dist = -1`
it is 0.  The bias is the difference between the score and the score without
hit distances. -/
theorem dist_bias_cases (a : ai) (ms : move_stat) (move : af_move) (r : Rng) :
    (ms.min_hit_dist ≠ -1 →
      (dist_bias ms = 2 ↔
        ms.min_hit_dist + 5 < ms.last_dist ∧ ms.last_dist < ms.max_hit_dist + 5) ∧
      (dist_bias ms = -3 ↔ ms.last_dist > ms.max_hit_dist + 10) ∧
      (dist_bias ms = 0 ↔
        ¬ (ms.min_hit_dist + 5 < ms.last_dist ∧ ms.last_dist < ms.max_hit_dist + 5) ∧
        ¬ ms.last_dist > ms.max_hit_dist + 10)) ∧
    (ms.min_hit_dist = -1 → dist_bias ms = 0) ∧
    (cat_learned_value a ms move r).1 -
      (cat_learned_value a { ms with min_hit_dist := -1 } move r).1 = dist_bias ms ∧
    (attack_learned_value a ms move r).1 -
      (attack_learned_value a { ms with min_hit_dist := -1 } move r).1 = dist_bias ms := by
  have hb := learned_value_bias a ms move r
  refine ⟨?_, ?_, by rw [hb.1]; ring, by rw [hb.2]; ring⟩
  · intro hm
    unfold dist_bias
    rw [if_pos hm]
    split_ifs with h1 h2
    · refine ⟨⟨fun _ => ⟨h1.2, h1.1⟩, fun _ => rfl⟩, ⟨fun h => absurd h (by decide), fun h => ?_⟩,
        ⟨fun h => absurd h (by decide), fun h => absurd ⟨h1.2, h1.1⟩ h.1⟩⟩
      omega
    · refine ⟨⟨fun h => absurd h (by decide), fun h => absurd ⟨h.2, h.1⟩ h1⟩,
        ⟨fun _ => h2, fun _ => rfl⟩, ⟨fun h => absurd h (by decide), fun h => absurd h2 h.2⟩⟩
    · refine ⟨⟨fun h => absurd h (by decide), fun h => absurd ⟨h.2, h.1⟩ h1⟩,
        ⟨fun h => absurd h (by decide), fun h => absurd h h2⟩,
        ⟨fun _ => ⟨fun h => h1 ⟨h.2, h.1⟩, h2⟩, fun _ => rfl⟩⟩
  · intro hm
    unfold dist_bias
    rw [if_neg (by rw [hm]; simp)]

theorem dist_bias_cases_witness :
    ({ edge_stat with last_dist := 24 } : move_stat).min_hit_dist ≠ -1 ∧
    dist_bias { edge_stat with last_dist := 24 } = 2 ∧
    dist_bias { edge_stat with last_dist := 31 } = -3 ∧
    dist_bias { edge_stat with min_hit_dist := -1 } = 0 :=
  ⟨by decide,
    ((dist_bias_cases fresh_ai { edge_stat with last_dist := 24 } jab (rng_of [])).1
      (by decide)).1.mpr (by decide),
    ((dist_bias_cases fresh_ai { edge_stat with last_dist := 31 } jab (rng_of [])).1
      (by decide)).2.1.mpr (by decide),
    (dist_bias_cases fresh_ai { edge_stat with min_hit_dist := -1 } jab (rng_of [])).2.1 rfl⟩

/-! ## Learning from landed and blocked attacks -/

/-- A `LAND_HIT` event clears the selected move and runs the learning update;
what follows only touches the tactic. -/
theorem ai_har_event_land_hit (v : fighter_view) (a : ai) (m : af_move) (r : Rng) :
    same_core (land_hit_update { a with selected_move := none } m)
      (ai_har_event v a ⟨HAR_EVENT_LAND_HIT, m⟩ r).1 := by
  have hc : (r_and (r_pure (decide (a.tactic.tactic_type > 0)))
      (cancels_tactic a ⟨HAR_EVENT_LAND_HIT, m⟩) r).1 = false := by
    unfold r_and r_pure cancels_tactic
    split_ifs <;> rfl
  unfold ai_har_event
  dsimp only
  rw [hc]
  simp only [Bool.false_eq_true, if_false]
  unfold react clear_on_event
  dsimp only
  split_ifs
  · exact queue_tactic_core _ _ _ _
  · exact suggest_core _ _ _ _ _

/-- C29: after `ai_har_event` with a `LAND_HIT` event for move `m`, the `value`
of `m` is `min (old value + 1) 10`; `last_move_id` is `m.id`; `max_hit_dist` of
`m` becomes its `last_dist` if it was -1 or smaller than `last_dist`, else is
unchanged; `min_hit_dist` becomes `last_dist` if it was -1 or larger than
`last_dist`, else is unchanged; `attempts`, `consecutive` and `last_dist` of
`m` and the statistics of every other move are unchanged. -/
theorem land_hit_learns (v : fighter_view) (a : ai) (m : af_move) (r : Rng) :
    ((ai_har_event v a ⟨HAR_EVENT_LAND_HIT, m⟩ r).1.move_stats m.id).value =
      min ((a.move_stats m.id).value + 1) 10 ∧
    (ai_har_event v a ⟨HAR_EVENT_LAND_HIT, m⟩ r).1.last_move_id = (m.id.val : Int) ∧
    ((ai_har_event v a ⟨HAR_EVENT_LAND_HIT, m⟩ r).1.move_stats m.id).max_hit_dist =
      (if (a.move_stats m.id).max_hit_dist = -1 ∨
          (a.move_stats m.id).max_hit_dist < (a.move_stats m.id).last_dist
        then (a.move_stats m.id).last_dist else (a.move_stats m.id).max_hit_dist) ∧
    ((ai_har_event v a ⟨HAR_EVENT_LAND_HIT, m⟩ r).1.move_stats m.id).min_hit_dist =
      (if (a.move_stats m.id).min_hit_dist = -1 ∨
          (a.move_stats m.id).min_hit_dist > (a.move_stats m.id).last_dist
        then (a.move_stats m.id).last_dist else (a.move_stats m.id).min_hit_dist) ∧
    ((ai_har_event v a ⟨HAR_EVENT_LAND_HIT, m⟩ r).1.move_stats m.id).attempts =
      (a.move_stats m.id).attempts ∧
    ((ai_har_event v a ⟨HAR_EVENT_LAND_HIT, m⟩ r).1.move_stats m.id).consecutive =
      (a.move_stats m.id).consecutive ∧
    ((ai_har_event v a ⟨HAR_EVENT_LAND_HIT, m⟩ r).1.move_stats m.id).last_dist =
      (a.move_stats m.id).last_dist ∧
    ∀ i, i ≠ m.id →
      (ai_har_event v a ⟨HAR_EVENT_LAND_HIT, m⟩ r).1.move_stats i = a.move_stats i := by
  have h := ai_har_event_land_hit v a m r
  rw [h.move_stats, h.last_move_id]
  unfold land_hit_update set_stat
  dsimp only
  rw [if_pos rfl]
  dsimp only
  refine ⟨?_, rfl, rfl, rfl, rfl, rfl, rfl, ?_⟩
  · split_ifs with h1
    · rw [min_eq_right (by omega)]
    · rw [min_eq_left (by omega)]
  · intro i hi
    rw [if_neg hi]

theorem land_hit_learns_witness :
    (attacking_ai.move_stats jab.id).value = 0 ∧
    ((ai_har_event near_view attacking_ai ⟨HAR_EVENT_LAND_HIT, jab⟩
      (rng_of [])).1.move_stats jab.id).value = min ((attacking_ai.move_stats jab.id).value + 1) 10 ∧
    (ai_har_event near_view attacking_ai ⟨HAR_EVENT_LAND_HIT, jab⟩ (rng_of [])).1.move_stats 4 =
      attacking_ai.move_stats 4 :=
  ⟨by decide, (land_hit_learns near_view attacking_ai jab (rng_of [])).1,
    (land_hit_learns near_view attacking_ai jab (rng_of [])).2.2.2.2.2.2.2 4 (by decide)⟩

/-- An `ENEMY_BLOCK` event clears the selected move; on the first block it runs
the learning update, after which only the tactic is touched, and on a later
block it does nothing more. -/
theorem ai_har_event_enemy_block (v : fighter_view) (a : ai) (m : af_move) (r : Rng) :
    (a.blocked = 0 →
      same_core (enemy_block_update { a with selected_move := none } m)
        (ai_har_event v a ⟨HAR_EVENT_ENEMY_BLOCK, m⟩ r).1) ∧
    (a.blocked ≠ 0 →
      (ai_har_event v a ⟨HAR_EVENT_ENEMY_BLOCK, m⟩ r).1 = { a with selected_move := none }) := by
  have hc : (r_and (r_pure (decide (a.tactic.tactic_type > 0)))
      (cancels_tactic a ⟨HAR_EVENT_ENEMY_BLOCK, m⟩) r).1 = false := by
    unfold r_and r_pure cancels_tactic
    split_ifs <;> rfl
  unfold ai_har_event
  dsimp only
  rw [hc]
  simp only [Bool.false_eq_true, if_false]
  unfold react clear_on_event
  dsimp only
  constructor
  · intro hb
    rw [if_pos hb]
    exact suggest_core _ _ _ _ _
  · intro hb
    rw [if_neg hb]

/-- C30: the block penalty is applied once per selected move.  On
`ai_har_event` with an `ENEMY_BLOCK` event for move `m` and `blocked = 0`, the
`value` of `m` decreases by exactly one, `last_move_id` becomes `m.id` and
`blocked` becomes 1; with `blocked = 1` already (or any non-zero value), the
learning table, `last_move_id`, `blocked` and the tactic state are unchanged
and `selected_move` is cleared. -/
theorem block_penalty_once (v : fighter_view) (a : ai) (m : af_move) (r : Rng) :
    (a.blocked = 0 →
      ((ai_har_event v a ⟨HAR_EVENT_ENEMY_BLOCK, m⟩ r).1.move_stats m.id).value =
        (a.move_stats m.id).value - 1 ∧
      (ai_har_event v a ⟨HAR_EVENT_ENEMY_BLOCK, m⟩ r).1.last_move_id = (m.id.val : Int) ∧
      (ai_har_event v a ⟨HAR_EVENT_ENEMY_BLOCK, m⟩ r).1.blocked = 1) ∧
    (a.blocked ≠ 0 →
      (ai_har_event v a ⟨HAR_EVENT_ENEMY_BLOCK, m⟩ r).1.move_stats = a.move_stats ∧
      (ai_har_event v a ⟨HAR_EVENT_ENEMY_BLOCK, m⟩ r).1.last_move_id = a.last_move_id ∧
      (ai_har_event v a ⟨HAR_EVENT_ENEMY_BLOCK, m⟩ r).1.blocked = a.blocked ∧
      (ai_har_event v a ⟨HAR_EVENT_ENEMY_BLOCK, m⟩ r).1.tactic = a.tactic ∧
      (ai_har_event v a ⟨HAR_EVENT_ENEMY_BLOCK, m⟩ r).1.selected_move = none) := by
  have h := ai_har_event_enemy_block v a m r
  constructor
  · intro hb
    have hs := h.1 hb
    rw [hs.move_stats, hs.last_move_id, hs.blocked]
    unfold enemy_block_update set_stat
    dsimp only
    rw [if_pos rfl]
    exact ⟨rfl, rfl, rfl⟩
  · intro hb
    rw [h.2 hb]
    exact ⟨rfl, rfl, rfl, rfl, rfl⟩

theorem block_penalty_once_witness :
    attacking_ai.blocked = 0 ∧ blocked_ai.blocked = 1 ∧
    (blocked_ai.move_stats jab.id).value = (attacking_ai.move_stats jab.id).value - 1 ∧
    (ai_har_event near_view blocked_ai ⟨HAR_EVENT_ENEMY_BLOCK, jab⟩ (rng_of [])).1.move_stats
      = blocked_ai.move_stats :=
  ⟨by decide, by decide,
    ((block_penalty_once near_view attacking_ai jab (rng_of [])).1 (by decide)).1,
    ((block_penalty_once near_view blocked_ai jab (rng_of [])).2 (by decide)).1⟩

/-! ## Tactic preferences -/

/-- C31 (counterexample): with `thrown = 3` a defensive pilot still likes
Turtle when the draw of `roll_chance(3)` is 1: the gate of Turtle is
`thrown <= 3`. -/
theorem turtle_liked_after_three_throws :
    thrice_thrown_ai.thrown ≥ 3 ∧
    (likes_tactic near_view thrice_thrown_ai TACTIC_TURTLE (rng_of [1])).1 = true := by
  decide

/-- The arms of `likes_tactic` for Counter and for Turtle, once the opening gate
has let the call through. -/
theorem likes_tactic_counter_turtle (v : fighter_view) (a : ai) (r : Rng) :
    likes_tactic v a TACTIC_COUNTER r =
      (if (r_or (r_and (r_pure (decide (a.tactic.last_tactic = TACTIC_COUNTER)))
            (roll_chance 2)) (r_pure (decide (v.state = STATE_JUMPING))) r).1 then
        (false, (r_or (r_and (r_pure (decide (a.tactic.last_tactic = TACTIC_COUNTER)))
            (roll_chance 2)) (r_pure (decide (v.state = STATE_JUMPING))) r).2)
      else
        r_and (r_pure (decide (a.thrown < MAX_TIMES_THROWN)))
          (r_or (r_and (r_pure (decide (a.pilot.att_def ≠ 0))) (roll_chance 3))
            (roll_chance 6))
          (r_or (r_and (r_pure (decide (a.tactic.last_tactic = TACTIC_COUNTER)))
            (roll_chance 2)) (r_pure (decide (v.state = STATE_JUMPING))) r).2) ∧
    likes_tactic v a TACTIC_TURTLE r =
      (if (r_or (r_and (r_pure (decide (a.tactic.last_tactic = TACTIC_TURTLE)))
            (roll_chance 2)) (r_pure (decide (v.state = STATE_JUMPING))) r).1 then
        (false, (r_or (r_and (r_pure (decide (a.tactic.last_tactic = TACTIC_TURTLE)))
            (roll_chance 2)) (r_pure (decide (v.state = STATE_JUMPING))) r).2)
      else
        r_and (r_pure (decide (a.thrown ≤ MAX_TIMES_THROWN)))
          (r_or (r_and (r_pure (decide (a.pilot.att_def ≠ 0))) (roll_chance 3))
            (roll_chance 10))
          (r_or (r_and (r_pure (decide (a.tactic.last_tactic = TACTIC_TURTLE)))
            (roll_chance 2)) (r_pure (decide (v.state = STATE_JUMPING))) r).2) :=
  ⟨rfl, rfl⟩

/-- C31 (amended): `likes_tactic(Counter)` returns false whenever
`thrown >= 3`, and `likes_tactic(Turtle)` returns false whenever `thrown > 3`,
for every pilot personality, fighter view and outcome of the random draws. -/
theorem likes_tactic_thrown (v : fighter_view) (a : ai) (r : Rng) :
    (a.thrown ≥ 3 → (likes_tactic v a TACTIC_COUNTER r).1 = false) ∧
    (a.thrown > 3 → (likes_tactic v a TACTIC_TURTLE r).1 = false) := by
  constructor
  · intro h
    have hd : decide (a.thrown < MAX_TIMES_THROWN) = false := by
      simp only [decide_eq_false_iff_not]
      show ¬ a.thrown < 3
      omega
    rw [(likes_tactic_counter_turtle v a r).1]
    split
    · rfl
    · unfold r_and r_pure
      dsimp only
      rw [hd]
      rfl
  · intro h
    have hd : decide (a.thrown ≤ MAX_TIMES_THROWN) = false := by
      simp only [decide_eq_false_iff_not]
      show ¬ a.thrown ≤ 3
      omega
    rw [(likes_tactic_counter_turtle v a r).2]
    split
    · rfl
    · unfold r_and r_pure
      dsimp only
      rw [hd]
      rfl

theorem likes_tactic_thrown_witness :
    thrice_thrown_ai.thrown ≥ 3 ∧
    (likes_tactic near_view thrice_thrown_ai TACTIC_COUNTER (rng_of [1])).1 = false ∧
    (likes_tactic near_view { fresh_ai with thrown := 4 } TACTIC_TURTLE (rng_of [1])).1
      = false :=
  ⟨by decide, (likes_tactic_thrown near_view thrice_thrown_ai (rng_of [1])).1 (by decide),
    (likes_tactic_thrown near_view { fresh_ai with thrown := 4 } (rng_of [1])).2 (by decide)⟩

/-- C32: the code at a failing input.  With the enemy 400 units away (range
class Far) `get_enemy_range` returns 1, so the test `enemy_range <= RANGE_MID`
of the Trip and Push arms passes: Trip is liked when the draw of
`roll_chance(3)` is 1, and Push is liked when `smart_usually` passes. -/
theorem trip_and_push_liked_at_far_range :
    Int.tdiv |far_view.enemy_pos_x - far_view.pos_x| 50 = 8 ∧
    get_enemy_range far_view = 1 ∧
    (likes_tactic far_view fresh_ai TACTIC_TRIP (rng_of [1])).1 = true ∧
    (likes_tactic far_view fresh_ai TACTIC_PUSH (rng_of [])).1 = true := by
  decide

/-! ## Invalid phase types -/

/-- C33 (counterexample): a queued tactic whose active movement phase, or
active attack phase, has an invalid type is still queued after the call of
`handle_queued_tactic`: only the phase is cleared. -/
theorem invalid_phase_keeps_tactic :
    (handle_queued_tactic near_view bad_move_ai (rng_of [])).out = [] ∧
    (handle_queued_tactic near_view bad_move_ai (rng_of [])).a.tactic.tactic_type
      = TACTIC_CLOSE ∧
    (handle_queued_tactic near_view bad_attack_ai (rng_of [])).out = [] ∧
    (handle_queued_tactic near_view bad_attack_ai (rng_of [])).a.tactic.tactic_type
      = TACTIC_CLOSE := by
  decide

/-- C33 (amended): invalid phase types are flushed.  If `handle_queued_tactic`
runs on a tactic whose active movement phase has a `move_type` outside
`{Close, Avoid, Jump, Block}`, the call emits no action, reports that it did
not act, and clears the movement phase (`move_type = 0`, `move_timer = 0`); if
the active attack phase has an `attack_type` outside the ten attack types, the
call emits no action and clears the attack phase (`attack_type = 0`,
`attack_timer = 0`), and the next call resets the tactic state.  In both cases
`tactic_type` and every other field are left as they were. -/
theorem invalid_phase_flushed (v : fighter_view) (a : ai) (r : Rng) :
    (a.tactic.move_type > 4 → a.tactic.move_timer > 0 →
      (handle_queued_tactic v a r).out = [] ∧
      (handle_queued_tactic v a r).flag = false ∧
      (handle_queued_tactic v a r).a =
        { a with tactic := { a.tactic with move_type := 0, move_timer := 0 } }) ∧
    (¬ (a.tactic.move_type > 0 ∧ a.tactic.move_timer > 0) →
      a.tactic.attack_type > 10 → a.tactic.attack_timer > 0 →
      (handle_queued_tactic v a r).out = [] ∧
      (handle_queued_tactic v a r).a =
        { a with tactic := { a.tactic with attack_type := 0, attack_timer := 0 } } ∧
      ∀ (v2 : fighter_view) (r2 : Rng),
        (handle_queued_tactic v2 (handle_queued_tactic v a r).a r2).a =
          reset_tactic_state (handle_queued_tactic v a r).a) := by
  constructor
  · intro hm ht
    unfold handle_queued_tactic
    rw [if_pos ⟨by omega, ht⟩]
    unfold handle_move_phase
    dsimp only
    rw [if_neg (by show ¬ a.tactic.move_type = 1; omega),
      if_neg (by show ¬ a.tactic.move_type = 2; omega),
      if_neg (by show ¬ a.tactic.move_type = 3; omega),
      if_neg (by show ¬ a.tactic.move_type = 4; omega)]
    exact ⟨rfl, rfl, rfl⟩
  · intro hmv hat htm
    have key : handle_queued_tactic v a r =
        ⟨true, { a with tactic := { a.tactic with attack_type := 0, attack_timer := 0 } },
          (handle_queued_tactic v a r).r, []⟩ := by
      unfold handle_queued_tactic
      rw [if_neg hmv, if_pos ⟨by omega, htm⟩]
      unfold handle_attack_phase
      dsimp only
      unfold attack_switch
      rw [if_neg (by show ¬ a.tactic.attack_type = 1; omega),
        if_neg (by show ¬ a.tactic.attack_type = 2; omega),
        if_neg (by show ¬ a.tactic.attack_type = 3; omega),
        if_neg (by show ¬ a.tactic.attack_type = 4; omega),
        if_neg (by show ¬ a.tactic.attack_type = 5; omega),
        if_neg (by show ¬ a.tactic.attack_type = 6; omega),
        if_neg (by show ¬ a.tactic.attack_type = 7; omega),
        if_neg (by show ¬ a.tactic.attack_type = 8; omega),
        if_neg (by show ¬ a.tactic.attack_type = 9; omega),
        if_neg (by show ¬ a.tactic.attack_type = 10; omega)]
    rw [key]
    refine ⟨rfl, rfl, ?_⟩
    intro v2 r2
    unfold handle_queued_tactic
    rw [if_neg hmv, if_neg (fun h => lt_irrefl (0 : Int) h.1)]

theorem invalid_phase_flushed_witness :
    bad_move_ai.tactic.move_type > 4 ∧ bad_move_ai.tactic.move_timer > 0 ∧
    (handle_queued_tactic near_view bad_move_ai (rng_of [])).a.tactic.move_type = 0 ∧
    bad_attack_ai.tactic.attack_type > 10 ∧
    (handle_queued_tactic near_view
      (handle_queued_tactic near_view bad_attack_ai (rng_of [])).a (rng_of [])).a.tactic.tactic_type
      = 0 :=
  ⟨by decide, by decide,
    by rw [((invalid_phase_flushed near_view bad_move_ai (rng_of [])).1 (by decide)
      (by decide)).2.2],
    by decide,
    by rw [((invalid_phase_flushed near_view bad_attack_ai (rng_of [])).2 (by decide)
      (by decide) (by decide)).2.2 near_view (rng_of [])]; rfl⟩

/-! ## Special moves and the difficulty skip -/

theorem is_special_move_false (move : af_move) : is_special_move move = false := by
  unfold is_special_move str_equal_c
  by_cases h : move.move_string = ['K']
  · rw [h]
    decide
  · rw [if_pos]
    simp [h]

theorem move_too_powerful_false (a : ai) (move : af_move) (r : Rng) :
    move_too_powerful a move r = (false, r) := by
  unfold move_too_powerful r_and r_pure
  dsimp only
  rw [is_special_move_false]
  rfl

/-- C34: `is_special_move` returns false for every move, whatever its command
string, in particular for the twelve listed strings; hence `move_too_powerful`
is false for every controller and move, without a draw, and the loop body of
`attempt_attack` never skips a valid move on account of difficulty: it always
reaches the comparison with the best candidate so far. -/
theorem is_special_move_never (a : ai) (move : af_move) (r : Rng) :
    is_special_move move = false ∧
    (∀ s ∈ [['K'], ['K', '1'], ['K', '2'], ['K', '3'], ['K', '4'], ['K', '6'], ['P'],
        ['P', '1'], ['P', '2'], ['P', '3'], ['P', '4'], ['P', '6']],
      is_special_move { move with move_string := s } = false) ∧
    move_too_powerful a move r = (false, r) ∧
    ∀ (v : fighter_view) (p : pick) (i : Fin 70) (in_attempt_range : Bool),
      v.af_get_move i.val = some move → is_valid_move move v false = true →
      attempt_attack_step v a false in_attempt_range p i =
        if (!in_attempt_range &&
            decide (move.category = CAT_BASIC ∨ move.category = CAT_LOW ∨
              move.category = CAT_MEDIUM ∨ move.category = CAT_HIGH ∨
              move.category = CAT_LOW)) = true then p
        else pick_update p move (attack_learned_value a (a.move_stats i) move p.r).1
          (attack_learned_value a (a.move_stats i) move p.r).2 := by
  refine ⟨is_special_move_false move, fun s _ => is_special_move_false _,
    move_too_powerful_false a move r, ?_⟩
  intro v p i rg hm hv
  unfold attempt_attack_step
  rw [hm]
  dsimp only
  rw [if_pos hv, move_too_powerful_false]
  simp only [Bool.false_eq_true, if_false]

theorem is_special_move_never_witness :
    is_special_move jab = false ∧ jab.move_string = ['P'] ∧
    attempt_attack_step near_view fresh_ai false true ⟨none, 0, rng_of []⟩ 3 =
      pick_update ⟨none, 0, rng_of []⟩ jab
        (attack_learned_value fresh_ai (fresh_ai.move_stats 3) jab (rng_of [])).1
        (attack_learned_value fresh_ai (fresh_ai.move_stats 3) jab (rng_of [])).2 :=
  ⟨(is_special_move_never fresh_ai jab (rng_of [])).1, rfl,
    (is_special_move_never fresh_ai jab (rng_of [])).2.2.2 near_view ⟨none, 0, rng_of []⟩ 3 true
      rfl (by decide)⟩

/-! ## The smart and dumb gates -/

theorem smart_usually_needs_skill (a : ai) (r : Rng) (h : (smart_usually a r).1 = true) :
    a.difficulty ≥ 3 := by
  by_contra hc
  rw [smart_usually_low a r (by omega)] at h
  cases h

theorem dumb_usually_needs_none (a : ai) (r : Rng) (h : (dumb_usually a r).1 = true) :
    a.difficulty ≤ 2 := by
  by_contra hc
  unfold dumb_usually at h
  rw [if_neg (by omega), if_neg hc] at h
  cases h

theorem dumb_usually_one (a : ai) (r : Rng) (h : a.difficulty = 1) :
    (dumb_usually a r).1 = decide (r.draws r.pos % 12 ≠ 1) := by
  unfold dumb_usually r_not roll_chance rand_int
  rw [if_pos h, if_neg (by decide)]
  simp

theorem dumb_usually_two (a : ai) (r : Rng) (h : a.difficulty = 2) :
    (dumb_usually a r).1 = decide (r.draws r.pos % 3 = 1) := by
  unfold dumb_usually roll_chance rand_int
  rw [if_neg (by omega), if_pos (by omega), if_neg (by omega), h]
  rfl

/-- C40: the smart and dumb gates are mutually exclusive by difficulty.  For
every difficulty and every outcome of the draws `smart_usually` and
`dumb_usually` are never both true: `smart_usually` can only pass at
difficulty 3 or more and `dumb_usually` only at difficulty 2 or less, where it
passes for 11 of the 12 draws at difficulty 1 and for 1 of the 3 draws at
difficulty 2; and `dumb_sometimes` is false for every draw at difficulty 3 or
more. -/
theorem gates_exclusive (a : ai) (r1 r2 : Rng) :
    ¬ ((smart_usually a r1).1 = true ∧ (dumb_usually a r2).1 = true) ∧
    ((smart_usually a r1).1 = true → a.difficulty ≥ 3) ∧
    ((dumb_usually a r2).1 = true → a.difficulty ≤ 2) ∧
    (a.difficulty = 1 →
      (∀ r, (dumb_usually a r).1 = decide (r.draws r.pos % 12 ≠ 1)) ∧
      ((Finset.range 12).filter
        (fun k => (dumb_usually a (rng_of [k])).1 = true)).card = 11) ∧
    (a.difficulty = 2 →
      (∀ r, (dumb_usually a r).1 = decide (r.draws r.pos % 3 = 1)) ∧
      ((Finset.range 3).filter
        (fun k => (dumb_usually a (rng_of [k])).1 = true)).card = 1) ∧
    (a.difficulty ≥ 3 → ∀ r, (dumb_sometimes a r).1 = false) := by
  refine ⟨?_, smart_usually_needs_skill a r1, dumb_usually_needs_none a r2, ?_, ?_, ?_⟩
  · rintro ⟨h1, h2⟩
    have := smart_usually_needs_skill a r1 h1
    have := dumb_usually_needs_none a r2 h2
    omega
  · intro h
    refine ⟨fun r => dumb_usually_one a r h, ?_⟩
    have e : ∀ k : Nat, (dumb_usually a (rng_of [k])).1 = decide (k % 12 ≠ 1) :=
      fun k => dumb_usually_one a (rng_of [k]) h
    simp only [e]
    decide
  · intro h
    refine ⟨fun r => dumb_usually_two a r h, ?_⟩
    have e : ∀ k : Nat, (dumb_usually a (rng_of [k])).1 = decide (k % 3 = 1) :=
      fun k => dumb_usually_two a (rng_of [k]) h
    simp only [e]
    decide
  · intro h r
    unfold dumb_sometimes
    rw [if_neg (by omega)]

theorem gates_exclusive_witness :
    (smart_usually fresh_ai (rng_of [])).1 = true ∧ fresh_ai.difficulty ≥ 3 ∧
    (dumb_usually fresh_ai (rng_of [])).1 = false ∧
    (dumb_sometimes fresh_ai (rng_of [1])).1 = false :=
  ⟨by decide,
    (gates_exclusive fresh_ai (rng_of []) (rng_of [])).2.1 (by decide), by decide,
    (gates_exclusive fresh_ai (rng_of []) (rng_of [])).2.2.2.2.2 (by decide) (rng_of [1])⟩

/-! ## Compiling a tactic from a clean slate -/

/-- With the movement timer at zero beforehand, the movement timer after
`queue_tactic` is its maximum exactly when a movement phase is compiled. -/
theorem queue_tactic_move_timer_of_clear (v : fighter_view) (b : ai) (tactic_type : Int)
    (r : Rng) (h1 : 1 ≤ tactic_type) (h2 : tactic_type ≤ 11) (hm : b.tactic.move_timer = 0) :
    (queue_tactic v b tactic_type r).1.tactic.move_timer =
      (if (queue_tactic v b tactic_type r).1.tactic.move_type ≠ 0 then 5 else 0) := by
  interval_cases tactic_type <;> simp [queue_tactic, hm] <;> split_ifs <;> simp_all

/-- With the attack timer at zero beforehand, the attack timer after
`queue_tactic` is its maximum exactly when an attack phase is compiled. -/
theorem queue_tactic_attack_timer_of_clear (v : fighter_view) (b : ai) (tactic_type : Int)
    (r : Rng) (h1 : 1 ≤ tactic_type) (h2 : tactic_type ≤ 11) (ha : b.tactic.attack_timer = 0) :
    (queue_tactic v b tactic_type r).1.tactic.attack_timer =
      (if (queue_tactic v b tactic_type r).1.tactic.attack_type ≠ 0 then 2 else 0) := by
  interval_cases tactic_type <;> simp [queue_tactic, ha] <;> split_ifs <;> simp_all

/-- Every tactic of the source compiles a movement phase or an attack phase. -/
theorem queue_tactic_some_phase (v : fighter_view) (b : ai) (tactic_type : Int)
    (r : Rng) (h1 : 1 ≤ tactic_type) (h2 : tactic_type ≤ 11) :
    (queue_tactic v b tactic_type r).1.tactic.move_type ≠ 0 ∨
      (queue_tactic v b tactic_type r).1.tactic.attack_type ≠ 0 := by
  interval_cases tactic_type <;> simp [queue_tactic] <;> split_ifs <;> simp_all

/-- C37: for every tactic `T` in 1..11, every fighter view and every outcome of
the draws, `queue_tactic(T)` applied to a freshly reset tactic state yields
`move_timer = 5` if `move_type ≠ None` and 0 otherwise, `attack_timer = 2` if
`attack_type ≠ None` and 0 otherwise, and at least one of `move_type`,
`attack_type` is not None. -/
theorem queue_tactic_from_reset (v : fighter_view) (a : ai) (tactic_type : Int) (r : Rng)
    (h : 1 ≤ tactic_type ∧ tactic_type ≤ 11) :
    (queue_tactic v (reset_tactic_state a) tactic_type r).1.tactic.move_timer =
      (if (queue_tactic v (reset_tactic_state a) tactic_type r).1.tactic.move_type ≠ 0
        then 5 else 0) ∧
    (queue_tactic v (reset_tactic_state a) tactic_type r).1.tactic.attack_timer =
      (if (queue_tactic v (reset_tactic_state a) tactic_type r).1.tactic.attack_type ≠ 0
        then 2 else 0) ∧
    ((queue_tactic v (reset_tactic_state a) tactic_type r).1.tactic.move_type ≠ 0 ∨
      (queue_tactic v (reset_tactic_state a) tactic_type r).1.tactic.attack_type ≠ 0) :=
  ⟨queue_tactic_move_timer_of_clear v (reset_tactic_state a) tactic_type r h.1 h.2 rfl,
    queue_tactic_attack_timer_of_clear v (reset_tactic_state a) tactic_type r h.1 h.2 rfl,
    queue_tactic_some_phase v (reset_tactic_state a) tactic_type r h.1 h.2⟩

theorem queue_tactic_from_reset_witness :
    (1 ≤ TACTIC_FLY ∧ TACTIC_FLY ≤ 11) ∧
    (queue_tactic mid_view (reset_tactic_state countering_ai) TACTIC_FLY
      (rng_of [])).1.tactic.move_timer = 5 ∧
    (queue_tactic mid_view (reset_tactic_state countering_ai) TACTIC_FLY
      (rng_of [])).1.tactic.attack_timer = 2 :=
  ⟨by decide,
    (queue_tactic_from_reset mid_view countering_ai TACTIC_FLY (rng_of [])
      (by decide)).1.trans (by decide),
    (queue_tactic_from_reset mid_view countering_ai TACTIC_FLY (rng_of [])
      (by decide)).2.1.trans (by decide)⟩

/-! ## Observed hit distances -/

theorem dists_ordered_of_core {a b : ai} (h : same_core a b) (ha : dists_ordered a) :
    dists_ordered b := by
  intro i
  rw [h.move_stats]
  exact ha i

theorem dists_ordered_select (v : fighter_view) (a : ai) (m : af_move)
    (ha : dists_ordered a) : dists_ordered (set_selected_move v a m) := by
  intro i
  have h := ha i
  unfold set_selected_move set_stat
  dsimp only
  by_cases hi : i = m.id
  · subst hi
    rw [if_pos rfl]
    have habs : 0 ≤ |v.pos_x - v.enemy_pos_x| := abs_nonneg _
    unfold dist_ok at h ⊢
    dsimp only
    refine ⟨Or.inr habs, ?_⟩
    rcases h.2 with h2 | h2
    · exact Or.inl h2
    · exact Or.inr ⟨h2.1, h2.2.1, habs⟩
  · rw [if_neg hi]
    exact h

theorem dists_ordered_halve (a : ai) (ha : dists_ordered a) :
    dists_ordered { a with move_stats := halve_consecutive a.move_stats } :=
  fun i => ha i

theorem dists_ordered_poll_effect {v : fighter_view} {a b : ai} (h : poll_effect v a b)
    (ha : dists_ordered a) : dists_ordered b := by
  cases h with
  | unchanged h => exact dists_ordered_of_core h ha
  | cleared h => exact dists_ordered_of_core h ha
  | played m hm h =>
    refine dists_ordered_of_core h ?_
    unfold process_selected_move
    dsimp only
    split_ifs <;> exact ha
  | selected m f hv h =>
    exact dists_ordered_of_core h (dists_ordered_select v _ m (dists_ordered_halve a ha))
  | selected_by_id m hv h => exact dists_ordered_of_core h (dists_ordered_select v _ m ha)

theorem dists_ordered_land_hit (a : ai) (m : af_move) (ha : dists_ordered a) :
    dists_ordered (land_hit_update a m) := by
  intro i
  have h := ha i
  unfold land_hit_update set_stat
  dsimp only
  by_cases hi : i = m.id
  · subst hi
    rw [if_pos rfl]
    unfold dist_ok at h ⊢
    dsimp only
    refine ⟨h.1, ?_⟩
    rcases h.2 with ⟨h2, h3⟩ | ⟨h2, h3, h4⟩
    · rw [if_pos (Or.inl h3), if_pos (Or.inl h2)]
      rcases h.1 with h5 | h5
      · exact Or.inl ⟨h5, h5⟩
      · exact Or.inr ⟨h5, le_refl _, h5⟩
    · right
      split_ifs <;> refine ⟨?_, ?_, h4⟩ <;> omega
  · rw [if_neg hi]
    exact h

theorem dists_ordered_enemy_block (a : ai) (m : af_move) (ha : dists_ordered a) :
    dists_ordered (enemy_block_update a m) := by
  intro i
  have h := ha i
  unfold enemy_block_update set_stat
  dsimp only
  by_cases hi : i = m.id
  · subst hi
    rw [if_pos rfl]
    exact h
  · rw [if_neg hi]
    exact h

theorem dists_ordered_event_effect {a b : ai} (h : event_effect a b)
    (ha : dists_ordered a) : dists_ordered b := by
  cases h with
  | unchanged h => exact dists_ordered_of_core h ha
  | cleared h => exact dists_ordered_of_core h ha
  | land_hit m h =>
    exact dists_ordered_of_core h (dists_ordered_land_hit { a with selected_move := none } m ha)
  | enemy_block m h =>
    exact dists_ordered_of_core h
      (dists_ordered_enemy_block { a with selected_move := none } m ha)
  | adjusted t s p h => exact dists_ordered_of_core h ha

theorem Reachable.dists_ordered {a : ai} (h : Reachable a) : dists_ordered a := by
  induction h with
  | create d p i s =>
    intro j
    exact ⟨Or.inl rfl, Or.inl ⟨rfl, rfl⟩⟩
  | event v a e r _ ih => exact dists_ordered_event_effect (ai_har_event_effect v a e r) ih
  | poll v a r _ ih => exact dists_ordered_poll_effect (ai_controller_poll_effect v a r) ih

/-- C39: observed hit distances stay ordered.  In every state reachable from
`ai_controller_create` through `ai_har_event` and `ai_controller_poll`, for
every move stat, `min_hit_dist = -1` if and only if `max_hit_dist = -1`, and
otherwise `0 ≤ min_hit_dist ≤ max_hit_dist`. -/
theorem hit_dists_ordered (a : ai) (h : Reachable a) (i : Fin 70) :
    ((a.move_stats i).min_hit_dist = -1 ↔ (a.move_stats i).max_hit_dist = -1) ∧
    ((a.move_stats i).min_hit_dist ≠ -1 →
      0 ≤ (a.move_stats i).min_hit_dist ∧
        (a.move_stats i).min_hit_dist ≤ (a.move_stats i).max_hit_dist) := by
  have hd := (h.dists_ordered i).2
  rcases hd with ⟨h1, h2⟩ | ⟨h1, h2, _⟩
  · exact ⟨⟨fun _ => h2, fun _ => h1⟩, fun hn => absurd h1 hn⟩
  · exact ⟨⟨fun h3 => by omega, fun h3 => by omega⟩, fun _ => ⟨h1, h2⟩⟩

theorem hit_dists_ordered_witness :
    Reachable requeued_ai ∧ (requeued_ai.move_stats 3).min_hit_dist = 60 ∧
      (0 ≤ (requeued_ai.move_stats 3).min_hit_dist ∧
        (requeued_ai.move_stats 3).min_hit_dist ≤ (requeued_ai.move_stats 3).max_hit_dist) :=
  ⟨requeued_ai_reachable, by decide,
    (hit_dists_ordered requeued_ai requeued_ai_reachable 3).2 (by decide)⟩

/-! ## Mirror symmetry of the hard-coded attacks -/

theorem get_enemy_range_direction (v : fighter_view) (d : facing) :
    get_enemy_range { v with direction := d } = get_enemy_range v :=
  rfl

theorem stop_prelude_mirror (s : har_state) (pre : List Nat)
    (h : stop_prelude s = some pre) : pre.map mirror_act = pre := by
  cases s <;> simp only [stop_prelude, Option.some.injEq] at h <;> first
    | (subst h; decide)
    | exact absurd h (by simp)

theorem attempt_trip_attack_mirror (v : fighter_view) (r : Rng) :
    (attempt_trip_attack { v with direction := OBJECT_FACE_LEFT } r).1 =
      (attempt_trip_attack { v with direction := OBJECT_FACE_RIGHT } r).1 ∧
    (attempt_trip_attack { v with direction := OBJECT_FACE_LEFT } r).2.1 =
      (attempt_trip_attack { v with direction := OBJECT_FACE_RIGHT } r).2.1.map mirror_act ∧
    (attempt_trip_attack { v with direction := OBJECT_FACE_LEFT } r).2.2 =
      (attempt_trip_attack { v with direction := OBJECT_FACE_RIGHT } r).2.2 := by
  have hpre := stop_prelude_mirror v.state
  unfold attempt_trip_attack
  dsimp only
  cases hp : stop_prelude v.state with
  | none => exact ⟨rfl, rfl, rfl⟩
  | some pre =>
    dsimp only
    refine ⟨rfl, ?_, rfl⟩
    rw [List.map_append, hpre pre hp]
    rfl

theorem attempt_projectile_attack_mirror (v : fighter_view) (r : Rng) :
    (attempt_projectile_attack { v with direction := OBJECT_FACE_LEFT } r).1 =
      (attempt_projectile_attack { v with direction := OBJECT_FACE_RIGHT } r).1 ∧
    (attempt_projectile_attack { v with direction := OBJECT_FACE_LEFT } r).2.1 =
      (attempt_projectile_attack { v with direction := OBJECT_FACE_RIGHT } r).2.1.map
        mirror_act ∧
    (attempt_projectile_attack { v with direction := OBJECT_FACE_LEFT } r).2.2 =
      (attempt_projectile_attack { v with direction := OBJECT_FACE_RIGHT } r).2.2 := by
  unfold attempt_projectile_attack
  dsimp only
  split_ifs <;> refine ⟨rfl, ?_, rfl⟩ <;> rfl

theorem attempt_push_attack_mirror (v : fighter_view) (a : ai) (r : Rng) :
    (attempt_push_attack { v with direction := OBJECT_FACE_LEFT } a r).1 =
      (attempt_push_attack { v with direction := OBJECT_FACE_RIGHT } a r).1 ∧
    (attempt_push_attack { v with direction := OBJECT_FACE_LEFT } a r).2.1 =
      (attempt_push_attack { v with direction := OBJECT_FACE_RIGHT } a r).2.1.map mirror_act ∧
    (attempt_push_attack { v with direction := OBJECT_FACE_LEFT } a r).2.2 =
      (attempt_push_attack { v with direction := OBJECT_FACE_RIGHT } a r).2.2 := by
  have hpre := stop_prelude_mirror v.state
  unfold attempt_push_attack
  dsimp only
  simp only [get_enemy_range_direction]
  cases hp : stop_prelude v.state with
  | none => exact ⟨rfl, rfl, rfl⟩
  | some pre =>
    dsimp only
    split_ifs <;> refine ⟨rfl, ?_, rfl⟩ <;>
      simp only [List.map_append, hpre pre hp, List.append_nil, List.map_nil] <;> rfl

theorem attempt_charge_attack_mirror (v : fighter_view) (a : ai) (r : Rng) :
    (attempt_charge_attack { v with direction := OBJECT_FACE_LEFT } a r).1 =
      (attempt_charge_attack { v with direction := OBJECT_FACE_RIGHT } a r).1 ∧
    (attempt_charge_attack { v with direction := OBJECT_FACE_LEFT } a r).2.1 =
      (attempt_charge_attack { v with direction := OBJECT_FACE_RIGHT } a r).2.1.map
        mirror_act ∧
    (attempt_charge_attack { v with direction := OBJECT_FACE_LEFT } a r).2.2 =
      (attempt_charge_attack { v with direction := OBJECT_FACE_RIGHT } a r).2.2 := by
  have hpre := stop_prelude_mirror v.state
  unfold attempt_charge_attack
  dsimp only
  simp only [get_enemy_range_direction]
  cases hp : stop_prelude v.state with
  | none => exact ⟨rfl, rfl, rfl⟩
  | some pre =>
    dsimp only
    by_cases h0 : v.id = HAR_JAGUAR
    · simp only [if_pos h0]
      split_ifs <;> refine ⟨?_, ?_, ?_⟩ <;> first
        | trivial
        | rfl
        | (simp only [List.map_append, hpre pre hp, List.append_nil, List.map_nil]; rfl)
    simp only [if_neg h0]
    by_cases h1 : v.id = HAR_SHADOW
    · simp only [if_pos h1]
      refine ⟨?_, ?_, ?_⟩ <;> first
        | trivial
        | rfl
        | (simp only [List.map_append, hpre pre hp, List.append_nil, List.map_nil]; rfl)
    simp only [if_neg h1]
    by_cases h2 : v.id = HAR_KATANA
    · simp only [if_pos h2]
      split_ifs <;> refine ⟨?_, ?_, ?_⟩ <;> first
        | trivial
        | rfl
        | (simp only [List.map_append, hpre pre hp, List.append_nil, List.map_nil]; rfl)
    simp only [if_neg h2]
    by_cases h3 : v.id = HAR_FLAIL
    · simp only [if_pos h3]
      split_ifs <;> refine ⟨?_, ?_, ?_⟩ <;> first
        | trivial
        | rfl
        | (simp only [List.map_append, hpre pre hp, List.append_nil, List.map_nil]; rfl)
    simp only [if_neg h3]
    by_cases h4 : v.id = HAR_THORN
    · simp only [if_pos h4]
      refine ⟨?_, ?_, ?_⟩ <;> first
        | trivial
        | rfl
        | (simp only [List.map_append, hpre pre hp, List.append_nil, List.map_nil]; rfl)
    simp only [if_neg h4]
    by_cases h5 : v.id = HAR_PYROS
    · simp only [if_pos h5]
      split_ifs <;> refine ⟨?_, ?_, ?_⟩ <;> first
        | trivial
        | rfl
        | (simp only [List.map_append, hpre pre hp, List.append_nil, List.map_nil]; rfl)
    simp only [if_neg h5]
    by_cases h6 : v.id = HAR_ELECTRA
    · simp only [if_pos h6]
      split_ifs <;> refine ⟨?_, ?_, ?_⟩ <;> first
        | trivial
        | rfl
        | (simp only [List.map_append, hpre pre hp, List.append_nil, List.map_nil]; rfl)
    simp only [if_neg h6]
    by_cases h7 : v.id = HAR_CHRONOS
    · simp only [if_pos h7]
      split_ifs <;> refine ⟨?_, ?_, ?_⟩ <;> first
        | trivial
        | rfl
        | (simp only [List.map_append, hpre pre hp, List.append_nil, List.map_nil]; rfl)
    simp only [if_neg h7]
    by_cases h8 : v.id = HAR_SHREDDER
    · simp only [if_pos h8]
      split_ifs <;> refine ⟨?_, ?_, ?_⟩ <;> first
        | trivial
        | rfl
        | (simp only [List.map_append, hpre pre hp, List.append_nil, List.map_nil]; rfl)
    simp only [if_neg h8]
    by_cases h9 : v.id = HAR_GARGOYLE
    · simp only [if_pos h9]
      split_ifs <;> refine ⟨?_, ?_, ?_⟩ <;> first
        | trivial
        | rfl
        | (simp only [List.map_append, hpre pre hp, List.append_nil, List.map_nil]; rfl)
    simp only [if_neg h9]
    exact ⟨trivial, (hpre pre hp).symm, trivial⟩

/-- C38: the hard-coded input sequences are mirror-symmetric.  For every HAR
id, fighter state, enemy distance, pilot and state of the generator, each of
`attempt_charge_attack`, `attempt_push_attack`, `attempt_trip_attack` and
`attempt_projectile_attack` returns the same flag and leaves the same generator
whether the fighter faces left or right, and the action list emitted facing left
is the list emitted facing right with the Left and Right bits exchanged in every
action. -/
theorem hard_coded_attacks_mirror (v : fighter_view) (a : ai) (r : Rng) :
    ((attempt_charge_attack { v with direction := OBJECT_FACE_LEFT } a r).1 =
        (attempt_charge_attack { v with direction := OBJECT_FACE_RIGHT } a r).1 ∧
      (attempt_charge_attack { v with direction := OBJECT_FACE_LEFT } a r).2.1 =
        (attempt_charge_attack { v with direction := OBJECT_FACE_RIGHT } a r).2.1.map
          mirror_act ∧
      (attempt_charge_attack { v with direction := OBJECT_FACE_LEFT } a r).2.2 =
        (attempt_charge_attack { v with direction := OBJECT_FACE_RIGHT } a r).2.2) ∧
    ((attempt_push_attack { v with direction := OBJECT_FACE_LEFT } a r).1 =
        (attempt_push_attack { v with direction := OBJECT_FACE_RIGHT } a r).1 ∧
      (attempt_push_attack { v with direction := OBJECT_FACE_LEFT } a r).2.1 =
        (attempt_push_attack { v with direction := OBJECT_FACE_RIGHT } a r).2.1.map
          mirror_act ∧
      (attempt_push_attack { v with direction := OBJECT_FACE_LEFT } a r).2.2 =
        (attempt_push_attack { v with direction := OBJECT_FACE_RIGHT } a r).2.2) ∧
    ((attempt_trip_attack { v with direction := OBJECT_FACE_LEFT } r).1 =
        (attempt_trip_attack { v with direction := OBJECT_FACE_RIGHT } r).1 ∧
      (attempt_trip_attack { v with direction := OBJECT_FACE_LEFT } r).2.1 =
        (attempt_trip_attack { v with direction := OBJECT_FACE_RIGHT } r).2.1.map
          mirror_act ∧
      (attempt_trip_attack { v with direction := OBJECT_FACE_LEFT } r).2.2 =
        (attempt_trip_attack { v with direction := OBJECT_FACE_RIGHT } r).2.2) ∧
    ((attempt_projectile_attack { v with direction := OBJECT_FACE_LEFT } r).1 =
        (attempt_projectile_attack { v with direction := OBJECT_FACE_RIGHT } r).1 ∧
      (attempt_projectile_attack { v with direction := OBJECT_FACE_LEFT } r).2.1 =
        (attempt_projectile_attack { v with direction := OBJECT_FACE_RIGHT } r).2.1.map
          mirror_act ∧
      (attempt_projectile_attack { v with direction := OBJECT_FACE_LEFT } r).2.2 =
        (attempt_projectile_attack { v with direction := OBJECT_FACE_RIGHT } r).2.2) :=
  ⟨attempt_charge_attack_mirror v a r, attempt_push_attack_mirror v a r,
    attempt_trip_attack_mirror v r, attempt_projectile_attack_mirror v r⟩

/-- The Left and Right bits are exchanged, and the other bits are kept. -/
theorem mirror_act_samples :
    mirror_act ACT_LEFT = ACT_RIGHT ∧ mirror_act ACT_RIGHT = ACT_LEFT ∧
    mirror_act (ACT_DOWN ||| ACT_LEFT) = ACT_DOWN ||| ACT_RIGHT ∧
    mirror_act (ACT_RIGHT ||| ACT_PUNCH) = ACT_LEFT ||| ACT_PUNCH ∧
    mirror_act ACT_DOWN = ACT_DOWN ∧ mirror_act ACT_STOP = ACT_STOP ∧
    (attempt_trip_attack near_view (rng_of [])).2.1 = [16, 48, 34, 2] ∧
    (attempt_trip_attack { near_view with direction := OBJECT_FACE_LEFT } (rng_of [])).2.1 =
      [16, 80, 66, 2] := by
  decide

/-! ## The easiest opponent -/

theorem never_planning_of {p : sd_pilot} {a b : ai} (h : never_planning p a)
    (hd : b.difficulty = a.difficulty) (ht : b.tactic = a.tactic) (hp : b.pilot = a.pilot) :
    never_planning p b := by
  unfold never_planning at h ⊢
  rw [hd, ht, hp]
  exact h

theorem suggest_low (v : fighter_view) (a : ai) (ts : List Int) (r : Rng)
    (h : a.difficulty ≤ 2) : (suggest v a false ts r).1 = a :=
  (suggest_type v a ts r).1 (smart_usually_low a r h)

theorem take_hit_adjust_low (a : ai) (cat : Int) (r : Rng) (h : a.difficulty ≤ 2) :
    (take_hit_adjust a cat r).1.pilot = a.pilot := by
  have hs : ∀ (x : ai) (y : Rand Bool), x.difficulty = a.difficulty →
      ¬ (r_and (smart_usually x) y r).1 = true := by
    intro x y hx hg
    have h1 := (r_and_true hg).1
    rw [smart_usually_low x r (by omega)] at h1
    cases h1
  unfold take_hit_adjust
  dsimp only
  split_ifs with h1 h2 h3 h4
  · exact absurd h2 (hs _ _ rfl)
  · rfl
  · exact absurd h4 (hs _ _ rfl)
  · rfl
  · rfl

theorem react_never_planning (v : fighter_view) (a : ai) (event : har_event) (r : Rng)
    (p : sd_pilot) (h : never_planning p a) : never_planning p (react v a false event r).1 := by
  have hd : a.difficulty ≤ 2 := by rw [h.1]; decide
  obtain ⟨type, m⟩ := event
  cases type <;> unfold react <;> dsimp only
  case HAR_EVENT_LAND_HIT =>
    split_ifs
    · exact ⟨h.1, h.2.2.1, h.2.2.1, h.2.2.2⟩
    · rw [suggest_low v (land_hit_update a m) _ _ hd]
      exact h
  case HAR_EVENT_ENEMY_BLOCK =>
    split_ifs
    · rw [suggest_low v (enemy_block_update a m) _ _ hd]
      exact h
    · exact h
  case HAR_EVENT_TAKE_HIT =>
    have hd2 : (take_hit_adjust a m.category r).1.difficulty ≤ 2 := by
      rw [take_hit_adjust_difficulty]; exact hd
    have hn : never_planning p (take_hit_adjust a m.category r).1 :=
      never_planning_of h (take_hit_adjust_difficulty a _ r) (take_hit_adjust_tactic a _ r)
        (take_hit_adjust_low a _ r hd)
    split_ifs <;> rw [suggest_low _ _ _ _ hd2] <;> exact hn
  case HAR_EVENT_ENEMY_STUN =>
    have hg : (r_or (r_pure false) (r_not (smart_usually a)) r).1 = true := by
      unfold r_or r_pure r_not
      simp [smart_usually_low a r hd]
    rw [if_pos hg]
    exact h
  all_goals
    first
      | exact h
      | (rw [suggest_low _ _ _ _ hd]; exact h)
      | (split_ifs <;> first
          | (rw [suggest_low _ _ _ _ hd]; exact h)
          | (rename_i hc; simp at hc))

theorem ai_har_event_never_planning (v : fighter_view) (a : ai) (event : har_event) (r : Rng)
    (p : sd_pilot) (h : never_planning p a) :
    never_planning p (ai_har_event v a event r).1 := by
  have hq : decide (a.tactic.tactic_type > 0) = false := by
    rw [h.2.1]; rfl
  have hc : never_planning p (clear_on_event a event.type) := by
    cases event.type <;> exact h
  unfold ai_har_event
  dsimp only
  rw [hq]
  exact react_never_planning v _ event r p hc

theorem poll_ambient_tactic_low (v : fighter_view) (a : ai) (cm : Bool) (r : Rng)
    (hd : a.difficulty = 1) : (poll_ambient v a cm r).a.tactic = a.tactic := by
  unfold poll_ambient
  dsimp only
  rw [if_neg]
  · exact handle_movement_tactic v a r
  · intro hg
    have h1 := (r_and_true (r_and_true hg).2).1
    unfold smart_sometimes at h1
    rw [if_neg (by rw [(handle_movement_core v a r).difficulty, hd]; decide)] at h1
    cases h1

theorem poll_decide_tactic_low (v : fighter_view) (a : ai) (r : Rng)
    (hd : a.difficulty = 1) (ht : a.tactic.tactic_type = 0) :
    (poll_decide v a r).a.tactic = a.tactic := by
  have h1 : ∀ cm, poll_anti_throw v a cm r = ⟨false, a, r, []⟩ := by
    intro cm
    unfold poll_anti_throw
    dsimp only
    rw [if_neg]
    simp [hd]
  have h2 : ∀ cm r2, poll_tactic v a cm r2 = ⟨false, a, r2, []⟩ := by
    intro cm r2
    unfold poll_tactic
    dsimp only
    rw [if_neg]
    simp [ht]
  have h3 : ∀ r2, (poll_random_attack v a r2).a.tactic = a.tactic := by
    intro r2
    unfold poll_random_attack
    dsimp only
    split_ifs
    · show (attempt_attack v a false _).2.1.tactic = a.tactic
      rw [attempt_attack_tactic]
    · rw [attempt_attack_tactic]
    · rfl
  have h3d : ∀ r2, (poll_random_attack v a r2).a.difficulty = 1 := fun r2 =>
    (poll_effect_counters (poll_random_attack_effect v a r2)).2.2.2.trans hd
  unfold poll_decide
  dsimp only
  rw [h1]
  dsimp only
  rw [h2]
  dsimp only
  simp only [Bool.false_eq_true, if_false]
  split_ifs
  · exact h3 r
  · rw [poll_ambient_tactic_low v _ _ _ (h3d r)]
    exact h3 r

theorem ai_controller_poll_never_planning (v : fighter_view) (a : ai) (r : Rng)
    (p : sd_pilot) (h : never_planning p a) :
    never_planning p (ai_controller_poll v a r).a := by
  have hc := poll_effect_counters (ai_controller_poll_effect v a r)
  refine never_planning_of h hc.2.2.2 ?_ hc.2.2.1
  have hb : ∀ r, (ai_block_har v
      { a with act_timer := a.act_timer - 1, active_projectiles := v.projectiles } r).a.tactic
        = a.tactic := fun r => ai_block_har_tactic v _ r
  have hp : ∀ r r2, (ai_block_projectile v (ai_block_har v
      { a with act_timer := a.act_timer - 1, active_projectiles := v.projectiles } r).a
        r2).a.tactic = a.tactic := fun r r2 =>
    (ai_block_projectile_loop_tactic v _ _ r2).trans (hb r)
  have hpd : ∀ r r2, (ai_block_projectile v (ai_block_har v
      { a with act_timer := a.act_timer - 1, active_projectiles := v.projectiles } r).a
        r2).a.difficulty = a.difficulty := fun r r2 =>
    ((ai_block_projectile_core v _ r2).difficulty).trans (ai_block_har_core v _ r).difficulty
  unfold ai_controller_poll
  dsimp only
  split_ifs
  · rfl
  · rfl
  · exact hb r
  · exact hp _ _
  · split
    · dsimp only
      rw [process_selected_move_tactic, hp]
    · rw [poll_decide_tactic_low v _ _ ((hpd _ _).trans h.1) (by rw [hp]; exact h.2.1), hp]

theorem ReachableFrom.never_planning {p : sd_pilot} {a0 a : ai} (h0 : never_planning p a0)
    (h : ReachableFrom a0 a) : never_planning p a := by
  induction h with
  | start => exact h0
  | event v a e r _ ih => exact ai_har_event_never_planning v a e r p ih
  | poll v a r _ ih => exact ai_controller_poll_never_planning v a r p ih

/-- C35: the easiest opponent never plans.  For a controller created with
difficulty index 0 (stored difficulty 1), `tactic_type = None` in every state
reachable through any sequence of `ai_har_event` and `ai_controller_poll` calls,
for every fighter view and every state of the generator; and its pilot is the
one `ai_controller_create` left. -/
theorem easiest_never_plans (pilot : sd_pilot) (pilot_id shot : Int) (a : ai)
    (h : ReachableFrom (ai_controller_create 0 pilot pilot_id shot) a) :
    a.tactic.tactic_type = 0 ∧
      a.pilot = (ai_controller_create 0 pilot pilot_id shot).pilot :=
  have hn := ReachableFrom.never_planning
    (show never_planning (ai_controller_create 0 pilot pilot_id shot).pilot
      (ai_controller_create 0 pilot pilot_id shot) from ⟨rfl, rfl, rfl, rfl⟩) h
  ⟨hn.2.1, hn.2.2.2⟩

theorem easiest_later_ai_reachable : ReachableFrom easiest_ai easiest_later_ai :=
  ReachableFrom.poll near_view _ _ (ReachableFrom.event near_view easiest_ai _ _ .start)

theorem easiest_never_plans_witness :
    ReachableFrom (ai_controller_create 0 zero_pilot 6 0) easiest_later_ai ∧
    easiest_later_ai.act_timer = 26 ∧
    (easiest_later_ai.tactic.tactic_type = 0 ∧
      easiest_later_ai.pilot = (ai_controller_create 0 zero_pilot 6 0).pilot) :=
  ⟨easiest_later_ai_reachable, by decide,
    easiest_never_plans zero_pilot 6 0 easiest_later_ai easiest_later_ai_reachable⟩

/-! ## Expiry of a queued tactic -/

theorem tactic_reset_reset (a : ai) : tactic_reset (reset_tactic_state a).tactic :=
  ⟨rfl, rfl, rfl, rfl, rfl, rfl, rfl⟩

theorem tactic_reset_chain_first_liked (v : fighter_view) (a : ai) (cat : Int) (ts : List Int)
    (r : Rng) (h : tactic_reset a.tactic) :
    tactic_reset (chain_first_liked v a cat ts r).1.tactic := by
  induction ts generalizing r with
  | nil => exact h
  | cons t ts ih =>
    unfold chain_first_liked
    split
    · exact h
    · exact ih _

theorem tactic_reset_reset_and_chain (v : fighter_view) (a : ai) (gate : Rand Bool) (cat : Int)
    (ts : List Int) (r : Rng) : tactic_reset (reset_and_chain v a gate cat ts r).1.tactic := by
  unfold reset_and_chain
  split
  · exact tactic_reset_chain_first_liked v _ cat ts _ (tactic_reset_reset a)
  · exact tactic_reset_reset a

theorem tactic_reset_ranged_chain (v : fighter_view) (a : ai) (r : Rng)
    (h : tactic_reset a.tactic) : tactic_reset (ranged_chain v a r).1.tactic := by
  unfold ranged_chain
  dsimp only
  split_ifs
  · exact h
  · exact tactic_reset_chain_first_liked _ _ _ _ _ h
  · exact h

theorem shadow_followup_type (v : fighter_view) (a : ai) (r : Rng) :
    0 < (shadow_followup v a r).1.tactic.tactic_type := by
  unfold shadow_followup
  dsimp only
  split_ifs
  · exact (by decide : (0 : Int) < TACTIC_SHOOT)
  · exact (by decide : (0 : Int) < TACTIC_GRAB)
  · exact (by decide : (0 : Int) < TACTIC_FLY)

/-- Case analysis on the attack switch in which the Charge case knows that the
attack type is Charge. -/
theorem attack_switch_charge_cases (P : step_result → Prop) (v : fighter_view) (a : ai)
    (b : Bool) (r : Rng)
    (h_id : P (attack_id_case v a b r)) (h_trip : P (attack_trip_case v a r))
    (h_grab : P (attack_grab_case v a r)) (h_light : P (attack_light_case v a b r))
    (h_heavy : P (attack_heavy_case v a b r)) (h_jump : P (attack_jump_case v a b r))
    (h_ranged : P (attack_ranged_case v a r))
    (h_charge : a.tactic.attack_type = ATTACK_CHARGE → P (attack_charge_case v a r))
    (h_push : P (attack_push_case v a r)) (h_random : P (attack_random_case v a r))
    (h_other : P ⟨true,
      { a with tactic := { a.tactic with attack_type := 0, attack_timer := 0 } }, r, []⟩) :
    P (attack_switch v a b r) := by
  unfold attack_switch
  by_cases c1 : a.tactic.attack_type = ATTACK_ID
  · rw [if_pos c1]; exact h_id
  rw [if_neg c1]
  by_cases c2 : a.tactic.attack_type = ATTACK_TRIP
  · rw [if_pos c2]; exact h_trip
  rw [if_neg c2]
  by_cases c3 : a.tactic.attack_type = ATTACK_GRAB
  · rw [if_pos c3]; exact h_grab
  rw [if_neg c3]
  by_cases c4 : a.tactic.attack_type = ATTACK_LIGHT
  · rw [if_pos c4]; exact h_light
  rw [if_neg c4]
  by_cases c5 : a.tactic.attack_type = ATTACK_HEAVY
  · rw [if_pos c5]; exact h_heavy
  rw [if_neg c5]
  by_cases c6 : a.tactic.attack_type = ATTACK_JUMP
  · rw [if_pos c6]; exact h_jump
  rw [if_neg c6]
  by_cases c7 : a.tactic.attack_type = ATTACK_RANGED
  · rw [if_pos c7]; exact h_ranged
  rw [if_neg c7]
  by_cases c8 : a.tactic.attack_type = ATTACK_CHARGE
  · rw [if_pos c8]; exact h_charge c8
  rw [if_neg c8]
  by_cases c9 : a.tactic.attack_type = ATTACK_PUSH
  · rw [if_pos c9]; exact h_push
  rw [if_neg c9]
  by_cases c10 : a.tactic.attack_type = ATTACK_RANDOM
  · rw [if_pos c10]; exact h_random
  rw [if_neg c10]
  exact h_other

/-- What the attack switch does to the tactic state: it ends reset, or is left
as it was, or has its attack phase flushed, or a Shadow has queued the follow-up
of a successful Charge. -/
theorem attack_switch_outcome (v : fighter_view) (a : ai) (b : Bool) (r : Rng) :
    tactic_reset (attack_switch v a b r).a.tactic ∨
    (attack_switch v a b r).a.tactic = a.tactic ∨
    (attack_switch v a b r).a.tactic =
      { a.tactic with attack_type := 0, attack_timer := 0 } ∨
    (v.id = HAR_SHADOW ∧ a.tactic.attack_type = ATTACK_CHARGE ∧
      (attempt_charge_attack v a r).1 = true ∧
      0 < (attack_switch v a b r).a.tactic.tactic_type) := by
  apply attack_switch_charge_cases (fun s => tactic_reset s.a.tactic ∨ s.a.tactic = a.tactic ∨
    s.a.tactic = { a.tactic with attack_type := 0, attack_timer := 0 } ∨
    (v.id = HAR_SHADOW ∧ a.tactic.attack_type = ATTACK_CHARGE ∧
      (attempt_charge_attack v a r).1 = true ∧ 0 < s.a.tactic.tactic_type))
  · unfold attack_id_case
    split_ifs
    · exact Or.inr (Or.inl rfl)
    · exact Or.inl (tactic_reset_reset _)
    · exact Or.inr (Or.inl (assign_move_by_id_tactic _ _ _))
  · unfold attack_trip_case
    dsimp only
    split_ifs
    · exact Or.inl (tactic_reset_reset_and_chain _ _ _ _ _ _)
    · exact Or.inr (Or.inl rfl)
  · unfold attack_grab_case
    dsimp only
    split_ifs
    · exact Or.inr (Or.inl rfl)
    · exact Or.inl (tactic_reset_reset_and_chain _ _ _ _ _ _)
    · exact Or.inr (Or.inl (tactic_ok_grab_select _ _ _))
  · unfold attack_light_case attack_by_cat_case
    dsimp only
    split_ifs <;> first
      | exact Or.inr (Or.inl rfl)
      | exact Or.inl (tactic_reset_reset_and_chain _ _ _ _ _ _)
      | exact Or.inr (Or.inl (assign_move_by_cat_tactic _ _ _ _ _))
  · unfold attack_heavy_case attack_by_cat_case
    dsimp only
    split_ifs <;> first
      | exact Or.inr (Or.inl rfl)
      | exact Or.inl (tactic_reset_reset_and_chain _ _ _ _ _ _)
      | exact Or.inr (Or.inl (assign_move_by_cat_tactic _ _ _ _ _))
  · unfold attack_jump_case attack_random_case
    dsimp only
    split_ifs <;> first
      | exact Or.inr (Or.inl rfl)
      | exact Or.inl (tactic_reset_reset_and_chain _ _ _ _ _ _)
      | exact Or.inr (Or.inl (attempt_attack_tactic _ _ _ _))
  · unfold attack_ranged_case
    dsimp only
    split_ifs
    · exact Or.inl (tactic_reset_ranged_chain _ _ _ (tactic_reset_reset _))
    · exact Or.inr (Or.inl rfl)
  · intro hc
    unfold attack_charge_case
    dsimp only
    split_ifs with h1 h2
    · exact Or.inr (Or.inr (Or.inr ⟨h2, hc, h1, shadow_followup_type _ _ _⟩))
    · exact Or.inl (tactic_reset_reset _)
    · exact Or.inr (Or.inl rfl)
  · unfold attack_push_case
    dsimp only
    split_ifs
    · exact Or.inl (tactic_reset_reset _)
    · exact Or.inr (Or.inl rfl)
  · unfold attack_random_case
    dsimp only
    split_ifs
    · exact Or.inl (tactic_reset_reset_and_chain _ _ _ _ _ _)
    · exact Or.inr (Or.inl (attempt_attack_tactic _ _ _ _))
  · exact Or.inr (Or.inr (Or.inl rfl))

/-- The movement phase leaves the attack phase alone and lowers the movement
timer by one or to zero. -/
theorem handle_move_phase_timers (v : fighter_view) (a : ai) (r : Rng) :
    (handle_move_phase v a r).a.tactic.attack_type = a.tactic.attack_type ∧
    (handle_move_phase v a r).a.tactic.attack_timer = a.tactic.attack_timer ∧
    ((handle_move_phase v a r).a.tactic.move_timer = a.tactic.move_timer - 1 ∨
      (handle_move_phase v a r).a.tactic.move_timer = 0) := by
  unfold handle_move_phase
  dsimp only
  split_ifs <;> first
    | exact ⟨rfl, rfl, Or.inl rfl⟩
    | exact ⟨rfl, rfl, Or.inr rfl⟩

theorem shadow_followup_queues (v : fighter_view) (a : ai) (r : Rng) :
    ∃ t ∈ [TACTIC_SHOOT, TACTIC_GRAB, TACTIC_FLY], ∃ r2,
      (shadow_followup v a r).1 = (queue_tactic v a t r2).1 := by
  unfold shadow_followup
  dsimp only
  split_ifs
  · exact ⟨TACTIC_SHOOT, List.mem_cons_self _ _, _, rfl⟩
  · exact ⟨TACTIC_GRAB, List.mem_cons_of_mem _ (List.mem_cons_self _ _), _, rfl⟩
  · exact ⟨TACTIC_FLY,
      List.mem_cons_of_mem _ (List.mem_cons_of_mem _ (List.mem_cons_self _ _)), _, rfl⟩

theorem attack_switch_charge (v : fighter_view) (a : ai) (b : Bool) (r : Rng)
    (h : a.tactic.attack_type = ATTACK_CHARGE) :
    attack_switch v a b r = attack_charge_case v a r := by
  unfold attack_switch
  rw [h]
  rfl

/-- A successful Charge of a Shadow ends the call with one of Shoot, Grab and
Fly queued from the reset tactic state. -/
theorem handle_queued_tactic_shadow_charge (v : fighter_view) (a : ai) (r : Rng)
    (h : shadow_charge_succeeds v a r) :
    ∃ t ∈ [TACTIC_SHOOT, TACTIC_GRAB, TACTIC_FLY], ∃ r2,
      (handle_queued_tactic v a r).a = (queue_tactic v (reset_tactic_state a) t r2).1 := by
  obtain ⟨hs, hm, hc, ht, he⟩ := h
  have key : handle_queued_tactic v a r =
      attack_charge_case v
        { a with tactic := { a.tactic with attack_timer := a.tactic.attack_timer - 1 } }
        (r_or (r_pure v.close)
          (r_and (r_pure (decide (get_enemy_range v ≤ RANGE_MID))) (dumb_sometimes a)) r).2 := by
    unfold handle_queued_tactic
    rw [if_neg hm, if_pos ⟨by rw [hc]; decide, ht⟩]
    exact attack_switch_charge v
      { a with tactic := { a.tactic with attack_timer := a.tactic.attack_timer - 1 } } _ _ hc
  rw [key]
  unfold attack_charge_case
  dsimp only
  rw [if_pos he, if_pos hs]
  exact shadow_followup_queues v (reset_tactic_state a) _

/-- One call of `handle_queued_tactic`: the tactic state ends reset, or the
timers make progress and stay non-negative, or the call is a successful Charge
of a Shadow. -/
theorem handle_queued_tactic_step (v : fighter_view) (a : ai) (r : Rng) :
    tactic_reset (handle_queued_tactic v a r).a.tactic ∨
    (tactic_progress a.tactic (handle_queued_tactic v a r).a.tactic ∧
      (0 ≤ a.tactic.move_timer → 0 ≤ (handle_queued_tactic v a r).a.tactic.move_timer) ∧
      (0 ≤ a.tactic.attack_timer →
        0 ≤ (handle_queued_tactic v a r).a.tactic.attack_timer)) ∨
    shadow_charge_succeeds v a r := by
  unfold handle_queued_tactic
  split_ifs with h1 h2
  · obtain ⟨_, e2, e3⟩ := handle_move_phase_timers v a r
    refine Or.inr (Or.inl ⟨?_, ?_, ?_⟩)
    · unfold tactic_progress
      rw [e2]
      rcases e3 with e3 | e3 <;> rw [e3] <;> refine ⟨?_, le_refl _, ?_⟩ <;> omega
    · intro _
      rcases e3 with e3 | e3 <;> omega
    · intro h0
      rw [e2]; exact h0
  · unfold handle_attack_phase
    dsimp only
    rcases attack_switch_outcome v
      { a with tactic := { a.tactic with attack_timer := a.tactic.attack_timer - 1 } }
      (r_or (r_pure v.close)
        (r_and (r_pure (decide (get_enemy_range v ≤ RANGE_MID))) (dumb_sometimes a)) r).1
      (r_or (r_pure v.close)
        (r_and (r_pure (decide (get_enemy_range v ≤ RANGE_MID))) (dumb_sometimes a)) r).2
      with h | h | h | ⟨hs, hc, he, _⟩
    · exact Or.inl h
    · refine Or.inr (Or.inl ?_)
      rw [h]
      unfold tactic_progress
      dsimp only
      refine ⟨⟨le_refl _, ?_, ?_⟩, fun h0 => h0, fun _ => ?_⟩ <;> omega
    · refine Or.inr (Or.inl ?_)
      rw [h]
      unfold tactic_progress
      dsimp only
      refine ⟨⟨le_refl _, ?_, ?_⟩, fun h0 => h0, fun _ => le_refl _⟩ <;> omega
    · exact Or.inr (Or.inr ⟨hs, h1, hc, h2.2, he⟩)
  · exact Or.inl (tactic_reset_reset a)

theorem handle_queued_tactic_reset (v : fighter_view) (a : ai) (r : Rng)
    (h : tactic_reset a.tactic) : tactic_reset (handle_queued_tactic v a r).a.tactic := by
  unfold handle_queued_tactic
  rw [if_neg (fun hc => by rw [h.2.1] at hc; exact lt_irrefl _ hc.1),
    if_neg (fun hc => by rw [h.2.2.2.1] at hc; exact lt_irrefl _ hc.1)]
  exact tactic_reset_reset a

theorem run_queued_tactic_reset (a : ai) (steps : List (fighter_view × Rng))
    (h : tactic_reset a.tactic) : tactic_reset (run_queued_tactic a steps).tactic := by
  induction steps generalizing a with
  | nil => exact h
  | cons s rest ih => exact ih _ (handle_queued_tactic_reset s.1 a s.2 h)

theorem run_queued_tactic_expires (steps : List (fighter_view × Rng)) (a : ai)
    (hm : 0 ≤ a.tactic.move_timer) (ha : 0 ≤ a.tactic.attack_timer)
    (hs : never_requeued a steps)
    (hl : a.tactic.move_timer + a.tactic.attack_timer + 1 ≤ (steps.length : Int)) :
    tactic_reset (run_queued_tactic a steps).tactic := by
  induction steps generalizing a with
  | nil =>
    rw [List.length_nil] at hl
    omega
  | cons s rest ih =>
    show tactic_reset (run_queued_tactic (handle_queued_tactic s.1 a s.2).a rest).tactic
    have hs1 : ¬ shadow_charge_succeeds s.1 a s.2 := hs.1
    have hs2 : never_requeued (handle_queued_tactic s.1 a s.2).a rest := hs.2
    rcases handle_queued_tactic_step s.1 a s.2 with h | ⟨hp, h1, h2⟩ | h1
    · exact run_queued_tactic_reset _ rest h
    · refine ih _ (h1 hm) (h2 ha) hs2 ?_
      rw [List.length_cons] at hl
      have := hp.2.2
      push_cast at hl
      omega
    · exact absurd h1 hs1

/-- C36: a queued tactic always expires.  For every controller state with
`move_timer, attack_timer ≥ 0`, one call of `handle_queued_tactic` either ends
with the tactic state reset, or strictly decreases `move_timer + attack_timer`
without increasing either timer, the only exception being a successful Charge
attack by a Shadow HAR, which ends with one of Shoot, Grab and Fly queued from
the reset tactic state.  Hence in a run of successive calls none of which is
such a successful Charge, the tactic state is reset after
`move_timer + attack_timer + 1` calls, and after any larger number of them. -/
theorem queued_tactic_expires (a : ai) (hm : 0 ≤ a.tactic.move_timer)
    (ha : 0 ≤ a.tactic.attack_timer) :
    (∀ v r, tactic_reset (handle_queued_tactic v a r).a.tactic ∨
      tactic_progress a.tactic (handle_queued_tactic v a r).a.tactic ∨
      (shadow_charge_succeeds v a r ∧
        ∃ t ∈ [TACTIC_SHOOT, TACTIC_GRAB, TACTIC_FLY], ∃ r2,
          (handle_queued_tactic v a r).a =
            (queue_tactic v (reset_tactic_state a) t r2).1)) ∧
    (∀ steps : List (fighter_view × Rng), never_requeued a steps →
      a.tactic.move_timer + a.tactic.attack_timer + 1 ≤ (steps.length : Int) →
      tactic_reset (run_queued_tactic a steps).tactic) := by
  refine ⟨fun v r => ?_, fun steps hs hl => run_queued_tactic_expires steps a hm ha hs hl⟩
  rcases handle_queued_tactic_step v a r with h | h | h
  · exact Or.inl h
  · exact Or.inr (Or.inl h.1)
  · exact Or.inr (Or.inr ⟨h, handle_queued_tactic_shadow_charge v a r h⟩)

/-- Outside the five states of its opening switch `attempt_charge_attack`
returns false. -/
theorem attempt_charge_attack_refused (v : fighter_view) (a : ai) (r : Rng)
    (h : stop_prelude v.state = none) : (attempt_charge_attack v a r).1 = false := by
  unfold attempt_charge_attack
  dsimp only
  rw [h]

/-- A Shadow in the air is refused its Charge: the call is no successful
Charge, whatever the state and the generator. -/
theorem shadow_jumping_charge_fails (a : ai) (r : Rng) :
    ¬ shadow_charge_succeeds shadow_jumping_view a r :=
  fun h => Bool.false_ne_true
    ((attempt_charge_attack_refused shadow_jumping_view _ _ rfl).symm.trans h.2.2.2.2)

theorem queued_tactic_expires_witness :
    (0 ≤ shadow_charging_ai.tactic.move_timer ∧
      0 ≤ shadow_charging_ai.tactic.attack_timer) ∧
    (shadow_jumping_view.id = HAR_SHADOW ∧
      shadow_charging_ai.tactic.attack_type = ATTACK_CHARGE ∧
      shadow_charging_ai.tactic.tactic_type = TACTIC_CLOSE) ∧
    tactic_progress shadow_charging_ai.tactic
      (handle_queued_tactic shadow_jumping_view shadow_charging_ai (rng_of [])).a.tactic ∧
    shadow_charging_ai.tactic.move_timer + shadow_charging_ai.tactic.attack_timer + 1 = 2 ∧
    tactic_reset (run_queued_tactic shadow_charging_ai
      [(shadow_jumping_view, rng_of []), (shadow_jumping_view, rng_of [])]).tactic :=
  ⟨by decide, by decide,
    ((queued_tactic_expires shadow_charging_ai (by decide) (by decide)).1
      shadow_jumping_view (rng_of [])).elim (fun h => absurd h.1 (by decide))
      (fun h => h.elim id (fun h2 => absurd h2.1 (shadow_jumping_charge_fails _ _))),
    by decide,
    (queued_tactic_expires shadow_charging_ai (by decide) (by decide)).2
      [(shadow_jumping_view, rng_of []), (shadow_jumping_view, rng_of [])]
      ⟨shadow_jumping_charge_fails _ _, shadow_jumping_charge_fails _ _, trivial⟩
      (by decide)⟩

/-- The bound on a state of an actual run: the Counter tactic of `countering_ai`,
with timers 5 and 2, is reset after eight calls. -/
theorem countering_ai_expires :
    countering_ai.tactic.tactic_type = TACTIC_COUNTER ∧
    countering_ai.tactic.move_timer + countering_ai.tactic.attack_timer + 1 = 8 ∧
    tactic_reset
      (run_queued_tactic countering_ai (List.replicate 8 (mid_view, rng_of []))).tactic := by
  refine ⟨by decide, by decide, ?_⟩
  unfold tactic_reset
  decide

/-- The exception is real: a Shadow whose Charge succeeds on the last tick of
the attack phase ends the call with a tactic queued and the attack timer above
its value before the call. -/
theorem shadow_charge_requeues :
    shadow_charging_ai.tactic.move_timer = 0 ∧ shadow_charging_ai.tactic.attack_timer = 1 ∧
    shadow_charge_succeeds shadow_view shadow_charging_ai (rng_of []) ∧
    0 < (handle_queued_tactic shadow_view shadow_charging_ai (rng_of [])).a.tactic.tactic_type ∧
    (handle_queued_tactic shadow_view shadow_charging_ai (rng_of [])).a.tactic.attack_timer =
      2 :=
  ⟨by decide, by decide, ⟨by decide, by decide, by decide, by decide, by decide⟩, by decide,
    by decide⟩

end OpenOMF
